import Mathlib

/-!
Verification of the D3D11 render-state caching layer (`StateManager11.cpp`).

This file gives a shallow embedding, in Lean 4, of the state-translation and
caching logic of `rx::StateManager11` and `rx::ShaderConstants11` from
`src/gfx/angle/checkout/src/libANGLE/renderer/d3d/d3d11/StateManager11.cpp`,
together with theorems settling the specification claims about it.

Modelling conventions:
* machine unsigned integers are `Nat` with explicit `% 2^32` where C++
  overflow can matter; `GLint` values are `Int`;
* floating point colour/depth data is embedded as `ℚ` (the code under
  verification only copies and compares these values, it does not rely on
  rounding);
* D3D device objects (views, resources, buffers, shaders) are identified by
  `Nat` identities, mirroring the non-owning `uintptr_t` / serial caching the
  source performs; identity `0` plays the role of the null pointer / empty
  serial;
* calls into the `ID3D11DeviceContext` are recorded in an explicit trace
  (`DeviceCall`); external collaborators (renderer caches, texture storage,
  vertex/index data managers) are embedded as read-only inputs, as the spec
  fixes them to be out of scope.
-/

namespace Rx

/-! GLenum and D3D constants used by the embedded code. -/

def GL_ZERO : Nat := 0
def GL_ONE : Nat := 1
def GL_CONSTANT_COLOR : Nat := 0x8001
def GL_ONE_MINUS_CONSTANT_COLOR : Nat := 0x8002
def GL_CONSTANT_ALPHA : Nat := 0x8003
def GL_ONE_MINUS_CONSTANT_ALPHA : Nat := 0x8004
def GL_FUNC_ADD : Nat := 0x8006
def GL_LESS : Nat := 0x0201
def GL_ALWAYS : Nat := 0x0207
def GL_KEEP : Nat := 0x1E00
def GL_CCW : Nat := 0x0901
def GL_CW : Nat := 0x0900
def GL_POINTS : Nat := 0x0000
def GL_LINES : Nat := 0x0001
def GL_LINE_LOOP : Nat := 0x0002
def GL_LINE_STRIP : Nat := 0x0003
def GL_TRIANGLES : Nat := 0x0004
def GL_TRIANGLE_STRIP : Nat := 0x0005
def GL_TRIANGLE_FAN : Nat := 0x0006
def GL_TEXTURE : Nat := 0x1702
def GL_FRAMEBUFFER_DEFAULT : Nat := 0x8218
def GL_RENDERBUFFER : Nat := 0x8D41
def GL_UNSIGNED_INT : Nat := 0x1405
def GL_INVALID_INDEX : Nat := 0xFFFFFFFF

def UINT32_MOD : Nat := 2 ^ 32
def UINT_MAX_VAL : Nat := 2 ^ 32 - 1
def INT_MAX_VAL : Nat := 2 ^ 31 - 1

def D3D_PRIMITIVE_TOPOLOGY_UNDEFINED : Nat := 0
def D3D_PRIMITIVE_TOPOLOGY_POINTLIST : Nat := 1
def D3D_PRIMITIVE_TOPOLOGY_LINELIST : Nat := 2
def D3D_PRIMITIVE_TOPOLOGY_LINESTRIP : Nat := 3
def D3D_PRIMITIVE_TOPOLOGY_TRIANGLELIST : Nat := 4
def D3D_PRIMITIVE_TOPOLOGY_TRIANGLESTRIP : Nat := 5

def DXGI_FORMAT_UNKNOWN : Nat := 0
def DXGI_FORMAT_R32_UINT : Nat := 42
def DXGI_FORMAT_R16_UINT : Nat := 57

/-- gl::MAX_VERTEX_ATTRIBS, the fixed vertex attribute array size. -/
def MAX_VERTEX_ATTRIBS : Nat := 16

/-- gl::ShaderType as used by the state manager (draw and compute stages). -/
inductive ShaderType where
  | Vertex
  | Fragment
  | Compute
deriving DecidableEq, Repr

/-- gl::TextureType, restricted to the cases `ImageIndexConflictsWithSRV`
distinguishes. -/
inductive TextureType where
  | t2D
  | t2DArray
  | CubeMap
  | t3D
  | Other
deriving DecidableEq, Repr

/-- D3D11_SHADER_RESOURCE_VIEW_DESC, restricted to the view-dimension payloads
read by `ImageIndexConflictsWithSRV`: each carries MostDetailedMip, MipLevels
and (for arrays) FirstArraySlice / ArraySize. -/
inductive SRVDesc where
  | Texture2D (mostDetailedMip mipLevels : Nat)
  | Texture2DArray (mostDetailedMip mipLevels firstArraySlice arraySize : Nat)
  | TextureCube (mostDetailedMip mipLevels : Nat)
  | Texture3D (mostDetailedMip mipLevels : Nat)
  | OtherDim
deriving DecidableEq, Repr

instance : Inhabited SRVDesc := ⟨SRVDesc.OtherDim⟩

/-- gl::ImageIndex: texture type, mip index and (signed) layer index. -/
structure ImageIndex where
  type : TextureType
  mipIndex : Nat
  layerIndex : Int
deriving DecidableEq, Repr

/-- Modelled from the spec: `gl::RangeUI.intersects` (common/mathutil.h is
not part of the analyzed sources). The spec describes view descriptions as
half-open mip/layer ranges, so two ranges intersect when the maximum of the
low ends is below the minimum of the high ends. -/
def rangeIntersects (lo1 hi1 lo2 hi2 : Nat) : Bool :=
  max lo1 lo2 < min hi1 hi2

/-- ImageIndexConflictsWithSRV (StateManager11.cpp, anonymous namespace):
does the given image index overlap the mip/layer window of an SRV
description?  Unsigned arithmetic wraps modulo 2^32 as in the source. -/
def ImageIndexConflictsWithSRV (index : ImageIndex) (desc : SRVDesc) : Bool :=
  let mipLevel := index.mipIndex
  let textureType := index.type
  match desc with
  | SRVDesc.Texture2D mostDetailedMip mipLevels =>
      let allLevels := mipLevels = UINT_MAX_VAL
      let maxSrvMip := (mipLevels + mostDetailedMip) % UINT32_MOD
      let maxSrvMip := if allLevels then INT_MAX_VAL else maxSrvMip
      let mipMin := index.mipIndex
      let mipMax := INT_MAX_VAL
      textureType = TextureType.t2D &&
        rangeIntersects mipMin mipMax mostDetailedMip maxSrvMip
  | SRVDesc.Texture2DArray mostDetailedMip mipLevels firstArraySlice arraySize =>
      let layerIndex := index.layerIndex
      let allLevels := mipLevels = UINT_MAX_VAL
      let maxSrvMip := (mipLevels + mostDetailedMip) % UINT32_MOD
      let maxSrvMip := if allLevels then INT_MAX_VAL else maxSrvMip
      let maxSlice := (firstArraySlice + arraySize) % UINT32_MOD
      let layerAsUInt := (layerIndex % (UINT32_MOD : Int)).toNat
      (textureType = TextureType.t2DArray || textureType = TextureType.CubeMap) &&
        mostDetailedMip ≤ mipLevel && mipLevel < maxSrvMip &&
        firstArraySlice ≤ layerAsUInt && layerAsUInt < maxSlice
  | SRVDesc.TextureCube mostDetailedMip mipLevels =>
      let allLevels := mipLevels = UINT_MAX_VAL
      let maxSrvMip := (mipLevels + mostDetailedMip) % UINT32_MOD
      let maxSrvMip := if allLevels then INT_MAX_VAL else maxSrvMip
      textureType = TextureType.CubeMap &&
        mostDetailedMip ≤ mipLevel && mipLevel < maxSrvMip
  | SRVDesc.Texture3D mostDetailedMip mipLevels =>
      let allLevels := mipLevels = UINT_MAX_VAL
      let maxSrvMip := (mipLevels + mostDetailedMip) % UINT32_MOD
      let maxSrvMip := if allLevels then INT_MAX_VAL else maxSrvMip
      textureType = TextureType.t3D &&
        mostDetailedMip ≤ mipLevel && mipLevel < maxSrvMip
  | SRVDesc.OtherDim => false

/-! View cache (StateManager11::ViewCache). -/

/-- ViewRecord: per-slot record of view identity, underlying resource
identity, and the view description (StateManager11.h data, populated by
`ViewCache::update`).  A zero `view` field means the slot holds no view. -/
structure ViewRecord where
  view : Nat
  resource : Nat
  desc : SRVDesc
deriving DecidableEq, Repr

instance : Inhabited ViewRecord := ⟨⟨0, 0, default⟩⟩

/-- A non-null shader resource view handle as passed to the cache: its device
identity (nonzero for a real view), the identity of its underlying resource
(`GetViewResource`, non-owning) and its description (`GetDesc`). -/
structure SRVHandle where
  id : Nat
  resource : Nat
  desc : SRVDesc
deriving DecidableEq, Repr

/-- ViewCache: fixed-size slot array plus the highest-used tracking counter
(`mHighestUsedView`). -/
structure ViewCache where
  mCurrentViews : List ViewRecord
  mHighestUsedView : Nat
deriving DecidableEq, Repr

namespace ViewCache

/-- ViewCache constructor plus `initialize(size)`: `size` zeroed records,
`mHighestUsedView = 0`. -/
def init (size : Nat) : ViewCache :=
  { mCurrentViews := List.replicate size default, mHighestUsedView := 0 }

def size (c : ViewCache) : Nat := c.mCurrentViews.length

def highestUsed (c : ViewCache) : Nat := c.mHighestUsedView

/-- Slot read (`operator[]`), with the out-of-range default never reached
under the ASSERT precondition of the source. -/
def record (c : ViewCache) (i : Nat) : ViewRecord :=
  c.mCurrentViews.getD i default

/-- The downward scan of `ViewCache::update` on unbind:
`do { --mHighestUsedView; } while (mHighestUsedView > 0 &&
mCurrentViews[mHighestUsedView].view == 0)`. -/
def shrinkHighest (views : List ViewRecord) : Nat → Nat
  | 0 => 0
  | h + 1 =>
      if 0 < h ∧ (views.getD h default).view = 0 then shrinkHighest views h
      else h

/-- ViewCache::update. Binding records the view identity, resource identity
and description and bumps `mHighestUsedView`; unbinding zeroes the
view/resource fields and, when the unbound slot was the highest used one,
runs the downward scan. -/
def update (c : ViewCache) (resourceIndex : Nat) (view : Option SRVHandle) :
    ViewCache :=
  match view with
  | some v =>
      let views := c.mCurrentViews.set resourceIndex
        { view := v.id, resource := v.resource, desc := v.desc }
      { mCurrentViews := views,
        mHighestUsedView := max (resourceIndex + 1) c.mHighestUsedView }
  | none =>
      let old := c.record resourceIndex
      let views := c.mCurrentViews.set resourceIndex
        { view := 0, resource := 0, desc := old.desc }
      if resourceIndex + 1 = c.mHighestUsedView then
        { mCurrentViews := views,
          mHighestUsedView := shrinkHighest views c.mHighestUsedView }
      else
        { mCurrentViews := views, mHighestUsedView := c.mHighestUsedView }

/-- ViewCache::clear: bulk reset of all records and the counter (no-op on an
empty cache). -/
def clear (c : ViewCache) : ViewCache :=
  if c.mCurrentViews.isEmpty then c
  else
    { mCurrentViews := List.replicate c.mCurrentViews.length default,
      mHighestUsedView := 0 }

end ViewCache

/-- A single cache operation, for stating invariants over arbitrary
update/clear histories. -/
inductive ViewCacheOp where
  | update (resourceIndex : Nat) (view : Option SRVHandle)
  | clear
deriving Repr

def ViewCacheOp.apply (c : ViewCache) : ViewCacheOp → ViewCache
  | ViewCacheOp.update i v => c.update i v
  | ViewCacheOp.clear => c.clear

def ViewCache.applyOps (c : ViewCache) (ops : List ViewCacheOp) : ViewCache :=
  ops.foldl ViewCacheOp.apply c

/-- One past the largest slot index bound with a non-null view by the
operation list (reset by clear); used to bound `mHighestUsedView`. -/
def boundAfter (b : Nat) : List ViewCacheOp → Nat
  | [] => b
  | ViewCacheOp.update i (some _) :: ops => boundAfter (max (i + 1) b) ops
  | ViewCacheOp.update _ none :: ops => boundAfter b ops
  | ViewCacheOp.clear :: ops => boundAfter 0 ops

/-! Logical GL state blocks (read-only inputs of the synchronizers). -/

/-- gl::BlendState, the fields the state manager reads. -/
structure BlendState where
  blend : Bool
  sourceBlendRGB : Nat
  destBlendRGB : Nat
  sourceBlendAlpha : Nat
  destBlendAlpha : Nat
  blendEquationRGB : Nat
  blendEquationAlpha : Nat
  colorMaskRed : Bool
  colorMaskGreen : Bool
  colorMaskBlue : Bool
  colorMaskAlpha : Bool
  sampleAlphaToCoverage : Bool
  dither : Bool
deriving DecidableEq, Repr

/-- gl::DepthStencilState. -/
structure DepthStencilState where
  depthTest : Bool
  depthFunc : Nat
  depthMask : Bool
  stencilTest : Bool
  stencilFunc : Nat
  stencilMask : Nat
  stencilFail : Nat
  stencilPassDepthFail : Nat
  stencilPassDepthPass : Nat
  stencilWritemask : Nat
  stencilBackFunc : Nat
  stencilBackMask : Nat
  stencilBackFail : Nat
  stencilBackPassDepthFail : Nat
  stencilBackPassDepthPass : Nat
  stencilBackWritemask : Nat
deriving DecidableEq, Repr

/-- gl::CullFaceMode. -/
inductive CullFaceMode where
  | Front
  | Back
  | FrontAndBack
deriving DecidableEq, Repr

/-- gl::RasterizerState. -/
structure RasterizerState where
  rasterizerDiscard : Bool
  cullFace : Bool
  cullMode : CullFaceMode
  frontFace : Nat
  polygonOffsetFill : Bool
  polygonOffsetFactor : ℚ
  polygonOffsetUnits : ℚ
  pointDrawMode : Bool
  multiSample : Bool
deriving DecidableEq, Repr

/-- gl::Rectangle. -/
structure Rectangle where
  x : Int
  y : Int
  width : Int
  height : Int
deriving DecidableEq, Repr

/-- gl::ColorF. -/
structure ColorF where
  red : ℚ
  green : ℚ
  blue : ℚ
  alpha : ℚ
deriving DecidableEq, Repr

/-- gl::Extents. -/
structure Extents where
  width : Int
  height : Int
  depth : Int
deriving DecidableEq, Repr

/-- D3D11_VIEWPORT. -/
structure D3DViewport where
  TopLeftX : ℚ
  TopLeftY : ℚ
  Width : ℚ
  Height : ℚ
  MinDepth : ℚ
  MaxDepth : ℚ
deriving DecidableEq, Repr

/-- D3D11_RECT. -/
structure D3DRect where
  left : Int
  top : Int
  right : Int
  bottom : Int
deriving DecidableEq, Repr

/-- gl::clamp. -/
def glClamp (x lo hi : Int) : Int := max lo (min x hi)

/-- gl::clamp01. -/
def clamp01 (x : ℚ) : ℚ := max 0 (min x 1)

/-! Shader constants builder (ShaderConstants11). -/

/-- ShaderConstants11::Vertex, the driver constant header block of the vertex
stage. -/
structure VertexConstants where
  depthRange : ℚ × ℚ × ℚ
  viewAdjust : ℚ × ℚ × ℚ × ℚ
  viewCoords : ℚ × ℚ × ℚ × ℚ
  viewScale : ℚ × ℚ
  multiviewWriteToViewportIndex : ℚ
deriving DecidableEq, Repr

/-- ShaderConstants11::Pixel, the driver constant header block of the pixel
stage. -/
structure PixelConstants where
  depthRange : ℚ × ℚ × ℚ
  viewCoords : ℚ × ℚ × ℚ × ℚ
  depthFront : ℚ × ℚ
  viewScale : ℚ × ℚ
  multiviewWriteToViewportIndex : ℚ
deriving DecidableEq, Repr

/-- ShaderConstants11::Compute, the driver constant header block of the
compute stage. -/
structure ComputeConstants where
  numWorkGroups : Nat × Nat × Nat
deriving DecidableEq, Repr

/-- ShaderConstants11::SamplerMetadata. -/
structure SamplerMetadata where
  baseLevel : Int
  internalFormatBits : Int
  wrapModes : Int
deriving DecidableEq, Repr

instance : Inhabited SamplerMetadata := ⟨⟨0, 0, 0⟩⟩

/-- The header block written to a driver constant buffer, tagged per stage. -/
inductive DriverConstantsData where
  | vertex (v : VertexConstants)
  | pixel (p : PixelConstants)
  | compute (c : ComputeConstants)
deriving DecidableEq, Repr

/-- GetWrapBits (StateManager11.cpp, anonymous namespace). -/
def GetWrapBits (wrap : Nat) : Int :=
  if wrap = 0x812F then 1       -- GL_CLAMP_TO_EDGE
  else if wrap = 0x2901 then 2  -- GL_REPEAT
  else if wrap = 0x8370 then 3  -- GL_MIRRORED_REPEAT
  else 0                        -- UNREACHABLE

/-- The texture queries `updateSamplerMetadata` makes: effective base level,
sized internal format at the base level, and the three wrap modes. -/
structure TextureMetadataSource where
  baseLevel : Nat
  sizedFormat : Nat
  wrapS : Nat
  wrapT : Nat
  wrapR : Nat
deriving DecidableEq, Repr

/-- The 32-bit integer sized formats of the `updateSamplerMetadata` switch
(internalFormatBits stays 0). -/
def intFormats32 : List Nat :=
  [0x8D82, 0x8D70, 0x8D83, 0x8D71, 0x823B, 0x823C, 0x8235, 0x8236]

/-- The 16-bit integer sized formats (internalFormatBits 16). -/
def intFormats16 : List Nat :=
  [0x8D88, 0x8D76, 0x8D89, 0x8D77, 0x8239, 0x823A, 0x8233, 0x8234]

/-- The 8-bit integer sized formats (internalFormatBits 8). -/
def intFormats8 : List Nat :=
  [0x8D8E, 0x8D7C, 0x8D8F, 0x8D7D, 0x8237, 0x8238, 0x8231, 0x8232]

/-- GL_RGB10_A2UI (internalFormatBits 10). -/
def GL_RGB10_A2UI : Nat := 0x906F

/-- ShaderConstants11::updateSamplerMetadata: refresh one metadata record
from a texture, returning the new record and whether anything changed. -/
def updateSamplerMetadata (data : SamplerMetadata) (texture : TextureMetadataSource) :
    SamplerMetadata × Bool :=
  let dirty := false
  let baseLevel := texture.baseLevel
  let sizedFormat := texture.sizedFormat
  let (data, dirty) :=
    if data.baseLevel ≠ (baseLevel : Int) then
      ({ data with baseLevel := (baseLevel : Int) }, true)
    else (data, dirty)
  let needIntegerTextureMetadata :=
    sizedFormat ∈ intFormats32 ∨ sizedFormat ∈ intFormats16 ∨
      sizedFormat ∈ intFormats8 ∨ sizedFormat = GL_RGB10_A2UI
  let internalFormatBits : Int :=
    if sizedFormat ∈ intFormats16 then 16
    else if sizedFormat ∈ intFormats8 then 8
    else if sizedFormat = GL_RGB10_A2UI then 10
    else 0
  if needIntegerTextureMetadata then
    let (data, dirty) :=
      if data.internalFormatBits ≠ internalFormatBits then
        ({ data with internalFormatBits := internalFormatBits }, true)
      else (data, dirty)
    let wrapModes := GetWrapBits texture.wrapS + GetWrapBits texture.wrapT * 4 +
      GetWrapBits texture.wrapR * 16
    if data.wrapModes ≠ wrapModes then
      ({ data with wrapModes := wrapModes }, true)
    else (data, dirty)
  else (data, dirty)

/-- ShaderConstants11: per-stage driver constant images, per-stage dirty
flags (`mShaderConstantsDirty`) and the count of sampler metadata entries
last uploaded per stage. -/
structure ShaderConstants11 where
  mVertex : VertexConstants
  mPixel : PixelConstants
  mCompute : ComputeConstants
  mShaderConstantsDirtyVS : Bool
  mShaderConstantsDirtyPS : Bool
  mShaderConstantsDirtyCS : Bool
  mSamplerMetadataVS : List SamplerMetadata
  mSamplerMetadataPS : List SamplerMetadata
  mSamplerMetadataCS : List SamplerMetadata
  mNumActiveVSSamplers : Nat
  mNumActivePSSamplers : Nat
  mNumActiveCSSamplers : Nat
deriving DecidableEq, Repr

namespace ShaderConstants11

/-- ShaderConstants11::markDirty. -/
def markDirty (s : ShaderConstants11) : ShaderConstants11 :=
  { s with
    mShaderConstantsDirtyVS := true
    mShaderConstantsDirtyPS := true
    mShaderConstantsDirtyCS := true
    mNumActiveVSSamplers := 0
    mNumActivePSSamplers := 0
    mNumActiveCSSamplers := 0 }

/-- ShaderConstants11::setComputeWorkGroups. -/
def setComputeWorkGroups (s : ShaderConstants11) (x y z : Nat) :
    ShaderConstants11 :=
  { s with
    mCompute := { numWorkGroups := (x, y, z) }
    mShaderConstantsDirtyCS := true }

/-- ShaderConstants11::setMultiviewWriteToViewportIndex. -/
def setMultiviewWriteToViewportIndex (s : ShaderConstants11) (index : ℚ) :
    ShaderConstants11 :=
  { s with
    mVertex := { s.mVertex with multiviewWriteToViewportIndex := index }
    mPixel := { s.mPixel with multiviewWriteToViewportIndex := index }
    mShaderConstantsDirtyVS := true
    mShaderConstantsDirtyPS := true }

/-- ShaderConstants11::onViewportChange. -/
def onViewportChange (s : ShaderConstants11) (glViewport : Rectangle)
    (dxViewport : D3DViewport) (is9_3 presentPathFast : Bool) :
    ShaderConstants11 :=
  let viewAdjust :=
    if is9_3 then
      ((((glViewport.width : ℚ) - dxViewport.Width) +
          2 * ((glViewport.x : ℚ) - dxViewport.TopLeftX)) / dxViewport.Width,
       (((glViewport.height : ℚ) - dxViewport.Height) +
          2 * ((glViewport.y : ℚ) - dxViewport.TopLeftY)) / dxViewport.Height,
       (glViewport.width : ℚ) / dxViewport.Width,
       (glViewport.height : ℚ) / dxViewport.Height)
    else s.mVertex.viewAdjust
  let viewCoords :=
    ((glViewport.width : ℚ) / 2,
     (glViewport.height : ℚ) / 2,
     (glViewport.x : ℚ) + (glViewport.width : ℚ) / 2,
     (glViewport.y : ℚ) + (glViewport.height : ℚ) / 2)
  let zNear := dxViewport.MinDepth
  let zFar := dxViewport.MaxDepth
  let viewScale : ℚ × ℚ := (1, if presentPathFast then 1 else -1)
  { s with
    mShaderConstantsDirtyVS := true
    mShaderConstantsDirtyPS := true
    mVertex := { s.mVertex with
      viewAdjust := viewAdjust
      viewCoords := viewCoords
      depthRange := (zNear, zFar, zFar - zNear)
      viewScale := viewScale }
    mPixel := { s.mPixel with
      viewCoords := viewCoords
      depthFront := ((zFar - zNear) / 2, (zNear + zFar) / 2)
      depthRange := (zNear, zFar, zFar - zNear)
      viewScale := viewScale } }

/-- ShaderConstants11::onSamplerChange: refresh one metadata slot; when the
metadata actually changed, reset the uploaded-sampler count of that stage to
zero so the next updateBuffer re-uploads. -/
def onSamplerChange (s : ShaderConstants11) (shaderType : ShaderType)
    (samplerIndex : Nat) (texture : TextureMetadataSource) :
    ShaderConstants11 :=
  match shaderType with
  | ShaderType.Vertex =>
      let (data, dirty) :=
        updateSamplerMetadata (s.mSamplerMetadataVS.getD samplerIndex default) texture
      let s := { s with mSamplerMetadataVS := s.mSamplerMetadataVS.set samplerIndex data }
      if dirty then { s with mNumActiveVSSamplers := 0 } else s
  | ShaderType.Fragment =>
      let (data, dirty) :=
        updateSamplerMetadata (s.mSamplerMetadataPS.getD samplerIndex default) texture
      let s := { s with mSamplerMetadataPS := s.mSamplerMetadataPS.set samplerIndex data }
      if dirty then { s with mNumActivePSSamplers := 0 } else s
  | ShaderType.Compute =>
      let (data, dirty) :=
        updateSamplerMetadata (s.mSamplerMetadataCS.getD samplerIndex default) texture
      let s := { s with mSamplerMetadataCS := s.mSamplerMetadataCS.set samplerIndex data }
      if dirty then { s with mNumActiveCSSamplers := 0 } else s

end ShaderConstants11

/-! Device call trace. -/

/-- A call issued on the ID3D11DeviceContext (or a mapped write into a
device buffer).  Immutable device state objects (blend, depth-stencil,
rasterizer states) are content addressed in the source, so the trace records
their descriptor content.  View/buffer/shader arguments are recorded by
identity, 0 standing for null. -/
inductive DeviceCall where
  | VSSetShaderResources (startSlot numViews : Nat) (ids : List Nat)
  | PSSetShaderResources (startSlot numViews : Nat) (ids : List Nat)
  | CSSetShaderResources (startSlot numViews : Nat) (ids : List Nat)
  | OMSetRenderTargets (numRTVs : Nat) (rtvs : List Nat) (dsv : Nat)
  | OMSetBlendState (descriptor : BlendState) (blendColors : ℚ × ℚ × ℚ × ℚ)
      (sampleMask : Nat)
  | OMSetDepthStencilState (descriptor : DepthStencilState) (stencilRef : Nat)
  | RSSetState (descriptor : RasterizerState) (scissorEnabled : Bool)
  | RSSetScissorRects (numRects : Nat) (rects : List D3DRect)
  | RSSetViewports (numViewports : Nat) (vps : List D3DViewport)
  | VSSetShader (id : Nat)
  | GSSetShader (id : Nat)
  | PSSetShader (id : Nat)
  | IASetInputLayout (id : Nat)
  | IASetVertexBuffers (start count : Nat)
      (buffers strides offsets : List Nat)
  | IASetIndexBuffer (buffer format offset : Nat)
  | IASetPrimitiveTopology (topology : Nat)
  | VSSetConstantBuffers (slot buffer : Nat)
  | PSSetConstantBuffers (slot buffer : Nat)
  | GSSetConstantBuffers (slot buffer : Nat)
  | CSSetConstantBuffers (slot buffer : Nat)
  | VSSetConstantBuffers1 (slot buffer firstConstant numConstants : Nat)
  | PSSetConstantBuffers1 (slot buffer firstConstant numConstants : Nat)
  | VSSetSamplers (slot sampler : Nat)
  | PSSetSamplers (slot sampler : Nat)
  | CSSetSamplers (slot sampler : Nat)
  | SOSetTargets (num : Nat)
  | MapWriteDiscard (buffer : Nat) (data : DriverConstantsData)
      (samplers : List SamplerMetadata)
  | UpdateSubresource (buffer : Nat)
deriving DecidableEq, Repr

/-- ShaderConstants11::updateBuffer: decide whether the driver constant
buffer of a stage must be refreshed (stage dirty flag set, or the program now
uses more samplers than previously uploaded), clear the flag, record the new
sampler count, and when dirty rewrite the whole buffer: the fixed header plus
exactly `numSamplers` metadata entries. `numSamplers` is the program query
`getUsedSamplerRange(shaderType)`. -/
def ShaderConstants11.updateBuffer (s : ShaderConstants11)
    (shaderType : ShaderType) (numSamplers : Nat)
    (driverConstantBuffer : Nat) :
    ShaderConstants11 × List DeviceCall :=
  match shaderType with
  | ShaderType.Vertex =>
      let dirty := s.mShaderConstantsDirtyVS || decide (s.mNumActiveVSSamplers < numSamplers)
      let data := DriverConstantsData.vertex s.mVertex
      let samplerData := s.mSamplerMetadataVS
      let s := { s with
        mShaderConstantsDirtyVS := false
        mNumActiveVSSamplers := numSamplers }
      if !dirty then (s, [])
      else (s, [DeviceCall.MapWriteDiscard driverConstantBuffer data
                  (samplerData.take numSamplers)])
  | ShaderType.Fragment =>
      let dirty := s.mShaderConstantsDirtyPS || decide (s.mNumActivePSSamplers < numSamplers)
      let data := DriverConstantsData.pixel s.mPixel
      let samplerData := s.mSamplerMetadataPS
      let s := { s with
        mShaderConstantsDirtyPS := false
        mNumActivePSSamplers := numSamplers }
      if !dirty then (s, [])
      else (s, [DeviceCall.MapWriteDiscard driverConstantBuffer data
                  (samplerData.take numSamplers)])
  | ShaderType.Compute =>
      let dirty := s.mShaderConstantsDirtyCS || decide (s.mNumActiveCSSamplers < numSamplers)
      let data := DriverConstantsData.compute s.mCompute
      let samplerData := s.mSamplerMetadataCS
      let s := { s with
        mShaderConstantsDirtyCS := false
        mNumActiveCSSamplers := numSamplers }
      if !dirty then (s, [])
      else (s, [DeviceCall.MapWriteDiscard driverConstantBuffer data
                  (samplerData.take numSamplers)])

/-! Internal dirty bits. -/

/-- Modelled from the spec: the internal dirty bit enumeration of
StateManager11 (the enum lives in StateManager11.h, which is not among the
analyzed sources; the spec fixes the group list and its fixed drain order:
render target, viewport, scissor, rasterizer, blend, depth-stencil,
textures/samplers, program uniforms, driver uniforms, uniform buffers,
shaders, current-value attributes, transform feedback, vertex buffers and
input layout, primitive topology). -/
inductive DirtyBit where
  | RENDER_TARGET
  | VIEWPORT_STATE
  | SCISSOR_STATE
  | RASTERIZER_STATE
  | BLEND_STATE
  | DEPTH_STENCIL_STATE
  | TEXTURE_AND_SAMPLER_STATE
  | PROGRAM_UNIFORMS
  | DRIVER_UNIFORMS
  | PROGRAM_UNIFORM_BUFFERS
  | SHADERS
  | CURRENT_VALUE_ATTRIBS
  | TRANSFORM_FEEDBACK
  | VERTEX_BUFFERS_AND_INPUT_LAYOUT
  | PRIMITIVE_TOPOLOGY
deriving DecidableEq, Repr

/-- The fixed drain order of the internal dirty bits. -/
def drainOrder : List DirtyBit :=
  [DirtyBit.RENDER_TARGET, DirtyBit.VIEWPORT_STATE, DirtyBit.SCISSOR_STATE,
   DirtyBit.RASTERIZER_STATE, DirtyBit.BLEND_STATE,
   DirtyBit.DEPTH_STENCIL_STATE, DirtyBit.TEXTURE_AND_SAMPLER_STATE,
   DirtyBit.PROGRAM_UNIFORMS, DirtyBit.DRIVER_UNIFORMS,
   DirtyBit.PROGRAM_UNIFORM_BUFFERS, DirtyBit.SHADERS,
   DirtyBit.CURRENT_VALUE_ATTRIBS, DirtyBit.TRANSFORM_FEEDBACK,
   DirtyBit.VERTEX_BUFFERS_AND_INPUT_LAYOUT, DirtyBit.PRIMITIVE_TOPOLOGY]

/-- The internal dirty bit set (`mInternalDirtyBits`), one flag per state
group. -/
structure DirtyBits where
  renderTarget : Bool
  viewportState : Bool
  scissorState : Bool
  rasterizerState : Bool
  blendState : Bool
  depthStencilState : Bool
  textureAndSamplerState : Bool
  programUniforms : Bool
  driverUniforms : Bool
  programUniformBuffers : Bool
  shaders : Bool
  currentValueAttribs : Bool
  transformFeedback : Bool
  vertexBuffersAndInputLayout : Bool
  primitiveTopology : Bool
deriving DecidableEq, Repr

namespace DirtyBits

/-- The empty bit set. -/
def noneSet : DirtyBits :=
  ⟨false, false, false, false, false, false, false, false, false, false,
   false, false, false, false, false⟩

/-- The full bit set (`set()` with no argument). -/
def allSet : DirtyBits :=
  ⟨true, true, true, true, true, true, true, true, true, true,
   true, true, true, true, true⟩

/-- Bit test. -/
def get (b : DirtyBits) : DirtyBit → Bool
  | DirtyBit.RENDER_TARGET => b.renderTarget
  | DirtyBit.VIEWPORT_STATE => b.viewportState
  | DirtyBit.SCISSOR_STATE => b.scissorState
  | DirtyBit.RASTERIZER_STATE => b.rasterizerState
  | DirtyBit.BLEND_STATE => b.blendState
  | DirtyBit.DEPTH_STENCIL_STATE => b.depthStencilState
  | DirtyBit.TEXTURE_AND_SAMPLER_STATE => b.textureAndSamplerState
  | DirtyBit.PROGRAM_UNIFORMS => b.programUniforms
  | DirtyBit.DRIVER_UNIFORMS => b.driverUniforms
  | DirtyBit.PROGRAM_UNIFORM_BUFFERS => b.programUniformBuffers
  | DirtyBit.SHADERS => b.shaders
  | DirtyBit.CURRENT_VALUE_ATTRIBS => b.currentValueAttribs
  | DirtyBit.TRANSFORM_FEEDBACK => b.transformFeedback
  | DirtyBit.VERTEX_BUFFERS_AND_INPUT_LAYOUT => b.vertexBuffersAndInputLayout
  | DirtyBit.PRIMITIVE_TOPOLOGY => b.primitiveTopology

/-- Bit set (`set(bit)`). -/
def set (b : DirtyBits) : DirtyBit → DirtyBits
  | DirtyBit.RENDER_TARGET => { b with renderTarget := true }
  | DirtyBit.VIEWPORT_STATE => { b with viewportState := true }
  | DirtyBit.SCISSOR_STATE => { b with scissorState := true }
  | DirtyBit.RASTERIZER_STATE => { b with rasterizerState := true }
  | DirtyBit.BLEND_STATE => { b with blendState := true }
  | DirtyBit.DEPTH_STENCIL_STATE => { b with depthStencilState := true }
  | DirtyBit.TEXTURE_AND_SAMPLER_STATE => { b with textureAndSamplerState := true }
  | DirtyBit.PROGRAM_UNIFORMS => { b with programUniforms := true }
  | DirtyBit.DRIVER_UNIFORMS => { b with driverUniforms := true }
  | DirtyBit.PROGRAM_UNIFORM_BUFFERS => { b with programUniformBuffers := true }
  | DirtyBit.SHADERS => { b with shaders := true }
  | DirtyBit.CURRENT_VALUE_ATTRIBS => { b with currentValueAttribs := true }
  | DirtyBit.TRANSFORM_FEEDBACK => { b with transformFeedback := true }
  | DirtyBit.VERTEX_BUFFERS_AND_INPUT_LAYOUT =>
      { b with vertexBuffersAndInputLayout := true }
  | DirtyBit.PRIMITIVE_TOPOLOGY => { b with primitiveTopology := true }

/-- Bit reset (`reset(bit)`). -/
def resetBit (b : DirtyBits) : DirtyBit → DirtyBits
  | DirtyBit.SHADERS => { b with shaders := false }
  | DirtyBit.RENDER_TARGET => { b with renderTarget := false }
  | DirtyBit.VIEWPORT_STATE => { b with viewportState := false }
  | DirtyBit.SCISSOR_STATE => { b with scissorState := false }
  | DirtyBit.RASTERIZER_STATE => { b with rasterizerState := false }
  | DirtyBit.BLEND_STATE => { b with blendState := false }
  | DirtyBit.DEPTH_STENCIL_STATE => { b with depthStencilState := false }
  | DirtyBit.TEXTURE_AND_SAMPLER_STATE => { b with textureAndSamplerState := false }
  | DirtyBit.PROGRAM_UNIFORMS => { b with programUniforms := false }
  | DirtyBit.DRIVER_UNIFORMS => { b with driverUniforms := false }
  | DirtyBit.PROGRAM_UNIFORM_BUFFERS => { b with programUniformBuffers := false }
  | DirtyBit.CURRENT_VALUE_ATTRIBS => { b with currentValueAttribs := false }
  | DirtyBit.TRANSFORM_FEEDBACK => { b with transformFeedback := false }
  | DirtyBit.VERTEX_BUFFERS_AND_INPUT_LAYOUT =>
      { b with vertexBuffersAndInputLayout := false }
  | DirtyBit.PRIMITIVE_TOPOLOGY => { b with primitiveTopology := false }

end DirtyBits

/-! External collaborators, embedded as read-only inputs plus the small
mutable flags the state manager drives on them. -/

/-- gl::RangeUI used for the queued vertex buffer dirty range. Modelled from
the spec: common/mathutil.h is not among the analyzed sources; the spec
describes it as a low/high pair where only the minimal contiguous range
`[low, high)` is flushed, empty when high does not exceed low, and extend
grows the range to include a slot. -/
structure RangeUI where
  low : Nat
  high : Nat
deriving DecidableEq, Repr

def RangeUI.emptyRange (r : RangeUI) : Bool := decide (r.high ≤ r.low)

def RangeUI.extend (r : RangeUI) (value : Nat) : RangeUI :=
  { low := min r.low value, high := max r.high (value + 1) }

def RangeUI.length (r : RangeUI) : Nat := r.high - r.low

/-- A translated vertex attribute (rx::TranslatedAttribute) after vertex
data management, together with the enabled flag of the underlying array
attribute.  The buffer is recorded by device identity; `baseOffset` and
`stride` feed `computeOffset`. -/
structure TranslatedAttrib where
  enabled : Bool
  divisor : Nat
  bufferSerial : Nat
  stride : Nat
  baseOffset : Nat
deriving DecidableEq, Repr

instance : Inhabited TranslatedAttrib := ⟨⟨false, 0, 0, 0, 0⟩⟩

/-- Modelled from the spec: TranslatedAttribute::computeOffset (the vertex
data manager is out of scope); the applied offset is the base offset plus the
stride scaled by the first drawn vertex, in 32-bit arithmetic. -/
def TranslatedAttrib.computeOffset (a : TranslatedAttrib) (firstVertex : Int) : Nat :=
  (a.baseOffset + a.stride * firstVertex.toNat) % UINT32_MOD

/-- The slice of ProgramD3D / gl::Program the state manager queries. -/
structure Program where
  usedSamplerRangeVS : Nat
  usedSamplerRangePS : Nat
  usedSamplerRangeCS : Nat
  activeOutputVariables : Finset (Fin 8)
  activeAttribLocationsMask : Finset (Fin 16)
  attribLocationToD3DSemantic : Fin 16 → Int
  usesPointSize : Bool
  usesInstancedPointSpriteEmulation : Bool
  vertexExecutableSerial : Nat
  pixelExecutableSerial : Nat
  geometryExecutableSerial : Nat
  streamOutExecutableSerial : Nat
  vsUniformStorageSize : Nat
  psUniformStorageSize : Nat
  vsUniformStorageBufferSerial : Nat
  psUniformStorageBufferSerial : Nat
  vertexUniformBufferCache : List Int
  fragmentUniformBufferCache : List Int

/-- ProgramD3D::getUsedSamplerRange. -/
def Program.getUsedSamplerRange (p : Program) : ShaderType → Nat
  | ShaderType.Vertex => p.usedSamplerRangeVS
  | ShaderType.Fragment => p.usedSamplerRangePS
  | ShaderType.Compute => p.usedSamplerRangeCS

/-- The framebuffer attachment kind, as distinguished by
`unsetConflictingAttachmentResources` via `attachment->type()`. -/
inductive AttachmentType where
  | Texture
  | FramebufferDefault
  | Renderbuffer
deriving DecidableEq, Repr

/-- A cached color render target of the draw framebuffer: render target view
identity, the identity of the underlying texture resource, the kind and
image index of the GL attachment it came from, and its sample count. -/
structure ColorRenderTarget where
  rtv : Nat
  texResource : Nat
  attachType : AttachmentType
  imageIndex : ImageIndex
  samples : Nat
deriving DecidableEq, Repr

/-- The cached depth-stencil render target. -/
structure DepthStencilRenderTarget where
  dsv : Nat
  texResource : Nat
  attachType : AttachmentType
  imageIndex : ImageIndex
  samples : Nat
deriving DecidableEq, Repr

/-- The slice of gl::Framebuffer / rx::Framebuffer11 the state manager
queries. -/
structure Framebuffer where
  fbId : Nat
  hasFirstColorbuffer : Bool
  firstColorbufferSize : Extents
  hasDepth : Bool
  hasStencil : Bool
  cachedSamples : Nat
  colorRTs : List (Option ColorRenderTarget)
  depthStencilRT : Option DepthStencilRenderTarget
  drawBufferEnabled : List Bool
  hasFirstNonNullAttachment : Bool
  defaultWidth : Int
  defaultHeight : Int
  firstAttachmentSize : Extents
  viewportOffsets : List (Int × Int)
  multiviewLayout : Nat

/-- Framebuffer11::getFirstRenderTarget sample count (0 when there is no
render target), as consumed by updateState for the blend sample mask. -/
def Framebuffer.firstRenderTargetSamples (fb : Framebuffer) : Nat :=
  match fb.colorRTs.findSome? id with
  | some rt => rt.samples
  | none =>
      match fb.depthStencilRT with
      | some ds => ds.samples
      | none => 0

/-- An indexed uniform buffer binding: device buffer identity plus the bound
offset/size and the constant range the backing store reports
(`getConstantBufferRange`). -/
structure UniformBufferRange where
  serial : Nat
  offset : Int
  size : Int
  firstConstant : Nat
  numConstants : Nat
deriving DecidableEq, Repr

/-- A d3d11::ShaderResourceView / SharedSRV wrapper object: the wrapper has
its own address (`wrapperId`, what `reinterpret_cast<uintptr_t>(srv)`
produces) and holds the underlying raw device view (`get()`), possibly
empty. -/
structure SharedSRV where
  wrapperId : Nat
  raw : Option SRVHandle
deriving DecidableEq, Repr

/-- The data `applyTextures` ends up binding for one sampler slot of a
stage: the shader resource view, the sampler descriptor, and the texture
metadata the shader constants track.  This folds in the external
complete-texture lookup and the incomplete-texture fallback, which the spec
places out of scope (benign incompleteness is resolved by substituting the
placeholder texture, so a binding is always fully specified). -/
structure TextureBindingInfo where
  srv : Option SharedSRV
  sampler : Nat
  metadata : TextureMetadataSource

/-- Renderer capability and workaround configuration (device caps, feature
tier, workaround switches), fixed for the lifetime of the context. -/
structure RendererConfig where
  presentPathFastEnabled : Bool
  mrtPerfWorkaround : Bool
  featureLevel9_3 : Bool
  es3Capable : Bool
  useInstancedPointSpriteEmulationWorkaround : Bool
  maxDrawBuffers : Nat
  maxTextureImageUnits : Nat
  maxVertexTextureImageUnits : Nat
  maxVertexAttributes : Nat
  maxViewportWidth : Int
  maxViewportHeight : Int
  reservedVertexUniformBuffers : Nat
  reservedFragmentUniformBuffers : Nat
  driverVSBufferSerial : Nat
  driverPSBufferSerial : Nat
  pointSpriteVertexBufferSerial : Nat
  pointSpriteIndexBufferSerial : Nat

/-- The logical GL state snapshot the sync pass reads, together with the
results of the read-only queries it makes on external collaborators
(program, framebuffer, vertex array, texture, index data).  Per the spec,
those collaborators are out of scope and expose narrow query interfaces. -/
structure GLState where
  blendState : BlendState
  blendColor : ColorF
  depthStencilState : DepthStencilState
  stencilRef : Int
  stencilBackRef : Int
  rasterState : RasterizerState
  scissor : Rectangle
  scissorTestEnabled : Bool
  viewport : Rectangle
  nearPlane : ℚ
  farPlane : ℚ
  drawFramebuffer : Framebuffer
  program : Program
  vertexArrayAttribs : Fin 16 → TranslatedAttrib
  currentValueAttribs : Fin 16 → TranslatedAttrib
  transformFeedbackActiveUnpaused : Bool
  tfSerial : Nat
  tfNumSOBuffers : Nat
  sampleMask : Nat
  usePresentPathFast : Bool
  indexedUniformBuffers : Int → Option UniformBufferRange
  textureBindings : ShaderType → Nat → TextureBindingInfo
  inputLayoutSerial : Nat
  idxBuffer : Nat
  idxIsUInt : Bool
  idxStartOffset : Nat

/-- gl::DrawCallParams. -/
structure DrawCallParams where
  mode : Nat
  firstVertex : Int
  isDrawElements : Bool
deriving DecidableEq, Repr

/-- The mutable dirtiness flags the state manager drives on external
collaborators during a pass (program sampler mapping, program uniform
dirtiness, transform feedback dirtiness). -/
structure ExternalFlags where
  samplerMappingDirty : Bool
  vsUniformsDirty : Bool
  psUniformsDirty : Bool
  tfDirty : Bool
deriving DecidableEq, Repr

/-- ProgramD3D::anyShaderUniformsDirty for the draw stages. -/
def ExternalFlags.anyShaderUniformsDirty (e : ExternalFlags) : Bool :=
  e.vsUniformsDirty || e.psUniformsDirty

/-! The state manager itself. -/

/-- The cached device state mirror and bookkeeping of StateManager11 (the
fields of StateManager11.h that the analyzed code reads or writes). -/
structure StateManager11 where
  mInternalDirtyBits : DirtyBits
  mRenderTargetIsDirty : Bool
  mDirtySwizzles : Bool
  mCurSampleMask : Nat
  mLastFirstVertex : Option Int
  mLastAppliedDrawMode : Nat
  mIndexBufferIsDirty : Bool
  mAppliedIB : Nat
  mAppliedIBFormat : Nat
  mAppliedIBOffset : Nat
  mCurBlendState : BlendState
  mCurBlendColor : ColorF
  mCurDepthStencilState : DepthStencilState
  mCurStencilRef : Int
  mCurStencilBackRef : Int
  mCurStencilSize : Nat
  mCurDisableDepth : Option Bool
  mCurDisableStencil : Option Bool
  mCurRasterState : RasterizerState
  mCurScissorRect : Rectangle
  mCurScissorEnabled : Bool
  mCurViewport : Rectangle
  mCurNear : ℚ
  mCurFar : ℚ
  mViewportBounds : Extents
  mCurPresentPathFastEnabled : Bool
  mCurPresentPathFastColorBufferHeight : Int
  mCurVertexSRVs : ViewCache
  mCurPixelSRVs : ViewCache
  mCurComputeSRVs : ViewCache
  mForceSetVertexSamplerStates : List Bool
  mForceSetPixelSamplerStates : List Bool
  mForceSetComputeSamplerStates : List Bool
  mCurVertexSamplerStates : List Nat
  mCurPixelSamplerStates : List Nat
  mCurComputeSamplerStates : List Nat
  mShaderConstants : ShaderConstants11
  mAppliedVertexShader : Nat
  mAppliedGeometryShader : Nat
  mAppliedPixelShader : Nat
  mCurrentInputLayout : Nat
  mCurrentVertexBuffers : List Nat
  mCurrentVertexStrides : List Nat
  mCurrentVertexOffsets : List Nat
  mDirtyVertexBufferRange : RangeUI
  mDirtyCurrentValueAttribs : Finset (Fin 16)
  mCurrentValueAttribs : Fin 16 → TranslatedAttrib
  mCurrentPrimitiveTopology : Nat
  mCurrentMinimumDrawCount : Int
  mAppliedTFSerial : Nat
  mDriverConstantBufferVS : Nat
  mDriverConstantBufferPS : Nat
  mCurrentGeometryConstantBuffer : Nat
  mCurrentConstantBufferVS : Nat → Nat
  mCurrentConstantBufferVSOffset : Nat → Int
  mCurrentConstantBufferVSSize : Nat → Int
  mCurrentConstantBufferPS : Nat → Nat
  mCurrentConstantBufferPSOffset : Nat → Int
  mCurrentConstantBufferPSSize : Nat → Int
  mPointSpriteVertexBuffer : Nat
  mPointSpriteIndexBuffer : Nat
  mIsMultiviewEnabled : Bool
  mViewportOffsets : List (Int × Int)
  mCurrentAttributes : List (Option TranslatedAttrib)

namespace StateManager11

/-! Dirty bit helpers (the invalidate* methods). -/

def setBit (sm : StateManager11) (bit : DirtyBit) : StateManager11 :=
  { sm with mInternalDirtyBits := sm.mInternalDirtyBits.set bit }

/-- StateManager11::invalidateRenderTarget. -/
def invalidateRenderTarget (sm : StateManager11) : StateManager11 :=
  { sm with mRenderTargetIsDirty := true }

/-- StateManager11::invalidateShaders. -/
def invalidateShaders (sm : StateManager11) : StateManager11 :=
  sm.setBit DirtyBit.SHADERS

/-- StateManager11::invalidateSwizzles. -/
def invalidateSwizzles (sm : StateManager11) : StateManager11 :=
  { sm with mDirtySwizzles := true }

/-- StateManager11::invalidateProgramUniforms. -/
def invalidateProgramUniforms (sm : StateManager11) : StateManager11 :=
  sm.setBit DirtyBit.PROGRAM_UNIFORMS

/-- StateManager11::invalidateDriverUniforms. -/
def invalidateDriverUniforms (sm : StateManager11) : StateManager11 :=
  sm.setBit DirtyBit.DRIVER_UNIFORMS

/-- StateManager11::invalidateProgramUniformBuffers. -/
def invalidateProgramUniformBuffers (sm : StateManager11) : StateManager11 :=
  sm.setBit DirtyBit.PROGRAM_UNIFORM_BUFFERS

/-- StateManager11::invalidateViewport. -/
def invalidateViewport (sm : StateManager11) : StateManager11 :=
  (sm.setBit DirtyBit.VIEWPORT_STATE).invalidateDriverUniforms

/-- StateManager11::invalidateTexturesAndSamplers. -/
def invalidateTexturesAndSamplers (sm : StateManager11) : StateManager11 :=
  ((sm.setBit DirtyBit.TEXTURE_AND_SAMPLER_STATE).invalidateSwizzles).invalidateDriverUniforms

/-- StateManager11::invalidateTransformFeedback. -/
def invalidateTransformFeedback (sm : StateManager11) : StateManager11 :=
  ((sm.invalidateShaders).setBit DirtyBit.TRANSFORM_FEEDBACK).setBit
    DirtyBit.PRIMITIVE_TOPOLOGY

/-- StateManager11::invalidateInputLayout. -/
def invalidateInputLayout (sm : StateManager11) : StateManager11 :=
  sm.setBit DirtyBit.VERTEX_BUFFERS_AND_INPUT_LAYOUT

/-- StateManager11::invalidateIndexBuffer. -/
def invalidateIndexBuffer (sm : StateManager11) : StateManager11 :=
  { sm with mIndexBufferIsDirty := true }

/-- StateManager11::invalidateVertexBuffer. -/
def invalidateVertexBuffer (cfg : RendererConfig) (sm : StateManager11) :
    StateManager11 :=
  let limit := min cfg.maxVertexAttributes MAX_VERTEX_ATTRIBS
  let sm := { sm with mDirtyVertexBufferRange := ⟨0, limit⟩ }
  ((sm.invalidateInputLayout).invalidateShaders).setBit
    DirtyBit.CURRENT_VALUE_ATTRIBS

/-- StateManager11::invalidateCurrentValueAttrib. -/
def invalidateCurrentValueAttrib (sm : StateManager11) (attribIndex : Fin 16) :
    StateManager11 :=
  let sm := { sm with
    mDirtyCurrentValueAttribs := insert attribIndex sm.mDirtyCurrentValueAttribs }
  ((sm.setBit DirtyBit.CURRENT_VALUE_ATTRIBS).invalidateInputLayout).invalidateShaders

/-- StateManager11::getSRVCache. -/
def getSRVCache (sm : StateManager11) : ShaderType → ViewCache
  | ShaderType.Vertex => sm.mCurVertexSRVs
  | ShaderType.Fragment => sm.mCurPixelSRVs
  | ShaderType.Compute => sm.mCurComputeSRVs

/-- Write back the per-stage SRV cache selected by `getSRVCache`. -/
def putSRVCache (sm : StateManager11) (shaderType : ShaderType)
    (cache : ViewCache) : StateManager11 :=
  match shaderType with
  | ShaderType.Vertex => { sm with mCurVertexSRVs := cache }
  | ShaderType.Fragment => { sm with mCurPixelSRVs := cache }
  | ShaderType.Compute => { sm with mCurComputeSRVs := cache }

/-- The per-stage SetShaderResources context call. -/
def srvBindCall (shaderType : ShaderType) (slot numViews : Nat)
    (ids : List Nat) : DeviceCall :=
  match shaderType with
  | ShaderType.Vertex => DeviceCall.VSSetShaderResources slot numViews ids
  | ShaderType.Fragment => DeviceCall.PSSetShaderResources slot numViews ids
  | ShaderType.Compute => DeviceCall.CSSetShaderResources slot numViews ids

/-- StateManager11::setShaderResourceInternal: bind one SRV wrapper (or
null) at a slot, skipping the device call when the recorded identity already
matches the passed wrapper address, and updating the view cache with the
underlying raw view. -/
def setShaderResourceInternal (sm : StateManager11) (shaderType : ShaderType)
    (resourceSlot : Nat) (srv : Option SharedSRV) :
    StateManager11 × List DeviceCall :=
  let currentSRVs := sm.getSRVCache shaderType
  let record := currentSRVs.record resourceSlot
  let srvAddr := match srv with
    | some s => s.wrapperId
    | none => 0
  if record.view ≠ srvAddr then
    let srvPtr : Option SRVHandle := match srv with
      | some s => s.raw
      | none => none
    let srvPtrId := match srvPtr with
      | some r => r.id
      | none => 0
    (sm.putSRVCache shaderType (currentSRVs.update resourceSlot srvPtr),
      [srvBindCall shaderType resourceSlot 1 [srvPtrId]])
  else (sm, [])

/-- StateManager11::clearSRVs: clear the trailing SRV slots
`[rangeStart, min(rangeEnd, highestUsed))` of a stage with a single device
call, or no call when that clamped range is empty. -/
def clearSRVs (sm : StateManager11) (shaderType : ShaderType)
    (rangeStart rangeEnd : Nat) : StateManager11 × List DeviceCall :=
  if rangeStart = rangeEnd then (sm, [])
  else
    let currentSRVs := sm.getSRVCache shaderType
    let lo := rangeStart
    let hi := min rangeEnd currentSRVs.highestUsed
    if hi ≤ lo then (sm, [])
    else
      let call := srvBindCall shaderType lo (hi - lo) (List.replicate (hi - lo) 0)
      let cache := (List.range' lo (hi - lo)).foldl
        (fun c samplerIndex => c.update samplerIndex none) currentSRVs
      (sm.putSRVCache shaderType cache, [call])

/-- The per-slot condition of the unsetConflictingSRVs loop: the slot holds
a view of the given resource, and when an image index is given its mip/layer
window conflicts with the recorded view description. -/
def conflictsWithB (record : ViewRecord) (resource : Nat)
    (index : Option ImageIndex) : Bool :=
  record.view ≠ 0 && record.resource = resource &&
    (index.elim true fun idx => ImageIndexConflictsWithSRV idx record.desc)

/-- One iteration of the unsetConflictingSRVs loop. -/
def unsetStep (shaderType : ShaderType) (resource : Nat)
    (index : Option ImageIndex)
    (acc : StateManager11 × Bool × List DeviceCall) (resourceIndex : Nat) :
    StateManager11 × Bool × List DeviceCall :=
  let (sm, foundOne, calls) := acc
  let record := (sm.getSRVCache shaderType).record resourceIndex
  if conflictsWithB record resource index then
    let (sm', calls') := sm.setShaderResourceInternal shaderType resourceIndex none
    (sm', true, calls ++ calls')
  else (sm, foundOne, calls)

/-- StateManager11::unsetConflictingSRVs: null out every bound SRV slot of a
stage whose recorded underlying resource matches, and (when an image index is
given) whose recorded description conflicts with that index. -/
def unsetConflictingSRVs (sm : StateManager11) (shaderType : ShaderType)
    (resource : Nat) (index : Option ImageIndex) :
    StateManager11 × Bool × List DeviceCall :=
  (List.range (sm.getSRVCache shaderType).size).foldl
    (unsetStep shaderType resource index) (sm, false, [])

/-- StateManager11::unsetConflictingAttachmentResources: scan the vertex and
fragment SRV caches for views of the resource backing a framebuffer
attachment; texture attachments carry their image index into the conflict
test, default-framebuffer surfaces match on the resource alone, and other
attachment kinds are not scanned. -/
def unsetConflictingAttachmentResources (sm : StateManager11)
    (attachType : AttachmentType) (imageIndex : ImageIndex) (resource : Nat) :
    StateManager11 × List DeviceCall :=
  if attachType = AttachmentType.Texture then
    let (sm, _, c1) := sm.unsetConflictingSRVs ShaderType.Vertex resource (some imageIndex)
    let (sm, _, c2) := sm.unsetConflictingSRVs ShaderType.Fragment resource (some imageIndex)
    (sm, c1 ++ c2)
  else if attachType = AttachmentType.FramebufferDefault then
    let (sm, _, c1) := sm.unsetConflictingSRVs ShaderType.Vertex resource none
    let (sm, _, c2) := sm.unsetConflictingSRVs ShaderType.Fragment resource none
    (sm, c1 ++ c2)
  else (sm, [])

/-- Test of a gl::DrawBufferMask at a runtime index. -/
def drawBufferMaskTest (s : Finset (Fin 8)) (i : Nat) : Bool :=
  if h : i < 8 then decide (⟨i, h⟩ ∈ s) else false

/-- One iteration of the render target collection loop of syncFramebuffer:
skip inactive render targets when the workaround is on, otherwise record the
render target view and unset the SRVs conflicting with its attachment. -/
def syncFBColorStep (cfg : RendererConfig) (gl : GLState) (fb : Framebuffer)
    (acc : Nat × List Nat × Nat × StateManager11 × List DeviceCall)
    (rtIndex : Nat) : Nat × List Nat × Nat × StateManager11 × List DeviceCall :=
  let (appliedRTIndex, rtvs, maxExistingRT, sm, calls) := acc
  let renderTarget := fb.colorRTs.getD rtIndex none
  if cfg.mrtPerfWorkaround ∧
      (renderTarget = none ∨ fb.drawBufferEnabled.getD rtIndex false = false ∨
        drawBufferMaskTest gl.program.activeOutputVariables rtIndex = false) then
    acc
  else
    match renderTarget with
    | some rt =>
        let rtvs := rtvs.set appliedRTIndex rt.rtv
        let maxExistingRT := appliedRTIndex + 1
        let (sm, calls') := sm.unsetConflictingAttachmentResources
          rt.attachType rt.imageIndex rt.texResource
        (appliedRTIndex + 1, rtvs, maxExistingRT, sm, calls ++ calls')
    | none => (appliedRTIndex + 1, rtvs, maxExistingRT, sm, calls)

/-- StateManager11::syncFramebuffer: the zero-sized default framebuffer is a
silent no-op; otherwise collect the render target views (honoring the
inactive-render-target workaround), unset conflicting SRVs for each bound
attachment, and bind the render targets and depth-stencil view. -/
def syncFramebuffer (cfg : RendererConfig) (sm : StateManager11)
    (gl : GLState) (fb : Framebuffer) : StateManager11 × List DeviceCall :=
  if fb.fbId = 0 ∧
      (fb.firstColorbufferSize.width = 0 ∨ fb.firstColorbufferSize.height = 0) then
    (sm, [])
  else
    let init : Nat × List Nat × Nat × StateManager11 × List DeviceCall :=
      (0, List.replicate 8 0, 0, sm, [])
    let (_, framebufferRTVs, maxExistingRT, sm, calls) :=
      (List.range fb.colorRTs.length).foldl (syncFBColorStep cfg gl fb) init
    let (framebufferDSV, sm, calls) :=
      match fb.depthStencilRT with
      | some ds =>
          let (sm, calls') := sm.unsetConflictingAttachmentResources
            ds.attachType ds.imageIndex ds.texResource
          (ds.dsv, sm, calls ++ calls')
      | none => (0, sm, calls)
    (sm, calls ++ [DeviceCall.OMSetRenderTargets maxExistingRT framebufferRTVs
        framebufferDSV])

/-- StateManager11::checkPresentPath: track whether the fast present path is
active and the color buffer height it flips against, invalidating scissor,
rasterizer and viewport state when either changes. -/
def checkPresentPath (cfg : RendererConfig) (sm : StateManager11)
    (gl : GLState) : StateManager11 :=
  if !cfg.presentPathFastEnabled then sm
  else
    let fb := gl.drawFramebuffer
    let presentPathFastActive := gl.usePresentPathFast
    let colorBufferHeight :=
      if fb.hasFirstColorbuffer then fb.firstColorbufferSize.height else 0
    if sm.mCurPresentPathFastEnabled ≠ presentPathFastActive ∨
        (presentPathFastActive = true ∧
          colorBufferHeight ≠ sm.mCurPresentPathFastColorBufferHeight) then
      let sm := { sm with
        mCurPresentPathFastEnabled := presentPathFastActive
        mCurPresentPathFastColorBufferHeight := colorBufferHeight }
      ((sm.setBit DirtyBit.SCISSOR_STATE).setBit
          DirtyBit.RASTERIZER_STATE).invalidateViewport
    else sm

/-- The depth/stencil disable override block of
processFramebufferInvalidation: disable depth when the framebuffer has
stencil but no depth (stencil-only emulated by a combined format), and
symmetrically disable stencil when it has depth but no stencil; dirty the
depth-stencil group when either flag changed or was not yet valid. -/
def pfiUpdateDisableFlags (sm : StateManager11) (gl : GLState) :
    StateManager11 :=
  let fbo := gl.drawFramebuffer
  let disableDepth := !fbo.hasDepth && fbo.hasStencil
  let disableStencil := fbo.hasDepth && !fbo.hasStencil
  if sm.mCurDisableDepth.isNone ∨ some disableDepth ≠ sm.mCurDisableDepth ∨
      sm.mCurDisableStencil.isNone ∨
      some disableStencil ≠ sm.mCurDisableStencil then
    { sm.setBit DirtyBit.DEPTH_STENCIL_STATE with
      mCurDisableDepth := some disableDepth
      mCurDisableStencil := some disableStencil }
  else sm

/-- The multisample block of processFramebufferInvalidation. -/
def pfiUpdateMultisample (sm : StateManager11) (gl : GLState) :
    StateManager11 :=
  let multiSample := decide (gl.drawFramebuffer.cachedSamples ≠ 0)
  if multiSample ≠ sm.mCurRasterState.multiSample then
    { sm.setBit DirtyBit.RASTERIZER_STATE with
      mCurRasterState := { sm.mCurRasterState with multiSample := multiSample } }
  else sm

/-- The feature-level-9_3 viewport bounds block of
processFramebufferInvalidation. -/
def pfiUpdateViewportBounds (cfg : RendererConfig) (sm : StateManager11)
    (gl : GLState) : StateManager11 :=
  if cfg.featureLevel9_3 then
    if gl.drawFramebuffer.hasFirstNonNullAttachment then
      let size := gl.drawFramebuffer.firstAttachmentSize
      if sm.mViewportBounds.width ≠ size.width ∨
          sm.mViewportBounds.height ≠ size.height then
        ({ sm with mViewportBounds := ⟨size.width, size.height, 1⟩ }).invalidateViewport
      else sm
    else sm
  else sm

/-- StateManager11::processFramebufferInvalidation: resolve a deferred
framebuffer change; recompute the depth/stencil disable override flags, the
multisample rasterizer flag, the present-path state and (on feature level
9_3) the viewport bounds, setting the dependent dirty groups. -/
def processFramebufferInvalidation (cfg : RendererConfig)
    (sm : StateManager11) (gl : GLState) : StateManager11 :=
  if !sm.mRenderTargetIsDirty then sm
  else
    let sm := { sm with mRenderTargetIsDirty := false }
    let sm := (sm.setBit DirtyBit.RENDER_TARGET).invalidateShaders
    let sm := sm.setBit DirtyBit.BLEND_STATE
    let sm := pfiUpdateDisableFlags sm gl
    let sm := pfiUpdateMultisample sm gl
    let sm := checkPresentPath cfg sm gl
    pfiUpdateViewportBounds cfg sm gl

/-- StateManager11::syncBlendState: fetch the content-keyed blend state
object, choose the four blend color channels (broadcasting alpha when an RGB
blend factor references constant alpha), bind, and refresh the cached blend
state, blend color and sample mask. -/
def syncBlendState (sm : StateManager11) (blendState : BlendState)
    (blendColor : ColorF) (sampleMask : Nat) :
    StateManager11 × List DeviceCall :=
  let blendColors : ℚ × ℚ × ℚ × ℚ :=
    if blendState.sourceBlendRGB ≠ GL_CONSTANT_ALPHA ∧
        blendState.sourceBlendRGB ≠ GL_ONE_MINUS_CONSTANT_ALPHA ∧
        blendState.destBlendRGB ≠ GL_CONSTANT_ALPHA ∧
        blendState.destBlendRGB ≠ GL_ONE_MINUS_CONSTANT_ALPHA then
      (blendColor.red, blendColor.green, blendColor.blue, blendColor.alpha)
    else
      (blendColor.alpha, blendColor.alpha, blendColor.alpha, blendColor.alpha)
  ({ sm with
      mCurBlendState := blendState
      mCurBlendColor := blendColor
      mCurSampleMask := sampleMask },
   [DeviceCall.OMSetBlendState blendState blendColors sampleMask])

/-- StateManager11::syncDepthStencilState: refresh the cached depth-stencil
state and stencil references, apply the depth/stencil disable override flags
and the writemask forcing for a disabled stencil test, and bind the
resulting content-keyed descriptor with the clamped stencil reference. -/
def syncDepthStencilState (sm : StateManager11) (gl : GLState) :
    StateManager11 × List DeviceCall :=
  let sm := { sm with
    mCurDepthStencilState := gl.depthStencilState
    mCurStencilRef := gl.stencilRef
    mCurStencilBackRef := gl.stencilBackRef }
  let modifiedGLState := gl.depthStencilState
  let modifiedGLState :=
    if sm.mCurDisableDepth.getD false then
      { modifiedGLState with depthTest := false, depthMask := false }
    else modifiedGLState
  let modifiedGLState :=
    if sm.mCurDisableStencil.getD false then
      { modifiedGLState with stencilTest := false }
    else modifiedGLState
  let modifiedGLState :=
    if !modifiedGLState.stencilTest then
      { modifiedGLState with stencilWritemask := 0, stencilBackWritemask := 0 }
    else modifiedGLState
  let dxStencilRef := (glClamp sm.mCurStencilRef 0 0xFF).toNat
  (sm, [DeviceCall.OMSetDepthStencilState modifiedGLState dxStencilRef])

/-- StateManager11::syncRasterizerState: derive the effective rasterizer
state (point draw mode from the draw call, cached multisample flag), invert
the front face when the fast present path is active, and bind the
content-keyed rasterizer state object. -/
def syncRasterizerState (sm : StateManager11) (gl : GLState)
    (drawCallParams : DrawCallParams) : StateManager11 × List DeviceCall :=
  let rasterState := { gl.rasterState with
    pointDrawMode := decide (drawCallParams.mode = GL_POINTS)
    multiSample := sm.mCurRasterState.multiSample }
  let calls :=
    if sm.mCurPresentPathFastEnabled then
      let modifiedRasterState := { rasterState with
        frontFace := if rasterState.frontFace = GL_CCW then GL_CW else GL_CCW }
      [DeviceCall.RSSetState modifiedRasterState sm.mCurScissorEnabled]
    else
      [DeviceCall.RSSetState rasterState sm.mCurScissorEnabled]
  ({ sm with mCurRasterState := rasterState }, calls)

/-- StateManager11::syncScissorRectangle: mirror the scissor Y origin when
the fast present path is active, emit one rectangle per viewport offset when
scissoring is enabled, and refresh the cached scissor state. -/
def syncScissorRectangle (sm : StateManager11) (scissor : Rectangle)
    (enabled : Bool) : StateManager11 × List DeviceCall :=
  let modifiedScissorY :=
    if sm.mCurPresentPathFastEnabled then
      sm.mCurPresentPathFastColorBufferHeight - scissor.height - scissor.y
    else scissor.y
  let calls :=
    if enabled then
      let rectangles := sm.mViewportOffsets.map (fun off =>
        let x := scissor.x + off.1
        let y := modifiedScissorY + off.2
        D3DRect.mk (max 0 x) (max 0 y) (x + max 0 scissor.width)
          (y + max 0 scissor.height))
      [DeviceCall.RSSetScissorRects sm.mViewportOffsets.length rectangles]
    else []
  ({ sm with mCurScissorRect := scissor, mCurScissorEnabled := enabled }, calls)

/-- StateManager11::syncViewport: clamp the viewport against the device
bounds (shrunk to the render target on feature level 9_3), mirror the Y
origin under the fast present path, bind one viewport per view, refresh the
cached viewport and depth range, and push the viewport-derived driver
constants. -/
def syncViewport (cfg : RendererConfig) (sm : StateManager11) (gl : GLState) :
    StateManager11 × List DeviceCall :=
  let framebuffer := gl.drawFramebuffer
  let actualZNear := clamp01 gl.nearPlane
  let actualZFar := clamp01 gl.farPlane
  let is9_3 := cfg.featureLevel9_3
  let dxMaxViewportBoundsX :=
    if is9_3 then sm.mViewportBounds.width else cfg.maxViewportWidth
  let dxMaxViewportBoundsY :=
    if is9_3 then sm.mViewportBounds.height else cfg.maxViewportHeight
  let dxMinViewportBoundsX := if is9_3 then 0 else -dxMaxViewportBoundsX
  let dxMinViewportBoundsY := if is9_3 then 0 else -dxMaxViewportBoundsY
  let viewport := gl.viewport
  let perView := sm.mViewportOffsets.map (fun off =>
    let dxViewportTopLeftX :=
      glClamp (viewport.x + off.1) dxMinViewportBoundsX dxMaxViewportBoundsX
    let dxViewportTopLeftY :=
      glClamp (viewport.y + off.2) dxMinViewportBoundsY dxMaxViewportBoundsY
    let dxViewportWidth :=
      glClamp viewport.width 0 (dxMaxViewportBoundsX - dxViewportTopLeftX)
    let dxViewportHeight :=
      glClamp viewport.height 0 (dxMaxViewportBoundsY - dxViewportTopLeftY)
    let topLeftY : ℚ :=
      if sm.mCurPresentPathFastEnabled then
        ((sm.mCurPresentPathFastColorBufferHeight - dxViewportTopLeftY -
            dxViewportHeight : Int) : ℚ)
      else (dxViewportTopLeftY : ℚ)
    let (w, h) : ℚ × ℚ :=
      if !framebuffer.hasFirstNonNullAttachment ∧
          (framebuffer.defaultWidth ≠ 0 ∨ framebuffer.defaultHeight ≠ 0) then
        (((min viewport.width framebuffer.defaultWidth : Int) : ℚ),
         ((min viewport.height framebuffer.defaultHeight : Int) : ℚ))
      else ((dxViewportWidth : ℚ), (dxViewportHeight : ℚ))
    (dxViewportTopLeftX, dxViewportTopLeftY, dxViewportWidth, dxViewportHeight,
     D3DViewport.mk (dxViewportTopLeftX : ℚ) topLeftY w h actualZNear actualZFar))
  let dxViewports := perView.map (fun t => t.2.2.2.2)
  let (lastX, lastY, lastW, lastH) :=
    match perView.getLast? with
    | some t => (t.1, t.2.1, t.2.2.1, t.2.2.2.1)
    | none => (0, 0, 0, 0)
  let sm := { sm with
    mCurViewport := viewport
    mCurNear := actualZNear
    mCurFar := actualZFar }
  let adjustViewport := D3DViewport.mk (lastX : ℚ) (lastY : ℚ) (lastW : ℚ)
    (lastH : ℚ) actualZNear actualZFar
  let sm := { sm with
    mShaderConstants := sm.mShaderConstants.onViewportChange viewport
      adjustViewport is9_3 sm.mCurPresentPathFastEnabled }
  (sm, [DeviceCall.RSSetViewports sm.mViewportOffsets.length dxViewports])

/-- Modelled from the spec: the two multiview framebuffer layout enums
(side-by-side and layered); the numeric values live in headers outside the
analyzed sources, so distinct tokens are used. -/
def GL_FRAMEBUFFER_MULTIVIEW_SIDE_BY_SIDE_ANGLE : Nat := 0x9650
def GL_FRAMEBUFFER_MULTIVIEW_LAYERED_ANGLE : Nat := 0x9651

/-- StateManager11::handleMultiviewDrawFramebufferChange. -/
def handleMultiviewDrawFramebufferChange (sm : StateManager11) (gl : GLState) :
    StateManager11 :=
  let drawFramebuffer := gl.drawFramebuffer
  let viewportOffsets := drawFramebuffer.viewportOffsets
  let sm :=
    if sm.mViewportOffsets ≠ viewportOffsets then
      (({ sm with mViewportOffsets := viewportOffsets }).invalidateViewport).setBit
        DirtyBit.SCISSOR_STATE
    else sm
  if drawFramebuffer.multiviewLayout = GL_FRAMEBUFFER_MULTIVIEW_SIDE_BY_SIDE_ANGLE then
    { sm with mShaderConstants := sm.mShaderConstants.setMultiviewWriteToViewportIndex 1 }
  else if drawFramebuffer.multiviewLayout = GL_FRAMEBUFFER_MULTIVIEW_LAYERED_ANGLE then
    { sm with mShaderConstants := sm.mShaderConstants.setMultiviewWriteToViewportIndex 0 }
  else sm

end StateManager11

/-- The fine-grained gl::State dirty bits StateManager11::syncState handles
(notification kinds with an explicit case in the switch; every other
notification falls to the default no-op branch, represented by
`OtherNotification`). -/
inductive GlDirtyBit where
  | BLEND_EQUATIONS
  | BLEND_FUNCS
  | BLEND_ENABLED
  | SAMPLE_ALPHA_TO_COVERAGE_ENABLED
  | DITHER_ENABLED
  | COLOR_MASK
  | BLEND_COLOR
  | DEPTH_MASK
  | DEPTH_TEST_ENABLED
  | DEPTH_FUNC
  | STENCIL_TEST_ENABLED
  | STENCIL_FUNCS_FRONT
  | STENCIL_FUNCS_BACK
  | STENCIL_WRITEMASK_FRONT
  | STENCIL_WRITEMASK_BACK
  | STENCIL_OPS_FRONT
  | STENCIL_OPS_BACK
  | CULL_FACE_ENABLED
  | CULL_FACE
  | FRONT_FACE
  | POLYGON_OFFSET_FILL_ENABLED
  | POLYGON_OFFSET
  | RASTERIZER_DISCARD_ENABLED
  | SCISSOR
  | SCISSOR_TEST_ENABLED
  | DEPTH_RANGE
  | VIEWPORT
  | DRAW_FRAMEBUFFER_BINDING
  | VERTEX_ARRAY_BINDING
  | UNIFORM_BUFFER_BINDINGS
  | TEXTURE_BINDINGS
  | SAMPLER_BINDINGS
  | TRANSFORM_FEEDBACK_BINDING
  | PROGRAM_EXECUTABLE
  | CURRENT_VALUES (dirtyCurrentValues : List (Fin 16))
  | OtherNotification
deriving DecidableEq, Repr

namespace StateManager11

/-- The body of the StateManager11::syncState switch for one fine-grained
dirty bit: compare the new logical value against the cached one and set the
coarse internal dirty groups for it. -/
def syncStateBit (cfg : RendererConfig) (sm : StateManager11) (gl : GLState) :
    GlDirtyBit → StateManager11
  | GlDirtyBit.BLEND_EQUATIONS =>
      let blendState := gl.blendState
      if blendState.blendEquationRGB ≠ sm.mCurBlendState.blendEquationRGB ∨
          blendState.blendEquationAlpha ≠ sm.mCurBlendState.blendEquationAlpha then
        sm.setBit DirtyBit.BLEND_STATE
      else sm
  | GlDirtyBit.BLEND_FUNCS =>
      let blendState := gl.blendState
      if blendState.sourceBlendRGB ≠ sm.mCurBlendState.sourceBlendRGB ∨
          blendState.destBlendRGB ≠ sm.mCurBlendState.destBlendRGB ∨
          blendState.sourceBlendAlpha ≠ sm.mCurBlendState.sourceBlendAlpha ∨
          blendState.destBlendAlpha ≠ sm.mCurBlendState.destBlendAlpha then
        sm.setBit DirtyBit.BLEND_STATE
      else sm
  | GlDirtyBit.BLEND_ENABLED =>
      if gl.blendState.blend ≠ sm.mCurBlendState.blend then
        sm.setBit DirtyBit.BLEND_STATE
      else sm
  | GlDirtyBit.SAMPLE_ALPHA_TO_COVERAGE_ENABLED =>
      if gl.blendState.sampleAlphaToCoverage ≠
          sm.mCurBlendState.sampleAlphaToCoverage then
        sm.setBit DirtyBit.BLEND_STATE
      else sm
  | GlDirtyBit.DITHER_ENABLED =>
      if gl.blendState.dither ≠ sm.mCurBlendState.dither then
        sm.setBit DirtyBit.BLEND_STATE
      else sm
  | GlDirtyBit.COLOR_MASK =>
      let blendState := gl.blendState
      if blendState.colorMaskRed ≠ sm.mCurBlendState.colorMaskRed ∨
          blendState.colorMaskGreen ≠ sm.mCurBlendState.colorMaskGreen ∨
          blendState.colorMaskBlue ≠ sm.mCurBlendState.colorMaskBlue ∨
          blendState.colorMaskAlpha ≠ sm.mCurBlendState.colorMaskAlpha then
        sm.setBit DirtyBit.BLEND_STATE
      else sm
  | GlDirtyBit.BLEND_COLOR =>
      if gl.blendColor ≠ sm.mCurBlendColor then
        sm.setBit DirtyBit.BLEND_STATE
      else sm
  | GlDirtyBit.DEPTH_MASK =>
      if gl.depthStencilState.depthMask ≠ sm.mCurDepthStencilState.depthMask then
        sm.setBit DirtyBit.DEPTH_STENCIL_STATE
      else sm
  | GlDirtyBit.DEPTH_TEST_ENABLED =>
      if gl.depthStencilState.depthTest ≠ sm.mCurDepthStencilState.depthTest then
        sm.setBit DirtyBit.DEPTH_STENCIL_STATE
      else sm
  | GlDirtyBit.DEPTH_FUNC =>
      if gl.depthStencilState.depthFunc ≠ sm.mCurDepthStencilState.depthFunc then
        sm.setBit DirtyBit.DEPTH_STENCIL_STATE
      else sm
  | GlDirtyBit.STENCIL_TEST_ENABLED =>
      if gl.depthStencilState.stencilTest ≠ sm.mCurDepthStencilState.stencilTest then
        sm.setBit DirtyBit.DEPTH_STENCIL_STATE
      else sm
  | GlDirtyBit.STENCIL_FUNCS_FRONT =>
      let depthStencil := gl.depthStencilState
      if depthStencil.stencilFunc ≠ sm.mCurDepthStencilState.stencilFunc ∨
          depthStencil.stencilMask ≠ sm.mCurDepthStencilState.stencilMask ∨
          gl.stencilRef ≠ sm.mCurStencilRef then
        sm.setBit DirtyBit.DEPTH_STENCIL_STATE
      else sm
  | GlDirtyBit.STENCIL_FUNCS_BACK =>
      let depthStencil := gl.depthStencilState
      if depthStencil.stencilBackFunc ≠ sm.mCurDepthStencilState.stencilBackFunc ∨
          depthStencil.stencilBackMask ≠ sm.mCurDepthStencilState.stencilBackMask ∨
          gl.stencilBackRef ≠ sm.mCurStencilBackRef then
        sm.setBit DirtyBit.DEPTH_STENCIL_STATE
      else sm
  | GlDirtyBit.STENCIL_WRITEMASK_FRONT =>
      if gl.depthStencilState.stencilWritemask ≠
          sm.mCurDepthStencilState.stencilWritemask then
        sm.setBit DirtyBit.DEPTH_STENCIL_STATE
      else sm
  | GlDirtyBit.STENCIL_WRITEMASK_BACK =>
      if gl.depthStencilState.stencilBackWritemask ≠
          sm.mCurDepthStencilState.stencilBackWritemask then
        sm.setBit DirtyBit.DEPTH_STENCIL_STATE
      else sm
  | GlDirtyBit.STENCIL_OPS_FRONT =>
      let depthStencil := gl.depthStencilState
      if depthStencil.stencilFail ≠ sm.mCurDepthStencilState.stencilFail ∨
          depthStencil.stencilPassDepthFail ≠
            sm.mCurDepthStencilState.stencilPassDepthFail ∨
          depthStencil.stencilPassDepthPass ≠
            sm.mCurDepthStencilState.stencilPassDepthPass then
        sm.setBit DirtyBit.DEPTH_STENCIL_STATE
      else sm
  | GlDirtyBit.STENCIL_OPS_BACK =>
      let depthStencil := gl.depthStencilState
      if depthStencil.stencilBackFail ≠ sm.mCurDepthStencilState.stencilBackFail ∨
          depthStencil.stencilBackPassDepthFail ≠
            sm.mCurDepthStencilState.stencilBackPassDepthFail ∨
          depthStencil.stencilBackPassDepthPass ≠
            sm.mCurDepthStencilState.stencilBackPassDepthPass then
        sm.setBit DirtyBit.DEPTH_STENCIL_STATE
      else sm
  | GlDirtyBit.CULL_FACE_ENABLED =>
      if gl.rasterState.cullFace ≠ sm.mCurRasterState.cullFace then
        (sm.setBit DirtyBit.RASTERIZER_STATE).setBit DirtyBit.PRIMITIVE_TOPOLOGY
      else sm
  | GlDirtyBit.CULL_FACE =>
      if gl.rasterState.cullMode ≠ sm.mCurRasterState.cullMode then
        (sm.setBit DirtyBit.RASTERIZER_STATE).setBit DirtyBit.PRIMITIVE_TOPOLOGY
      else sm
  | GlDirtyBit.FRONT_FACE =>
      if gl.rasterState.frontFace ≠ sm.mCurRasterState.frontFace then
        (sm.setBit DirtyBit.RASTERIZER_STATE).setBit DirtyBit.PRIMITIVE_TOPOLOGY
      else sm
  | GlDirtyBit.POLYGON_OFFSET_FILL_ENABLED =>
      if gl.rasterState.polygonOffsetFill ≠ sm.mCurRasterState.polygonOffsetFill then
        sm.setBit DirtyBit.RASTERIZER_STATE
      else sm
  | GlDirtyBit.POLYGON_OFFSET =>
      let rasterState := gl.rasterState
      if rasterState.polygonOffsetFactor ≠ sm.mCurRasterState.polygonOffsetFactor ∨
          rasterState.polygonOffsetUnits ≠ sm.mCurRasterState.polygonOffsetUnits then
        sm.setBit DirtyBit.RASTERIZER_STATE
      else sm
  | GlDirtyBit.RASTERIZER_DISCARD_ENABLED =>
      if gl.rasterState.rasterizerDiscard ≠ sm.mCurRasterState.rasterizerDiscard then
        (sm.setBit DirtyBit.RASTERIZER_STATE).invalidateShaders
      else sm
  | GlDirtyBit.SCISSOR =>
      if gl.scissor ≠ sm.mCurScissorRect then
        sm.setBit DirtyBit.SCISSOR_STATE
      else sm
  | GlDirtyBit.SCISSOR_TEST_ENABLED =>
      if gl.scissorTestEnabled ≠ sm.mCurScissorEnabled then
        (sm.setBit DirtyBit.SCISSOR_STATE).setBit DirtyBit.RASTERIZER_STATE
      else sm
  | GlDirtyBit.DEPTH_RANGE =>
      if gl.nearPlane ≠ sm.mCurNear ∨ gl.farPlane ≠ sm.mCurFar then
        sm.invalidateViewport
      else sm
  | GlDirtyBit.VIEWPORT =>
      if gl.viewport ≠ sm.mCurViewport then
        sm.invalidateViewport
      else sm
  | GlDirtyBit.DRAW_FRAMEBUFFER_BINDING =>
      let sm := sm.invalidateRenderTarget
      if sm.mIsMultiviewEnabled then handleMultiviewDrawFramebufferChange sm gl
      else sm
  | GlDirtyBit.VERTEX_ARRAY_BINDING =>
      let sm := invalidateVertexBuffer cfg sm
      let sm := { sm with mDirtyCurrentValueAttribs := Finset.univ }
      sm.invalidateIndexBuffer
  | GlDirtyBit.UNIFORM_BUFFER_BINDINGS => sm.invalidateProgramUniformBuffers
  | GlDirtyBit.TEXTURE_BINDINGS => sm.invalidateTexturesAndSamplers
  | GlDirtyBit.SAMPLER_BINDINGS => sm.invalidateTexturesAndSamplers
  | GlDirtyBit.TRANSFORM_FEEDBACK_BINDING => sm.invalidateTransformFeedback
  | GlDirtyBit.PROGRAM_EXECUTABLE =>
      let sm := sm.setBit DirtyBit.PRIMITIVE_TOPOLOGY
      let sm := sm.invalidateShaders
      let sm := invalidateVertexBuffer cfg sm
      let sm := sm.invalidateRenderTarget
      let sm := sm.invalidateTexturesAndSamplers
      let sm := sm.invalidateProgramUniforms
      let sm := sm.invalidateProgramUniformBuffers
      sm.invalidateDriverUniforms
  | GlDirtyBit.CURRENT_VALUES dirtyCurrentValues =>
      dirtyCurrentValues.foldl (fun sm attribIndex =>
        sm.invalidateCurrentValueAttrib attribIndex) sm
  | GlDirtyBit.OtherNotification => sm

/-- StateManager11::syncState: dispatch each notified fine-grained dirty bit
through the switch (no-op when the notification set is empty). -/
def syncState (cfg : RendererConfig) (sm : StateManager11) (gl : GLState)
    (dirtyBits : List GlDirtyBit) : StateManager11 :=
  if dirtyBits.isEmpty then sm
  else dirtyBits.foldl (fun sm bit => syncStateBit cfg sm gl bit) sm

/-! Resource binding synchronizers. -/

/-- StateManager11::setSamplerState: bind the sampler descriptor of a slot
when the forced-rebind seed flag is set or the descriptor differs from the
cached one, clear the force flag, and push the sampler metadata of the bound
texture into the shader constants. -/
def setSamplerState (sm : StateManager11) (type : ShaderType) (index : Nat)
    (samplerState : Nat) (texture : TextureMetadataSource) :
    StateManager11 × List DeviceCall :=
  let (sm, calls) :=
    match type with
    | ShaderType.Fragment =>
        if sm.mForceSetPixelSamplerStates.getD index false = true ∨
            samplerState ≠ sm.mCurPixelSamplerStates.getD index 0 then
          ({ sm with
              mCurPixelSamplerStates := sm.mCurPixelSamplerStates.set index samplerState
              mForceSetPixelSamplerStates :=
                sm.mForceSetPixelSamplerStates.set index false },
           [DeviceCall.PSSetSamplers index samplerState])
        else
          ({ sm with mForceSetPixelSamplerStates :=
              sm.mForceSetPixelSamplerStates.set index false }, [])
    | ShaderType.Vertex =>
        if sm.mForceSetVertexSamplerStates.getD index false = true ∨
            samplerState ≠ sm.mCurVertexSamplerStates.getD index 0 then
          ({ sm with
              mCurVertexSamplerStates := sm.mCurVertexSamplerStates.set index samplerState
              mForceSetVertexSamplerStates :=
                sm.mForceSetVertexSamplerStates.set index false },
           [DeviceCall.VSSetSamplers index samplerState])
        else
          ({ sm with mForceSetVertexSamplerStates :=
              sm.mForceSetVertexSamplerStates.set index false }, [])
    | ShaderType.Compute =>
        if sm.mForceSetComputeSamplerStates.getD index false = true ∨
            samplerState ≠ sm.mCurComputeSamplerStates.getD index 0 then
          ({ sm with
              mCurComputeSamplerStates := sm.mCurComputeSamplerStates.set index samplerState
              mForceSetComputeSamplerStates :=
                sm.mForceSetComputeSamplerStates.set index false },
           [DeviceCall.CSSetSamplers index samplerState])
        else
          ({ sm with mForceSetComputeSamplerStates :=
              sm.mForceSetComputeSamplerStates.set index false }, [])
  ({ sm with mShaderConstants := sm.mShaderConstants.onSamplerChange type index texture },
   calls)

/-- StateManager11::setTexture: resolve the sampling SRV of the texture
(external storage query) and bind it through the cache. -/
def setTexture (sm : StateManager11) (type : ShaderType) (index : Nat)
    (textureSRV : Option SharedSRV) : StateManager11 × List DeviceCall :=
  sm.setShaderResourceInternal type index textureSRV

/-- One iteration of the applyTextures sampler loop: bind the sampler state
and texture SRV of one slot (complete textures and the incomplete-texture
fallback both arrive as a fully specified binding). -/
def applyTexturesStep (gl : GLState) (shaderType : ShaderType)
    (acc : StateManager11 × List DeviceCall) (samplerIndex : Nat) :
    StateManager11 × List DeviceCall :=
  let (sm, calls) := acc
  let binding := gl.textureBindings shaderType samplerIndex
  let (sm, c1) := setSamplerState sm shaderType samplerIndex binding.sampler
    binding.metadata
  let (sm, c2) := setTexture sm shaderType samplerIndex binding.srv
  (sm, calls ++ c1 ++ c2)

/-- StateManager11::applyTextures for one stage: walk the used sampler
range, binding sampler state and texture SRV per slot, then clear all
trailing SRV slots. -/
def applyTextures (cfg : RendererConfig) (sm : StateManager11) (gl : GLState)
    (shaderType : ShaderType) : StateManager11 × List DeviceCall :=
  let samplerRange := gl.program.getUsedSamplerRange shaderType
  let (sm, calls) := (List.range samplerRange).foldl
    (applyTexturesStep gl shaderType) (sm, [])
  let samplerCount :=
    if shaderType = ShaderType.Fragment then cfg.maxTextureImageUnits
    else cfg.maxVertexTextureImageUnits
  let (sm, c3) := sm.clearSRVs shaderType samplerRange samplerCount
  (sm, calls ++ c3)

/-- StateManager11::syncTextures. -/
def syncTextures (cfg : RendererConfig) (sm : StateManager11) (gl : GLState) :
    StateManager11 × List DeviceCall :=
  let (sm, c1) := applyTextures cfg sm gl ShaderType.Vertex
  let (sm, c2) := applyTextures cfg sm gl ShaderType.Fragment
  (sm, c1 ++ c2)

/-- Modelled from the spec: the reserved constant buffer slots of the
default uniform block and the driver constants (the enum lives outside the
analyzed sources; the spec only needs them to be fixed and distinct). -/
def RESERVED_CONSTANT_BUFFER_SLOT_DEFAULT_UNIFORM_BLOCK : Nat := 0
def RESERVED_CONSTANT_BUFFER_SLOT_DRIVER : Nat := 1

/-- StateManager11::applyUniforms: refresh the default uniform block
storages that are dirty, bind their constant buffers when the cached serial
changed, and mark the program uniforms clean. -/
def applyUniforms (sm : StateManager11) (ext : ExternalFlags) (gl : GLState) :
    StateManager11 × ExternalFlags × List DeviceCall :=
  let program := gl.program
  let c1 :=
    if program.vsUniformStorageSize > 0 ∧ ext.vsUniformsDirty = true then
      [DeviceCall.UpdateSubresource program.vsUniformStorageBufferSerial]
    else []
  let c2 :=
    if program.psUniformStorageSize > 0 ∧ ext.psUniformsDirty = true then
      [DeviceCall.UpdateSubresource program.psUniformStorageBufferSerial]
    else []
  let slot := RESERVED_CONSTANT_BUFFER_SLOT_DEFAULT_UNIFORM_BLOCK
  let (sm, c3) :=
    if sm.mCurrentConstantBufferVS slot ≠ program.vsUniformStorageBufferSerial then
      ({ sm with
          mCurrentConstantBufferVS := fun n =>
            if n = slot then program.vsUniformStorageBufferSerial
            else sm.mCurrentConstantBufferVS n
          mCurrentConstantBufferVSOffset := fun n =>
            if n = slot then 0 else sm.mCurrentConstantBufferVSOffset n
          mCurrentConstantBufferVSSize := fun n =>
            if n = slot then 0 else sm.mCurrentConstantBufferVSSize n },
       [DeviceCall.VSSetConstantBuffers slot program.vsUniformStorageBufferSerial])
    else (sm, [])
  let (sm, c4) :=
    if sm.mCurrentConstantBufferPS slot ≠ program.psUniformStorageBufferSerial then
      ({ sm with
          mCurrentConstantBufferPS := fun n =>
            if n = slot then program.psUniformStorageBufferSerial
            else sm.mCurrentConstantBufferPS n
          mCurrentConstantBufferPSOffset := fun n =>
            if n = slot then 0 else sm.mCurrentConstantBufferPSOffset n
          mCurrentConstantBufferPSSize := fun n =>
            if n = slot then 0 else sm.mCurrentConstantBufferPSSize n },
       [DeviceCall.PSSetConstantBuffers slot program.psUniformStorageBufferSerial])
    else (sm, [])
  (sm, { ext with vsUniformsDirty := false, psUniformsDirty := false },
   c1 ++ c2 ++ c3 ++ c4)

/-- StateManager11::applyDriverUniforms: allocate + bind the driver constant
buffers on first use, flush the shader constants of both draw stages through
`updateBuffer`, and keep the geometry stage bound to the pixel driver buffer
on ES3-capable devices. -/
def applyDriverUniforms (cfg : RendererConfig) (sm : StateManager11)
    (gl : GLState) : StateManager11 × List DeviceCall :=
  let (sm, c1) :=
    if sm.mDriverConstantBufferVS = 0 then
      ({ sm with mDriverConstantBufferVS := cfg.driverVSBufferSerial },
       [DeviceCall.VSSetConstantBuffers RESERVED_CONSTANT_BUFFER_SLOT_DRIVER
          cfg.driverVSBufferSerial])
    else (sm, [])
  let (sm, c2) :=
    if sm.mDriverConstantBufferPS = 0 then
      ({ sm with mDriverConstantBufferPS := cfg.driverPSBufferSerial },
       [DeviceCall.PSSetConstantBuffers RESERVED_CONSTANT_BUFFER_SLOT_DRIVER
          cfg.driverPSBufferSerial])
    else (sm, [])
  let (sc, c3) := sm.mShaderConstants.updateBuffer ShaderType.Vertex
    (gl.program.getUsedSamplerRange ShaderType.Vertex) sm.mDriverConstantBufferVS
  let (sc, c4) := sc.updateBuffer ShaderType.Fragment
    (gl.program.getUsedSamplerRange ShaderType.Fragment) sm.mDriverConstantBufferPS
  let sm := { sm with mShaderConstants := sc }
  let (sm, c5) :=
    if cfg.es3Capable then
      if sm.mCurrentGeometryConstantBuffer ≠ sm.mDriverConstantBufferPS then
        ({ sm with mCurrentGeometryConstantBuffer := sm.mDriverConstantBufferPS },
         [DeviceCall.GSSetConstantBuffers 0 sm.mDriverConstantBufferPS])
      else (sm, [])
    else (sm, [])
  (sm, c1 ++ c2 ++ c3 ++ c4 ++ c5)

/-- One iteration of the vertex-stage uniform buffer binding loop of
syncUniformBuffers. -/
def syncUBVertexStep (gl : GLState) (reservedVertex : Nat)
    (vertexUniformBuffers : List Int)
    (acc : StateManager11 × List DeviceCall) (bufferIndex : Nat) :
    StateManager11 × List DeviceCall :=
  let (sm, calls) := acc
  let binding := vertexUniformBuffers.getD bufferIndex (-1)
  if binding = -1 then acc
  else
    match gl.indexedUniformBuffers binding with
    | none => acc
    | some ub =>
        if sm.mCurrentConstantBufferVS bufferIndex = ub.serial ∧
            sm.mCurrentConstantBufferVSOffset bufferIndex = ub.offset ∧
            sm.mCurrentConstantBufferVSSize bufferIndex = ub.size then
          acc
        else
          let appliedIndex := reservedVertex + bufferIndex
          let call :=
            if ub.firstConstant ≠ 0 ∧ ub.size ≠ 0 then
              DeviceCall.VSSetConstantBuffers1 appliedIndex ub.serial
                ub.firstConstant ub.numConstants
            else DeviceCall.VSSetConstantBuffers appliedIndex ub.serial
          let sm := { sm with
            mCurrentConstantBufferVS := fun n =>
              if n = appliedIndex then ub.serial
              else sm.mCurrentConstantBufferVS n
            mCurrentConstantBufferVSOffset := fun n =>
              if n = appliedIndex then ub.offset
              else sm.mCurrentConstantBufferVSOffset n
            mCurrentConstantBufferVSSize := fun n =>
              if n = appliedIndex then ub.size
              else sm.mCurrentConstantBufferVSSize n }
          (sm, calls ++ [call])

/-- One iteration of the fragment-stage uniform buffer binding loop of
syncUniformBuffers. -/
def syncUBFragmentStep (gl : GLState) (reservedFragment : Nat)
    (fragmentUniformBuffers : List Int)
    (acc : StateManager11 × List DeviceCall) (bufferIndex : Nat) :
    StateManager11 × List DeviceCall :=
  let (sm, calls) := acc
  let binding := fragmentUniformBuffers.getD bufferIndex (-1)
  if binding = -1 then acc
  else
    match gl.indexedUniformBuffers binding with
    | none => acc
    | some ub =>
        if sm.mCurrentConstantBufferPS bufferIndex = ub.serial ∧
            sm.mCurrentConstantBufferPSOffset bufferIndex = ub.offset ∧
            sm.mCurrentConstantBufferPSSize bufferIndex = ub.size then
          acc
        else
          let appliedIndex := reservedFragment + bufferIndex
          let call :=
            if ub.firstConstant ≠ 0 ∧ ub.size ≠ 0 then
              DeviceCall.PSSetConstantBuffers1 appliedIndex ub.serial
                ub.firstConstant ub.numConstants
            else DeviceCall.PSSetConstantBuffers appliedIndex ub.serial
          let sm := { sm with
            mCurrentConstantBufferPS := fun n =>
              if n = appliedIndex then ub.serial
              else sm.mCurrentConstantBufferPS n
            mCurrentConstantBufferPSOffset := fun n =>
              if n = appliedIndex then ub.offset
              else sm.mCurrentConstantBufferPSOffset n
            mCurrentConstantBufferPSSize := fun n =>
              if n = appliedIndex then ub.size
              else sm.mCurrentConstantBufferPSSize n }
          (sm, calls ++ [call])

/-- StateManager11::syncUniformBuffers: walk the uniform buffer binding
caches of the program, skipping empty bindings and bindings whose
serial/offset/size triple already matches, binding the constant range
partially when supported and a nonzero range offset exists. -/
def syncUniformBuffers (cfg : RendererConfig) (sm : StateManager11)
    (gl : GLState) : StateManager11 × List DeviceCall :=
  let reservedVertex := cfg.reservedVertexUniformBuffers
  let reservedFragment := cfg.reservedFragmentUniformBuffers
  let vertexUniformBuffers := gl.program.vertexUniformBufferCache
  let fragmentUniformBuffers := gl.program.fragmentUniformBufferCache
  let (sm, calls) := (List.range vertexUniformBuffers.length).foldl
    (syncUBVertexStep gl reservedVertex vertexUniformBuffers) (sm, [])
  let (sm, calls) := (List.range fragmentUniformBuffers.length).foldl
    (syncUBFragmentStep gl reservedFragment fragmentUniformBuffers) (sm, calls)
  (sm, calls)

/-- StateManager11::syncTransformFeedbackBuffers: unbind all stream-out
targets when transform feedback is inactive, otherwise rebind only when the
applied serial or the dirtiness of the transform feedback object changed. -/
def syncTransformFeedbackBuffers (sm : StateManager11) (ext : ExternalFlags)
    (gl : GLState) : StateManager11 × ExternalFlags × List DeviceCall :=
  if !gl.transformFeedbackActiveUnpaused then
    if sm.mAppliedTFSerial ≠ 0 then
      ({ sm with mAppliedTFSerial := 0 }, ext, [DeviceCall.SOSetTargets 0])
    else (sm, ext, [])
  else
    if sm.mAppliedTFSerial = gl.tfSerial ∧ ext.tfDirty = false then (sm, ext, [])
    else
      ({ sm with mAppliedTFSerial := gl.tfSerial },
       { ext with tfDirty := false },
       [DeviceCall.SOSetTargets gl.tfNumSOBuffers])

/-! Shader stage binding. -/

/-- StateManager11::setVertexShader (serial 0 stands for the null shader). -/
def setVertexShader (sm : StateManager11) (serial : Nat) :
    StateManager11 × List DeviceCall :=
  if serial ≠ sm.mAppliedVertexShader then
    (({ sm with mAppliedVertexShader := serial }).invalidateShaders,
     [DeviceCall.VSSetShader serial])
  else (sm, [])

/-- StateManager11::setGeometryShader. -/
def setGeometryShader (sm : StateManager11) (serial : Nat) :
    StateManager11 × List DeviceCall :=
  if serial ≠ sm.mAppliedGeometryShader then
    (({ sm with mAppliedGeometryShader := serial }).invalidateShaders,
     [DeviceCall.GSSetShader serial])
  else (sm, [])

/-- StateManager11::setPixelShader. -/
def setPixelShader (sm : StateManager11) (serial : Nat) :
    StateManager11 × List DeviceCall :=
  if serial ≠ sm.mAppliedPixelShader then
    (({ sm with mAppliedPixelShader := serial }).invalidateShaders,
     [DeviceCall.PSSetShader serial])
  else (sm, [])

/-- StateManager11::setDrawShaders. -/
def setDrawShaders (sm : StateManager11)
    (vertexShader geometryShader pixelShader : Nat) :
    StateManager11 × List DeviceCall :=
  let (sm, c1) := setVertexShader sm vertexShader
  let (sm, c2) := setGeometryShader sm geometryShader
  let (sm, c3) := setPixelShader sm pixelShader
  (sm, c1 ++ c2 ++ c3)

/-- StateManager11::syncProgram: select the executables of the current
program (skipping the pixel shader under rasterizer discard, and swapping
the geometry shader for the stream-out shader while transform feedback is
active), bind them, and explicitly clear the shaders dirty bit. -/
def syncProgram (sm : StateManager11) (gl : GLState) (_drawMode : Nat) :
    StateManager11 × List DeviceCall :=
  let vertexShader := gl.program.vertexExecutableSerial
  let pixelShader :=
    if gl.rasterState.rasterizerDiscard then 0 else gl.program.pixelExecutableSerial
  let geometryShader :=
    if gl.transformFeedbackActiveUnpaused then gl.program.streamOutExecutableSerial
    else gl.program.geometryExecutableSerial
  let (sm, calls) := setDrawShaders sm vertexShader geometryShader pixelShader
  ({ sm with mInternalDirtyBits := sm.mInternalDirtyBits.resetBit DirtyBit.SHADERS },
   calls)

/-! Vertex buffers, input layout, index buffer, primitive topology. -/

/-- StateManager11::setInputLayoutInternal (serial 0 stands for the empty
layout). -/
def setInputLayoutInternal (sm : StateManager11) (inputLayout : Option Nat) :
    StateManager11 × Bool × List DeviceCall :=
  match inputLayout with
  | none =>
      if sm.mCurrentInputLayout ≠ 0 then
        ({ sm with mCurrentInputLayout := 0 }, true, [DeviceCall.IASetInputLayout 0])
      else (sm, false, [])
  | some serial =>
      if serial ≠ sm.mCurrentInputLayout then
        ({ sm with mCurrentInputLayout := serial }, true,
         [DeviceCall.IASetInputLayout serial])
      else (sm, false, [])

/-- StateManager11::queueVertexBufferChange: record a buffer/stride/offset
triple for a slot, extending the dirty contiguous range when it changed. -/
def queueVertexBufferChange (sm : StateManager11) (bufferIndex : Nat)
    (buffer stride offset : Nat) : StateManager11 × Bool :=
  if buffer ≠ sm.mCurrentVertexBuffers.getD bufferIndex 0 ∨
      stride ≠ sm.mCurrentVertexStrides.getD bufferIndex 0 ∨
      offset ≠ sm.mCurrentVertexOffsets.getD bufferIndex 0 then
    ({ sm with
        mDirtyVertexBufferRange := sm.mDirtyVertexBufferRange.extend bufferIndex
        mCurrentVertexBuffers := sm.mCurrentVertexBuffers.set bufferIndex buffer
        mCurrentVertexStrides := sm.mCurrentVertexStrides.set bufferIndex stride
        mCurrentVertexOffsets := sm.mCurrentVertexOffsets.set bufferIndex offset },
     true)
  else (sm, false)

/-- StateManager11::applyVertexBufferChanges: flush the minimal contiguous
dirty vertex buffer range with one binding call and reset the range. -/
def applyVertexBufferChanges (sm : StateManager11) :
    StateManager11 × List DeviceCall :=
  if sm.mDirtyVertexBufferRange.emptyRange then (sm, [])
  else
    let start := sm.mDirtyVertexBufferRange.low
    let len := sm.mDirtyVertexBufferRange.length
    let call := DeviceCall.IASetVertexBuffers start len
      ((sm.mCurrentVertexBuffers.drop start).take len)
      ((sm.mCurrentVertexStrides.drop start).take len)
      ((sm.mCurrentVertexOffsets.drop start).take len)
    ({ sm with mDirtyVertexBufferRange := ⟨MAX_VERTEX_ATTRIBS, 0⟩ }, [call])

/-- StateManager11::syncIndexBuffer: bind the index buffer when the
buffer/format/offset triple differs from the applied one. -/
def syncIndexBuffer (sm : StateManager11) (buffer indexFormat offset : Nat) :
    StateManager11 × Bool × List DeviceCall :=
  if buffer ≠ sm.mAppliedIB ∨ indexFormat ≠ sm.mAppliedIBFormat ∨
      offset ≠ sm.mAppliedIBOffset then
    ({ sm with
        mAppliedIB := buffer
        mAppliedIBFormat := indexFormat
        mAppliedIBOffset := offset }, true,
     [DeviceCall.IASetIndexBuffer buffer indexFormat offset])
  else (sm, false, [])

/-- StateManager11::applyIndexBuffer: when the cached index buffer is dirty,
run the (external) index data preparation and apply the resulting
buffer/format/offset, then clear the flag. -/
def applyIndexBuffer (sm : StateManager11) (gl : GLState)
    (_params : DrawCallParams) : StateManager11 × List DeviceCall :=
  if !sm.mIndexBufferIsDirty then (sm, [])
  else
    let bufferFormat :=
      if gl.idxIsUInt then DXGI_FORMAT_R32_UINT else DXGI_FORMAT_R16_UINT
    let (sm, _, calls) := syncIndexBuffer sm gl.idxBuffer bufferFormat
      gl.idxStartOffset
    ({ sm with mIndexBufferIsDirty := false }, calls)

/-- FindFirstNonInstanced (StateManager11.cpp, anonymous namespace). -/
def FindFirstNonInstanced (currentAttributes : List (Option TranslatedAttrib)) :
    Option Nat :=
  currentAttributes.findIdx? (fun a => (a.getD default).divisor = 0)

/-- SortAttributesByLayout (StateManager11.cpp, anonymous namespace): place
each active attribute at the D3D semantic slot of its location, growing the
output as needed; enabled array attributes win over the current value
attribute of the location. -/
def SortAttributesByLayout (program : Program)
    (vertexArrayAttribs currentValueAttribs : Fin 16 → TranslatedAttrib) :
    List (Option TranslatedAttrib) :=
  ((List.finRange 16).filter (· ∈ program.activeAttribLocationsMask)).foldl
    (fun sorted locationIndex =>
      let d3dSemantic := (program.attribLocationToD3DSemantic locationIndex).toNat
      let sorted :=
        if sorted.length ≤ d3dSemantic then
          sorted ++ List.replicate (d3dSemantic + 1 - sorted.length) none
        else sorted
      let arrayAttrib := vertexArrayAttribs locationIndex
      if arrayAttrib.enabled then sorted.set d3dSemantic (some arrayAttrib)
      else sorted.set d3dSemantic (some (currentValueAttribs locationIndex)))
    []

/-- GetReservedBufferCount (StateManager11.cpp, anonymous namespace). -/
def GetReservedBufferCount (usesPointSpriteEmulation : Bool) : Nat :=
  if usesPointSpriteEmulation then 1 else 0

/-- kPointSpriteVertexStride = sizeof(float) * 5. -/
def kPointSpriteVertexStride : Nat := 20

/-- One iteration of the attribute loop of applyVertexBuffers: queue the
buffer/stride/offset triple of one attribute slot (zeroes past the sorted
attribute list). -/
def applyVBStep (drawCallParams : DrawCallParams) (reservedBuffers : Nat)
    (sm : StateManager11) (attribIndex : Nat) : StateManager11 :=
  let (buffer, vertexStride, vertexOffset) :=
    if attribIndex < sm.mCurrentAttributes.length then
      let attrib := (sm.mCurrentAttributes.getD attribIndex none).getD default
      (attrib.bufferSerial, attrib.stride,
       attrib.computeOffset drawCallParams.firstVertex)
    else (0, 0, 0)
  let bufferIndex := reservedBuffers + attribIndex
  (queueVertexBufferChange sm bufferIndex buffer vertexStride vertexOffset).1

/-- The point sprite block of applyVertexBuffers: lazily create the shared
quad buffers, queue the reserved slot 0 binding, and bind the point sprite
index buffer while the emulation is active for this draw. -/
def applyVBPointSprites (cfg : RendererConfig)
    (instancedPointSpritesActive : Bool) (sm : StateManager11) :
    StateManager11 × List DeviceCall :=
  let sm :=
    if sm.mPointSpriteVertexBuffer = 0 then
      { sm with mPointSpriteVertexBuffer := cfg.pointSpriteVertexBufferSerial }
    else sm
  let stride := if instancedPointSpritesActive then kPointSpriteVertexStride else 0
  let sm := (queueVertexBufferChange sm 0 sm.mPointSpriteVertexBuffer stride 0).1
  let sm :=
    if sm.mPointSpriteIndexBuffer = 0 then
      { sm with mPointSpriteIndexBuffer := cfg.pointSpriteIndexBufferSerial }
    else sm
  if instancedPointSpritesActive then
    let (sm, _, calls) := syncIndexBuffer sm sm.mPointSpriteIndexBuffer
      DXGI_FORMAT_R16_UINT 0
    (sm, calls)
  else (sm, [])

/-- StateManager11::applyVertexBuffers: queue the buffer/stride/offset of
every attribute slot (reserving slot 0 for the point sprite quad under the
instanced point sprite emulation), then flush the minimal dirty range. -/
def applyVertexBuffers (cfg : RendererConfig) (sm : StateManager11)
    (gl : GLState) (drawCallParams : DrawCallParams) :
    StateManager11 × List DeviceCall :=
  let program := gl.program
  let programUsesInstancedPointSprites :=
    program.usesPointSize && program.usesInstancedPointSpriteEmulation
  let instancedPointSpritesActive :=
    programUsesInstancedPointSprites && decide (drawCallParams.mode = GL_POINTS)
  let reservedBuffers := GetReservedBufferCount programUsesInstancedPointSprites
  let sm := (List.range (MAX_VERTEX_ATTRIBS - reservedBuffers)).foldl
    (applyVBStep drawCallParams reservedBuffers) sm
  let (sm, pointSpriteCalls) :=
    if programUsesInstancedPointSprites then
      applyVBPointSprites cfg instancedPointSpritesActive sm
    else (sm, [])
  let (sm, flushCalls) := applyVertexBufferChanges sm
  (sm, pointSpriteCalls ++ flushCalls)

/-- StateManager11::syncVertexBuffersAndInputLayout: sort the translated
attributes into semantic order, apply the feature-level-9_3 first-attribute
swap, query the input layout cache and bind the layout if changed, then
apply the vertex buffers. -/
def syncVertexBuffersAndInputLayout (cfg : RendererConfig)
    (sm : StateManager11) (gl : GLState) (drawCallParams : DrawCallParams) :
    StateManager11 × List DeviceCall :=
  let sortedAttributes := SortAttributesByLayout gl.program gl.vertexArrayAttribs
    sm.mCurrentValueAttribs
  let sortedAttributes :=
    if cfg.featureLevel9_3 ∧ sortedAttributes ≠ [] then
      if ((sortedAttributes.getD 0 none).getD default).divisor > 0 then
        match FindFirstNonInstanced sortedAttributes with
        | some index =>
            let a0 := sortedAttributes.getD 0 none
            let ai := sortedAttributes.getD index none
            (sortedAttributes.set 0 ai).set index a0
        | none => sortedAttributes
      else sortedAttributes
    else sortedAttributes
  let sm := { sm with mCurrentAttributes := sortedAttributes }
  let (sm, _, c1) := setInputLayoutInternal sm (some gl.inputLayoutSerial)
  let (sm, c2) := applyVertexBuffers cfg sm gl drawCallParams
  (sm, c1 ++ c2)

/-- One iteration of the dirty attribute loop of syncCurrentValueAttribs:
refresh the cached current value attribute record of one location unless an
enabled array attribute backs it, extending the vertex buffer dirty
range. -/
def syncCVAStep (gl : GLState) (sm : StateManager11) (attribIndex : Fin 16) :
    StateManager11 :=
  if (gl.vertexArrayAttribs attribIndex).enabled then sm
  else
    { sm with
      mCurrentValueAttribs := fun j =>
        if j = attribIndex then gl.currentValueAttribs attribIndex
        else sm.mCurrentValueAttribs j
      mDirtyVertexBufferRange :=
        sm.mDirtyVertexBufferRange.extend attribIndex.val }

/-- StateManager11::syncCurrentValueAttribs: for every dirty active
attribute location that is not backed by an enabled array attribute, refresh
the cached current value attribute record (the external vertex data manager
stores the constant data) and extend the vertex buffer dirty range. -/
def syncCurrentValueAttribs (sm : StateManager11) (gl : GLState) :
    StateManager11 × List DeviceCall :=
  let activeAttribsMask := gl.program.activeAttribLocationsMask
  let dirtyActiveAttribs := activeAttribsMask ∩ sm.mDirtyCurrentValueAttribs
  if dirtyActiveAttribs = ∅ then (sm, [])
  else
    let sm := { sm with
      mDirtyCurrentValueAttribs := sm.mDirtyCurrentValueAttribs \ dirtyActiveAttribs }
    let sm := ((List.finRange 16).filter (· ∈ dirtyActiveAttribs)).foldl
      (syncCVAStep gl) sm
    (sm, [])

/-- CullsEverything (StateManager11.cpp, anonymous namespace). -/
def CullsEverything (gl : GLState) : Bool :=
  gl.rasterState.cullFace &&
    decide (gl.rasterState.cullMode = CullFaceMode.FrontAndBack)

/-- The largest GLsizei value (std::numeric_limits of GLsizei). -/
def GLSIZEI_MAX : Int := 2 ^ 31 - 1

/-- StateManager11::setPrimitiveTopologyInternal. -/
def setPrimitiveTopologyInternal (sm : StateManager11)
    (primitiveTopology : Nat) : StateManager11 × Bool × List DeviceCall :=
  if primitiveTopology ≠ sm.mCurrentPrimitiveTopology then
    ({ sm with mCurrentPrimitiveTopology := primitiveTopology }, true,
     [DeviceCall.IASetPrimitiveTopology primitiveTopology])
  else (sm, false, [])

/-- StateManager11::syncPrimitiveTopology: translate the GL draw mode to a
D3D topology (point sprites become triangle lists under the emulation
workaround; point rendering without gl_PointSize short-circuits by making
the minimum draw count unreachable), track the minimum draw count, and bind
the topology if changed. -/
def syncPrimitiveTopology (cfg : RendererConfig) (sm : StateManager11)
    (gl : GLState) (currentDrawMode : Nat) : StateManager11 × List DeviceCall :=
  if currentDrawMode = GL_POINTS then
    let usesPointSize := gl.program.usesPointSize
    if !usesPointSize ∧ !gl.transformFeedbackActiveUnpaused then
      ({ sm with mCurrentMinimumDrawCount := GLSIZEI_MAX }, [])
    else
      let primitiveTopology :=
        if usesPointSize ∧ cfg.useInstancedPointSpriteEmulationWorkaround = true then
          D3D_PRIMITIVE_TOPOLOGY_TRIANGLELIST
        else D3D_PRIMITIVE_TOPOLOGY_POINTLIST
      let sm := { sm with mCurrentMinimumDrawCount := 1 }
      let (sm, _, calls) := setPrimitiveTopologyInternal sm primitiveTopology
      (sm, calls)
  else
    let (primitiveTopology, minimumDrawCount) :=
      if currentDrawMode = GL_LINES then (D3D_PRIMITIVE_TOPOLOGY_LINELIST, (2 : Int))
      else if currentDrawMode = GL_LINE_LOOP then (D3D_PRIMITIVE_TOPOLOGY_LINESTRIP, 2)
      else if currentDrawMode = GL_LINE_STRIP then (D3D_PRIMITIVE_TOPOLOGY_LINESTRIP, 2)
      else if currentDrawMode = GL_TRIANGLES then
        (D3D_PRIMITIVE_TOPOLOGY_TRIANGLELIST,
         if CullsEverything gl then GLSIZEI_MAX else 3)
      else if currentDrawMode = GL_TRIANGLE_STRIP then
        (D3D_PRIMITIVE_TOPOLOGY_TRIANGLESTRIP,
         if CullsEverything gl then GLSIZEI_MAX else 3)
      else if currentDrawMode = GL_TRIANGLE_FAN then
        (D3D_PRIMITIVE_TOPOLOGY_TRIANGLELIST,
         if CullsEverything gl then GLSIZEI_MAX else 3)
      else (D3D_PRIMITIVE_TOPOLOGY_UNDEFINED, sm.mCurrentMinimumDrawCount)
    let sm := { sm with mCurrentMinimumDrawCount := minimumDrawCount }
    let (sm, _, calls) := setPrimitiveTopologyInternal sm primitiveTopology
    (sm, calls)

/-! The draw orchestrator (updateState). -/

/-- The switch body of the dirty bit drain loop in
StateManager11::updateState: run the synchronizer of one state group. -/
def drainBit (cfg : RendererConfig) (sm : StateManager11)
    (ext : ExternalFlags) (gl : GLState) (drawCallParams : DrawCallParams) :
    DirtyBit → StateManager11 × ExternalFlags × List DeviceCall
  | DirtyBit.RENDER_TARGET =>
      let (sm, calls) := syncFramebuffer cfg sm gl gl.drawFramebuffer
      (sm, ext, calls)
  | DirtyBit.VIEWPORT_STATE =>
      let (sm, calls) := syncViewport cfg sm gl
      (sm, ext, calls)
  | DirtyBit.SCISSOR_STATE =>
      let (sm, calls) := syncScissorRectangle sm gl.scissor gl.scissorTestEnabled
      (sm, ext, calls)
  | DirtyBit.RASTERIZER_STATE =>
      let (sm, calls) := syncRasterizerState sm gl drawCallParams
      (sm, ext, calls)
  | DirtyBit.BLEND_STATE =>
      let (sm, calls) := syncBlendState sm gl.blendState gl.blendColor gl.sampleMask
      (sm, ext, calls)
  | DirtyBit.DEPTH_STENCIL_STATE =>
      let (sm, calls) := syncDepthStencilState sm gl
      (sm, ext, calls)
  | DirtyBit.TEXTURE_AND_SAMPLER_STATE =>
      let (sm, calls) := syncTextures cfg sm gl
      (sm, ext, calls)
  | DirtyBit.PROGRAM_UNIFORMS => applyUniforms sm ext gl
  | DirtyBit.DRIVER_UNIFORMS =>
      let (sm, calls) := applyDriverUniforms cfg sm gl
      (sm, ext, calls)
  | DirtyBit.PROGRAM_UNIFORM_BUFFERS =>
      let (sm, calls) := syncUniformBuffers cfg sm gl
      (sm, ext, calls)
  | DirtyBit.SHADERS =>
      let (sm, calls) := syncProgram sm gl drawCallParams.mode
      (sm, ext, calls)
  | DirtyBit.CURRENT_VALUE_ATTRIBS =>
      let (sm, calls) := syncCurrentValueAttribs sm gl
      (sm, ext, calls)
  | DirtyBit.TRANSFORM_FEEDBACK => syncTransformFeedbackBuffers sm ext gl
  | DirtyBit.VERTEX_BUFFERS_AND_INPUT_LAYOUT =>
      let (sm, calls) := syncVertexBuffersAndInputLayout cfg sm gl drawCallParams
      (sm, ext, calls)
  | DirtyBit.PRIMITIVE_TOPOLOGY =>
      let (sm, calls) := syncPrimitiveTopology cfg sm gl drawCallParams.mode
      (sm, ext, calls)

/-- One iteration of the drain loop: run one synchronizer and append its
calls. -/
def drainStep (cfg : RendererConfig) (gl : GLState)
    (drawCallParams : DrawCallParams)
    (acc : StateManager11 × ExternalFlags × List DeviceCall) (bit : DirtyBit) :
    StateManager11 × ExternalFlags × List DeviceCall :=
  let (sm, ext, calls) := acc
  let (sm, ext, calls') := drainBit cfg sm ext gl drawCallParams bit
  (sm, ext, calls ++ calls')

/-- The drain loop: run the synchronizers of the snapshot bits in the fixed
order. -/
def drainAll (cfg : RendererConfig) (sm : StateManager11)
    (ext : ExternalFlags) (gl : GLState) (drawCallParams : DrawCallParams)
    (bits : List DirtyBit) : StateManager11 × ExternalFlags × List DeviceCall :=
  bits.foldl (drainStep cfg gl drawCallParams) (sm, ext, [])

/-- The sampler mapping resolution block of updateState. -/
def preSamplerMapping (sm : StateManager11) (ext : ExternalFlags) :
    StateManager11 × ExternalFlags :=
  if ext.samplerMappingDirty then
    (sm.invalidateTexturesAndSamplers, { ext with samplerMappingDirty := false })
  else (sm, ext)

/-- The program-uniform dirtiness block of updateState: set the uniform
dirty bit when either draw-stage default uniform block is dirty. -/
def preUniformFlags (sm : StateManager11) (ext : ExternalFlags) :
    StateManager11 :=
  if ext.anyShaderUniformsDirty then sm.setBit DirtyBit.PROGRAM_UNIFORMS else sm

/-- The swizzle regeneration block of updateState (the blit-based swizzle
generation happens on external textures and issues no binding calls). -/
def preSwizzles (sm : StateManager11) : StateManager11 :=
  if sm.mDirtySwizzles then { sm with mDirtySwizzles := false } else sm

/-- The blend sample mask comparison block of updateState. -/
def preSampleMask (sm : StateManager11) (sampleMask : Nat) : StateManager11 :=
  if sampleMask ≠ sm.mCurSampleMask then sm.setBit DirtyBit.BLEND_STATE else sm

/-- The first-vertex comparison block of updateState. -/
def preFirstVertex (sm : StateManager11) (firstVertex : Int) : StateManager11 :=
  if sm.mLastFirstVertex ≠ some firstVertex then
    ({ sm with mLastFirstVertex := some firstVertex }).invalidateInputLayout
  else sm

/-- The index buffer application block of updateState (indexed draws
only). -/
def preIndexBuffer (sm : StateManager11) (gl : GLState)
    (drawCallParams : DrawCallParams) : StateManager11 × List DeviceCall :=
  if drawCallParams.isDrawElements then applyIndexBuffer sm gl drawCallParams
  else (sm, [])

/-- The draw mode comparison block of updateState: dirty the topology on any
mode change, and additionally the rasterizer state and shaders when the
point-mode flag flips. -/
def preDrawMode (sm : StateManager11) (drawCallParams : DrawCallParams) :
    StateManager11 :=
  if sm.mLastAppliedDrawMode ≠ drawCallParams.mode then
    let sm := ({ sm with mLastAppliedDrawMode := drawCallParams.mode }).setBit
      DirtyBit.PRIMITIVE_TOPOLOGY
    let pointDrawMode := decide (drawCallParams.mode = GL_POINTS)
    if pointDrawMode ≠ sm.mCurRasterState.pointDrawMode then
      (sm.setBit DirtyBit.RASTERIZER_STATE).invalidateShaders
    else sm
  else sm

/-- The pre-drain prologue of updateState: resolve the deferred framebuffer
invalidation, the sampler mapping and program uniform dirtiness, regenerate
swizzles, compare the blend sample mask, the first vertex and the draw mode
against their caches, and apply the index buffer for indexed draws. -/
def preDrain (cfg : RendererConfig) (sm : StateManager11)
    (ext : ExternalFlags) (gl : GLState) (drawCallParams : DrawCallParams) :
    StateManager11 × ExternalFlags × List DeviceCall :=
  let sm := processFramebufferInvalidation cfg sm gl
  let (sm, ext) := preSamplerMapping sm ext
  let sm := preUniformFlags sm ext
  let sm := preSwizzles sm
  let sm := preSampleMask sm gl.sampleMask
  let sm := preFirstVertex sm drawCallParams.firstVertex
  let (sm, indexCalls) := preIndexBuffer sm gl drawCallParams
  let sm := preDrawMode sm drawCallParams
  (sm, ext, indexCalls)

/-- StateManager11::updateState, the once-per-draw sync pass: run the
pre-drain prologue, then snapshot and clear the internal dirty bits and
drain the snapshot in the fixed order.  External collaborator passes with no
effect on this state (markAttachmentsDirty, vertex array syncStateForDraw,
swizzle blit generation) do not contribute binding calls to the trace; the
sample mask input `gl.sampleMask` stands for GetBlendSampleMask on the
current logical state. -/
def updateState (cfg : RendererConfig) (sm : StateManager11)
    (ext : ExternalFlags) (gl : GLState) (drawCallParams : DrawCallParams) :
    StateManager11 × ExternalFlags × List DeviceCall :=
  let (sm, ext, indexCalls) := preDrain cfg sm ext gl drawCallParams
  let dirtyBitsCopy := sm.mInternalDirtyBits
  let sm := { sm with mInternalDirtyBits := DirtyBits.noneSet }
  let (sm, ext, drainCalls) := drainAll cfg sm ext gl drawCallParams
    (drainOrder.filter (fun bit => dirtyBitsCopy.get bit))
  (sm, ext, indexCalls ++ drainCalls)

end StateManager11

/-! Derived accessors used to state the claims. -/

namespace ShaderConstants11

/-- The per-stage dirty flag of `mShaderConstantsDirty`. -/
def dirtyFlag (s : ShaderConstants11) : ShaderType → Bool
  | ShaderType.Vertex => s.mShaderConstantsDirtyVS
  | ShaderType.Fragment => s.mShaderConstantsDirtyPS
  | ShaderType.Compute => s.mShaderConstantsDirtyCS

/-- The per-stage previously-uploaded active sampler count. -/
def numActiveSamplers (s : ShaderConstants11) : ShaderType → Nat
  | ShaderType.Vertex => s.mNumActiveVSSamplers
  | ShaderType.Fragment => s.mNumActivePSSamplers
  | ShaderType.Compute => s.mNumActiveCSSamplers

/-- The per-stage sampler metadata image. -/
def samplerMetadata (s : ShaderConstants11) : ShaderType → List SamplerMetadata
  | ShaderType.Vertex => s.mSamplerMetadataVS
  | ShaderType.Fragment => s.mSamplerMetadataPS
  | ShaderType.Compute => s.mSamplerMetadataCS

/-- The per-stage fixed header block. -/
def headerData (s : ShaderConstants11) : ShaderType → DriverConstantsData
  | ShaderType.Vertex => DriverConstantsData.vertex s.mVertex
  | ShaderType.Fragment => DriverConstantsData.pixel s.mPixel
  | ShaderType.Compute => DriverConstantsData.compute s.mCompute

end ShaderConstants11

/-- The blend color channel tuple of an OMSetBlendState call, for stating
the blend-constant broadcast claim. -/
def blendColorsOf (calls : List DeviceCall) : Option (ℚ × ℚ × ℚ × ℚ) :=
  match calls with
  | [DeviceCall.OMSetBlendState _ colors _] => some colors
  | _ => none

/-- The maximum representable stencil reference for the current stencil
size, as computed at the head of syncDepthStencilState. -/
def maxStencilOf (stencilTest : Bool) (stencilSize : Nat) : Nat :=
  if stencilTest = true ∧ 0 < stencilSize then 2 ^ stencilSize - 1 else 0

/-- Whether a framebuffer attachment being bound conflicts with a cached SRV
slot record, as unsetConflictingAttachmentResources tests it: texture
attachments carry their image index into the conflict test, default
framebuffer surfaces match on the underlying resource alone, and other
attachment kinds are never scanned. -/
def attachmentConflict (attachType : AttachmentType) (imageIndex : ImageIndex)
    (resource : Nat) (record : ViewRecord) : Bool :=
  if attachType = AttachmentType.Texture then
    StateManager11.conflictsWithB record resource (some imageIndex)
  else if attachType = AttachmentType.FramebufferDefault then
    StateManager11.conflictsWithB record resource none
  else false

/-- The color render target the syncFramebuffer loop processes at an index
(none when the slot is empty or skipped by the inactive-render-target
workaround). -/
def processedAt (cfg : RendererConfig) (gl : GLState) (fb : Framebuffer)
    (rtIndex : Nat) : Option ColorRenderTarget :=
  match fb.colorRTs.getD rtIndex none with
  | none => none
  | some rt =>
      if cfg.mrtPerfWorkaround ∧
          (fb.drawBufferEnabled.getD rtIndex false = false ∨
            StateManager11.drawBufferMaskTest gl.program.activeOutputVariables
              rtIndex = false) then
        none
      else some rt

/-- The color render targets syncFramebuffer binds and scans for SRV
conflicts. -/
def processedColorRTs (cfg : RendererConfig) (gl : GLState)
    (fb : Framebuffer) : List ColorRenderTarget :=
  (List.range fb.colorRTs.length).filterMap (processedAt cfg gl fb)

/-- The caches updateState consults before the drain (deferred framebuffer
flag, swizzle flag, last first vertex, last draw mode, index buffer
dirtiness): no drain handler writes them. -/
def drainFrame (sm : StateManager11) :
    Bool × Bool × Option Int × Nat × Bool :=
  (sm.mRenderTargetIsDirty, sm.mDirtySwizzles, sm.mLastFirstVertex,
   sm.mLastAppliedDrawMode, sm.mIndexBufferIsDirty)

/-- drainFrame together with the blend sample mask cache and the internal
dirty bit set (the parts of the state manager the idempotence argument
tracks through the drain). -/
def quietSig (sm : StateManager11) :
    (Bool × Bool × Option Int × Nat × Bool) × Nat × DirtyBits :=
  (drainFrame sm, sm.mCurSampleMask, sm.mInternalDirtyBits)

/-! Constructor defaults (used to build concrete witness states). -/

/-- The gl::BlendState defaults of the StateManager11 constructor. -/
def defaultBlendState : BlendState :=
  { blend := false
    sourceBlendRGB := GL_ONE
    destBlendRGB := GL_ZERO
    sourceBlendAlpha := GL_ONE
    destBlendAlpha := GL_ZERO
    blendEquationRGB := GL_FUNC_ADD
    blendEquationAlpha := GL_FUNC_ADD
    colorMaskRed := true
    colorMaskGreen := true
    colorMaskBlue := true
    colorMaskAlpha := true
    sampleAlphaToCoverage := false
    dither := false }

/-- The gl::DepthStencilState defaults of the StateManager11 constructor. -/
def defaultDepthStencilState : DepthStencilState :=
  { depthTest := false
    depthFunc := GL_LESS
    depthMask := true
    stencilTest := false
    stencilFunc := GL_ALWAYS
    stencilMask := UINT_MAX_VAL
    stencilFail := GL_KEEP
    stencilPassDepthFail := GL_KEEP
    stencilPassDepthPass := GL_KEEP
    stencilWritemask := UINT_MAX_VAL
    stencilBackFunc := GL_ALWAYS
    stencilBackMask := UINT_MAX_VAL
    stencilBackFail := GL_KEEP
    stencilBackPassDepthFail := GL_KEEP
    stencilBackPassDepthPass := GL_KEEP
    stencilBackWritemask := UINT_MAX_VAL }

/-- The gl::RasterizerState defaults of the StateManager11 constructor.
The source leaves stencilFunc defaulted by gl::DepthStencilState
(GL_ALWAYS); rasterizer defaults are set explicitly. -/
def defaultRasterizerState : RasterizerState :=
  { rasterizerDiscard := false
    cullFace := false
    cullMode := CullFaceMode.Back
    frontFace := GL_CCW
    polygonOffsetFill := false
    polygonOffsetFactor := 0
    polygonOffsetUnits := 0
    pointDrawMode := false
    multiSample := false }

/-- The shader constants as constructed (all stages dirty, no samplers
uploaded, zeroed images before init sizes the metadata arrays). -/
def ShaderConstants11.construct : ShaderConstants11 :=
  { mVertex := ⟨(0, 0, 0), (0, 0, 0, 0), (0, 0, 0, 0), (0, 0), 0⟩
    mPixel := ⟨(0, 0, 0), (0, 0, 0, 0), (0, 0), (0, 0), 0⟩
    mCompute := ⟨(0, 0, 0)⟩
    mShaderConstantsDirtyVS := true
    mShaderConstantsDirtyPS := true
    mShaderConstantsDirtyCS := true
    mSamplerMetadataVS := []
    mSamplerMetadataPS := []
    mSamplerMetadataCS := []
    mNumActiveVSSamplers := 0
    mNumActivePSSamplers := 0
    mNumActiveCSSamplers := 0 }

/-- The StateManager11 constructor state: all internal dirty bits set, all
current value attributes dirty, render target dirty, vertex strides and
offsets seeded with UINT_MAX, caches empty until initialization sizes them
(the transform feedback serial starts at the already-unbound sentinel). -/
def StateManager11.construct : StateManager11 :=
  { mInternalDirtyBits := DirtyBits.allSet
    mRenderTargetIsDirty := true
    mDirtySwizzles := false
    mCurSampleMask := 0
    mLastFirstVertex := none
    mLastAppliedDrawMode := GL_INVALID_INDEX
    mIndexBufferIsDirty := false
    mAppliedIB := 0
    mAppliedIBFormat := DXGI_FORMAT_UNKNOWN
    mAppliedIBOffset := 0
    mCurBlendState := defaultBlendState
    mCurBlendColor := ⟨0, 0, 0, 0⟩
    mCurDepthStencilState := defaultDepthStencilState
    mCurStencilRef := 0
    mCurStencilBackRef := 0
    mCurStencilSize := 0
    mCurDisableDepth := none
    mCurDisableStencil := none
    mCurRasterState := defaultRasterizerState
    mCurScissorRect := ⟨0, 0, 0, 0⟩
    mCurScissorEnabled := false
    mCurViewport := ⟨0, 0, 0, 0⟩
    mCurNear := 0
    mCurFar := 0
    mViewportBounds := ⟨0, 0, 0⟩
    mCurPresentPathFastEnabled := false
    mCurPresentPathFastColorBufferHeight := 0
    mCurVertexSRVs := ViewCache.init 0
    mCurPixelSRVs := ViewCache.init 0
    mCurComputeSRVs := ViewCache.init 0
    mForceSetVertexSamplerStates := []
    mForceSetPixelSamplerStates := []
    mForceSetComputeSamplerStates := []
    mCurVertexSamplerStates := []
    mCurPixelSamplerStates := []
    mCurComputeSamplerStates := []
    mShaderConstants := ShaderConstants11.construct
    mAppliedVertexShader := 0
    mAppliedGeometryShader := 0
    mAppliedPixelShader := 0
    mCurrentInputLayout := 0
    mCurrentVertexBuffers := List.replicate 16 0
    mCurrentVertexStrides := List.replicate 16 UINT_MAX_VAL
    mCurrentVertexOffsets := List.replicate 16 UINT_MAX_VAL
    mDirtyVertexBufferRange := ⟨MAX_VERTEX_ATTRIBS, 0⟩
    mDirtyCurrentValueAttribs := Finset.univ
    mCurrentValueAttribs := fun _ => default
    mCurrentPrimitiveTopology := D3D_PRIMITIVE_TOPOLOGY_UNDEFINED
    mCurrentMinimumDrawCount := 0
    mAppliedTFSerial := 0
    mDriverConstantBufferVS := 0
    mDriverConstantBufferPS := 0
    mCurrentGeometryConstantBuffer := 0
    mCurrentConstantBufferVS := fun _ => 0
    mCurrentConstantBufferVSOffset := fun _ => 0
    mCurrentConstantBufferVSSize := fun _ => 0
    mCurrentConstantBufferPS := fun _ => 0
    mCurrentConstantBufferPSOffset := fun _ => 0
    mCurrentConstantBufferPSSize := fun _ => 0
    mPointSpriteVertexBuffer := 0
    mPointSpriteIndexBuffer := 0
    mIsMultiviewEnabled := false
    mViewportOffsets := [(0, 0)]
    mCurrentAttributes := [] }

/-- A concrete renderer configuration for witness evaluation. -/
def sampleCfg : RendererConfig :=
  { presentPathFastEnabled := false
    mrtPerfWorkaround := false
    featureLevel9_3 := false
    es3Capable := true
    useInstancedPointSpriteEmulationWorkaround := false
    maxDrawBuffers := 8
    maxTextureImageUnits := 16
    maxVertexTextureImageUnits := 4
    maxVertexAttributes := 16
    maxViewportWidth := 16384
    maxViewportHeight := 16384
    reservedVertexUniformBuffers := 2
    reservedFragmentUniformBuffers := 2
    driverVSBufferSerial := 101
    driverPSBufferSerial := 102
    pointSpriteVertexBufferSerial := 103
    pointSpriteIndexBufferSerial := 104 }

/-- A concrete program for witness evaluation. -/
def sampleProgram : Program :=
  { usedSamplerRangeVS := 0
    usedSamplerRangePS := 0
    usedSamplerRangeCS := 0
    activeOutputVariables := {0}
    activeAttribLocationsMask := ∅
    attribLocationToD3DSemantic := fun _ => 0
    usesPointSize := false
    usesInstancedPointSpriteEmulation := false
    vertexExecutableSerial := 11
    pixelExecutableSerial := 12
    geometryExecutableSerial := 0
    streamOutExecutableSerial := 0
    vsUniformStorageSize := 0
    psUniformStorageSize := 0
    vsUniformStorageBufferSerial := 21
    psUniformStorageBufferSerial := 22
    vertexUniformBufferCache := []
    fragmentUniformBufferCache := [] }

/-- A concrete framebuffer (one texture color attachment) for witness
evaluation. -/
def sampleFramebuffer : Framebuffer :=
  { fbId := 3
    hasFirstColorbuffer := true
    firstColorbufferSize := ⟨64, 64, 1⟩
    hasDepth := true
    hasStencil := true
    cachedSamples := 0
    colorRTs := [some ⟨31, 41, AttachmentType.Texture, ⟨TextureType.t2D, 0, 0⟩, 1⟩]
    depthStencilRT := none
    drawBufferEnabled := [true]
    hasFirstNonNullAttachment := true
    defaultWidth := 0
    defaultHeight := 0
    firstAttachmentSize := ⟨64, 64, 1⟩
    viewportOffsets := [(0, 0)]
    multiviewLayout := 0 }

/-- A concrete logical state for witness evaluation. -/
def sampleGL : GLState :=
  { blendState := defaultBlendState
    blendColor := ⟨0, 0, 0, 0⟩
    depthStencilState := defaultDepthStencilState
    stencilRef := 0
    stencilBackRef := 0
    rasterState := defaultRasterizerState
    scissor := ⟨0, 0, 64, 64⟩
    scissorTestEnabled := false
    viewport := ⟨0, 0, 64, 64⟩
    nearPlane := 0
    farPlane := 1
    drawFramebuffer := sampleFramebuffer
    program := sampleProgram
    vertexArrayAttribs := fun _ => default
    currentValueAttribs := fun _ => default
    transformFeedbackActiveUnpaused := false
    tfSerial := 0
    tfNumSOBuffers := 0
    sampleMask := 0xFFFFFFFF
    usePresentPathFast := false
    indexedUniformBuffers := fun _ => none
    textureBindings := fun _ _ => ⟨none, 0, ⟨0, 0, 0x2901, 0x2901, 0x2901⟩⟩
    inputLayoutSerial := 51
    idxBuffer := 61
    idxIsUInt := false
    idxStartOffset := 0 }

/-- A framebuffer whose single color attachment is renderbuffer-backed,
over underlying resource 42. -/
def c2Framebuffer : Framebuffer :=
  { fbId := 3
    hasFirstColorbuffer := true
    firstColorbufferSize := ⟨64, 64, 1⟩
    hasDepth := false
    hasStencil := false
    cachedSamples := 0
    colorRTs := [some ⟨31, 42, AttachmentType.Renderbuffer, ⟨TextureType.t2D, 0, 0⟩, 1⟩]
    depthStencilRT := none
    drawBufferEnabled := [true]
    hasFirstNonNullAttachment := true
    defaultWidth := 0
    defaultHeight := 0
    firstAttachmentSize := ⟨64, 64, 1⟩
    viewportOffsets := [(0, 0)]
    multiviewLayout := 0 }

/-- A state manager whose pixel-stage SRV cache records, at slot 0, a live
view (identity 5) of resource 42. -/
def c2SM : StateManager11 :=
  { StateManager11.construct with
    mCurPixelSRVs := ⟨[⟨5, 42, SRVDesc.Texture2D 0 1⟩], 1⟩ }

/-!
Theorems.
-/

section UpdateBufferLemmas

open ShaderConstants11

theorem updateBuffer_calls (s : ShaderConstants11) (t : ShaderType)
    (n b : Nat) :
    (s.updateBuffer t n b).2 =
      (if s.dirtyFlag t || decide (s.numActiveSamplers t < n) then
        [DeviceCall.MapWriteDiscard b (s.headerData t)
          ((s.samplerMetadata t).take n)]
      else []) := by
  cases t <;>
    simp only [ShaderConstants11.updateBuffer, dirtyFlag, numActiveSamplers,
      samplerMetadata, headerData] <;>
    rcases h : (_ : Bool) || _ with _ | _ <;> simp [h]

theorem updateBuffer_dirtyFlag (s : ShaderConstants11) (t : ShaderType)
    (n b : Nat) : ((s.updateBuffer t n b).1).dirtyFlag t = false := by
  cases t <;>
    simp only [ShaderConstants11.updateBuffer, dirtyFlag] <;>
    split <;> rfl

theorem updateBuffer_numActive (s : ShaderConstants11) (t : ShaderType)
    (n b : Nat) : ((s.updateBuffer t n b).1).numActiveSamplers t = n := by
  cases t <;>
    simp only [ShaderConstants11.updateBuffer, numActiveSamplers] <;>
    split <;> rfl

theorem updateBuffer_metadata (s : ShaderConstants11) (t : ShaderType)
    (n b : Nat) :
    ((s.updateBuffer t n b).1).samplerMetadata t = s.samplerMetadata t := by
  cases t <;>
    simp only [ShaderConstants11.updateBuffer, samplerMetadata] <;>
    split <;> rfl

theorem updateBuffer_header (s : ShaderConstants11) (t : ShaderType)
    (n b : Nat) :
    ((s.updateBuffer t n b).1).headerData t = s.headerData t := by
  cases t <;>
    simp only [ShaderConstants11.updateBuffer, headerData] <;>
    split <;> rfl

end UpdateBufferLemmas

/-- C3: ShaderConstants11::updateBuffer writes the driver constant buffer of
a stage if and only if the stage dirty flag is set or the
previously-uploaded active sampler count is strictly below the used sampler
count of the current program; the write covers the fixed header plus the
sampler metadata indices `[0, numSamplers)` exactly; and after uploading for
K samplers, switching to K-1 samplers produces no upload while switching to
K+1 produces an upload whose sampler metadata region covers exactly
`[0, K+1)`. -/
theorem claim_c3_widening_only_reupload (s : ShaderConstants11)
    (t : ShaderType) (numSamplers K b : Nat) :
    (((s.updateBuffer t numSamplers b).2 ≠ []) ↔
      (s.dirtyFlag t = true ∨ s.numActiveSamplers t < numSamplers)) ∧
    ((s.updateBuffer t numSamplers b).2 =
      if s.dirtyFlag t = true ∨ s.numActiveSamplers t < numSamplers then
        [DeviceCall.MapWriteDiscard b (s.headerData t)
          ((s.samplerMetadata t).take numSamplers)]
      else []) ∧
    (((s.updateBuffer t K b).1.updateBuffer t (K - 1) b).2 = []) ∧
    (((s.updateBuffer t K b).1.updateBuffer t (K + 1) b).2 =
      [DeviceCall.MapWriteDiscard b (s.headerData t)
        ((s.samplerMetadata t).take (K + 1))]) := by
  refine ⟨?_, ?_, ?_, ?_⟩
  · rw [updateBuffer_calls]
    rcases hd : s.dirtyFlag t with _ | _ <;>
      rcases hn : decide (s.numActiveSamplers t < numSamplers) with _ | _ <;>
      simp_all
  · rw [updateBuffer_calls]
    rcases hd : s.dirtyFlag t with _ | _ <;>
      rcases hn : decide (s.numActiveSamplers t < numSamplers) with _ | _ <;>
      simp_all
  · rw [updateBuffer_calls, updateBuffer_dirtyFlag, updateBuffer_numActive]
    simp
  · rw [updateBuffer_calls, updateBuffer_dirtyFlag, updateBuffer_numActive,
      updateBuffer_metadata, updateBuffer_header]
    simp

/-- C7 counterexample: with the source RGB factor GL_ONE and the source
ALPHA factor GL_CONSTANT_ALPHA (a blend factor in use that references
constant alpha), the blend color the device receives is the logical color
unchanged, not the alpha broadcast the claim requires. -/
theorem claim_c7_counterexample :
    ({ defaultBlendState with
        sourceBlendAlpha := GL_CONSTANT_ALPHA } : BlendState).sourceBlendAlpha =
      GL_CONSTANT_ALPHA ∧
    blendColorsOf
      (StateManager11.syncBlendState StateManager11.construct
        { defaultBlendState with sourceBlendAlpha := GL_CONSTANT_ALPHA }
        ⟨0, 0, 0, 1⟩ 0).2 = some (0, 0, 0, 1) ∧
    ((0 : ℚ), (0 : ℚ), (0 : ℚ), (1 : ℚ)) ≠ (1, 1, 1, 1) := by
  refine ⟨rfl, ?_, by norm_num⟩
  simp [StateManager11.syncBlendState, blendColorsOf, defaultBlendState,
    GL_ONE, GL_ZERO, GL_CONSTANT_ALPHA, GL_ONE_MINUS_CONSTANT_ALPHA]

/-- C7 (amended): when the source or destination RGB blend factor references
constant alpha (GL_CONSTANT_ALPHA or GL_ONE_MINUS_CONSTANT_ALPHA), the four
channel blend color passed to the device is the logical blend color alpha
broadcast into all four channels; otherwise it is the logical (red, green,
blue, alpha) unchanged.  The alpha-channel blend factors are not consulted. -/
theorem claim_c7_blend_constant_broadcast (sm : StateManager11)
    (bs : BlendState) (color : ColorF) (mask : Nat) :
    ((bs.sourceBlendRGB = GL_CONSTANT_ALPHA ∨
      bs.sourceBlendRGB = GL_ONE_MINUS_CONSTANT_ALPHA ∨
      bs.destBlendRGB = GL_CONSTANT_ALPHA ∨
      bs.destBlendRGB = GL_ONE_MINUS_CONSTANT_ALPHA) →
      (StateManager11.syncBlendState sm bs color mask).2 =
        [DeviceCall.OMSetBlendState bs
          (color.alpha, color.alpha, color.alpha, color.alpha) mask]) ∧
    ((bs.sourceBlendRGB ≠ GL_CONSTANT_ALPHA ∧
      bs.sourceBlendRGB ≠ GL_ONE_MINUS_CONSTANT_ALPHA ∧
      bs.destBlendRGB ≠ GL_CONSTANT_ALPHA ∧
      bs.destBlendRGB ≠ GL_ONE_MINUS_CONSTANT_ALPHA) →
      (StateManager11.syncBlendState sm bs color mask).2 =
        [DeviceCall.OMSetBlendState bs
          (color.red, color.green, color.blue, color.alpha) mask]) := by
  constructor
  · intro h
    simp only [StateManager11.syncBlendState]
    rw [if_neg]
    tauto
  · intro h
    simp only [StateManager11.syncBlendState]
    rw [if_pos]
    exact ⟨h.1, h.2.1, h.2.2.1, h.2.2.2⟩

/-- C7 witness: the amended theorem evaluated at a concrete state where the
destination RGB factor is GL_ONE_MINUS_CONSTANT_ALPHA. -/
theorem claim_c7_blend_constant_broadcast_witness :
    (StateManager11.syncBlendState StateManager11.construct
      { defaultBlendState with destBlendRGB := GL_ONE_MINUS_CONSTANT_ALPHA }
      ⟨1/2, 0, 0, 1/4⟩ 5).2 =
      [DeviceCall.OMSetBlendState
        { defaultBlendState with destBlendRGB := GL_ONE_MINUS_CONSTANT_ALPHA }
        (1/4, 1/4, 1/4, 1/4) 5] :=
  (claim_c7_blend_constant_broadcast StateManager11.construct
    { defaultBlendState with destBlendRGB := GL_ONE_MINUS_CONSTANT_ALPHA }
    ⟨1/2, 0, 0, 1/4⟩ 5).1 (Or.inr (Or.inr (Or.inr rfl)))

/-- C9: syncFramebuffer on the default framebuffer (id 0) with a zero-width
or zero-height first color buffer returns success as a complete no-op: the
cached state is unchanged and no device call is issued (the early return
produces gl::NoError, not an error). -/
theorem claim_c9_degenerate_draw_short_circuit (cfg : RendererConfig)
    (sm : StateManager11) (gl : GLState) (fb : Framebuffer)
    (hid : fb.fbId = 0)
    (hsize : fb.firstColorbufferSize.width = 0 ∨
      fb.firstColorbufferSize.height = 0) :
    StateManager11.syncFramebuffer cfg sm gl fb = (sm, []) := by
  simp only [StateManager11.syncFramebuffer]
  rw [if_pos ⟨hid, hsize⟩]

/-- C9 witness: a zero-height default framebuffer evaluated concretely. -/
theorem claim_c9_degenerate_draw_short_circuit_witness :
    ({ sampleFramebuffer with
        fbId := 0, firstColorbufferSize := ⟨64, 0, 1⟩ } : Framebuffer).fbId = 0 ∧
    ({ sampleFramebuffer with
        fbId := 0,
        firstColorbufferSize := ⟨64, 0, 1⟩ } : Framebuffer).firstColorbufferSize.height = 0 ∧
    StateManager11.syncFramebuffer sampleCfg StateManager11.construct sampleGL
      { sampleFramebuffer with fbId := 0, firstColorbufferSize := ⟨64, 0, 1⟩ } =
      (StateManager11.construct, []) :=
  ⟨rfl, rfl,
    claim_c9_degenerate_draw_short_circuit sampleCfg StateManager11.construct
      sampleGL _ rfl (Or.inr rfl)⟩

/-! View cache invariants (C10) and the minimal clear range (C4). -/

section ViewCacheLemmas

open ViewCache

theorem shrinkHighest_le (views : List ViewRecord) :
    ∀ h, shrinkHighest views h ≤ h := by
  intro h
  induction h with
  | zero => simp [shrinkHighest]
  | succ k ih =>
      simp only [shrinkHighest]
      split
      · exact le_trans ih (Nat.le_succ k)
      · exact Nat.le_succ k

theorem update_size (c : ViewCache) (i : Nat) (v : Option SRVHandle) :
    (c.update i v).size = c.size := by
  cases v <;> simp only [ViewCache.update, size]
  · split <;> simp
  · simp

theorem clear_size (c : ViewCache) : c.clear.size = c.size := by
  simp only [ViewCache.clear]
  split <;> simp [size]

theorem update_some_high (c : ViewCache) (i : Nat) (v : SRVHandle) :
    (c.update i (some v)).mHighestUsedView = max (i + 1) c.mHighestUsedView :=
  rfl

theorem update_none_high_le (c : ViewCache) (i : Nat) :
    (c.update i none).mHighestUsedView ≤ c.mHighestUsedView := by
  simp only [ViewCache.update]
  split
  · next heq => exact le_trans (shrinkHighest_le _ _) le_rfl
  · exact le_rfl

/-- Well-formed operation lists only update slots inside the cache. -/
def opsWF (n : Nat) (ops : List ViewCacheOp) : Prop :=
  ∀ op ∈ ops, match op with
    | ViewCacheOp.update i _ => i < n
    | ViewCacheOp.clear => True

theorem applyOps_cons (c : ViewCache) (op : ViewCacheOp)
    (rest : List ViewCacheOp) :
    c.applyOps (op :: rest) = (ViewCacheOp.apply c op).applyOps rest := rfl

theorem applyOps_high_le (ops : List ViewCacheOp) :
    ∀ (c : ViewCache) (B : Nat), opsWF c.size ops →
      c.mHighestUsedView ≤ B → (c.size = 0 → c.mHighestUsedView = 0) →
      (c.applyOps ops).mHighestUsedView ≤ boundAfter B ops := by
  induction ops with
  | nil => intro c B _ hB _; simpa [ViewCache.applyOps, boundAfter] using hB
  | cons op rest ih =>
      intro c B hwf hB hz
      have hwfRest : ∀ (c' : ViewCache), c'.size = c.size →
          opsWF c'.size rest := by
        intro c' hsz o ho
        have := hwf o (List.mem_cons_of_mem _ ho)
        cases o with
        | update i v => simpa [hsz] using this
        | clear => trivial
      rw [applyOps_cons]
      cases op with
      | update i v =>
          have hi : i < c.size := hwf _ (List.mem_cons_self _ _)
          cases v with
          | some s =>
              have hsz := update_size c i (some s)
              show ((c.update i (some s)).applyOps rest).mHighestUsedView ≤
                boundAfter (max (i + 1) B) rest
              refine ih _ (max (i + 1) B) (hwfRest _ hsz) ?_ ?_
              · rw [update_some_high]
                exact max_le_max le_rfl hB
              · intro h0; rw [hsz] at h0; omega
          | none =>
              have hsz := update_size c i none
              show ((c.update i none).applyOps rest).mHighestUsedView ≤
                boundAfter B rest
              refine ih _ B (hwfRest _ hsz) ?_ ?_
              · exact le_trans (update_none_high_le c i) hB
              · intro h0; rw [hsz] at h0; omega
      | clear =>
          show (c.clear.applyOps rest).mHighestUsedView ≤ boundAfter 0 rest
          have hsz := clear_size c
          refine ih _ 0 (hwfRest _ hsz) ?_ ?_
          · simp only [ViewCache.clear]
            by_cases hemp : c.mCurrentViews.isEmpty
            · rw [if_pos hemp]
              have hz0 : c.mHighestUsedView = 0 := by
                apply hz
                simpa [size, List.isEmpty_iff_length_eq_zero] using hemp
              exact le_of_eq hz0
            · rw [if_neg hemp]
          · intro h0
            simp only [ViewCache.clear]
            by_cases hemp : c.mCurrentViews.isEmpty
            · rw [if_pos hemp]
              apply hz
              simpa [size, List.isEmpty_iff_length_eq_zero] using hemp
            · rw [if_neg hemp]

end ViewCacheLemmas

section SRVConflictLemmas

open StateManager11

theorem update_views_none (c : ViewCache) (i : Nat) :
    (c.update i none).mCurrentViews =
      c.mCurrentViews.set i ⟨0, 0, (c.record i).desc⟩ := by
  simp only [ViewCache.update]
  split <;> rfl

theorem record_update_none_ne (c : ViewCache) (i j : Nat) (h : j ≠ i) :
    (c.update i none).record j = c.record j := by
  simp only [ViewCache.record, update_views_none, List.getD_eq_getElem?_getD]
  rw [List.getElem?_set_ne (Ne.symm h)]

theorem record_update_none_self (c : ViewCache) (i : Nat) :
    ((c.update i none).record i).view = 0 ∧
    ((c.update i none).record i).resource = 0 := by
  simp only [ViewCache.record, update_views_none, List.getD_eq_getElem?_getD,
    List.getElem?_set_self']
  cases c.mCurrentViews[i]? <;> exact ⟨rfl, rfl⟩

theorem get_put_same (sm : StateManager11) (stage : ShaderType)
    (c : ViewCache) : (sm.putSRVCache stage c).getSRVCache stage = c := by
  cases stage <;> rfl

theorem get_put_other (sm : StateManager11) (stage stage' : ShaderType)
    (c : ViewCache) (h : stage' ≠ stage) :
    (sm.putSRVCache stage c).getSRVCache stage' = sm.getSRVCache stage' := by
  cases stage <;> cases stage' <;> first | rfl | exact absurd rfl h

theorem ssri_none_eq (sm : StateManager11) (stage : ShaderType) (s : Nat) :
    sm.setShaderResourceInternal stage s none =
      if ((sm.getSRVCache stage).record s).view ≠ 0 then
        (sm.putSRVCache stage ((sm.getSRVCache stage).update s none),
         [srvBindCall stage s 1 [0]])
      else (sm, []) := rfl

theorem conflictsWithB_view {r : ViewRecord} {res : Nat}
    {idx : Option ImageIndex} (h : conflictsWithB r res idx = true) :
    r.view ≠ 0 := by
  simp only [conflictsWithB, Bool.and_eq_true, decide_eq_true_eq] at h
  exact h.1.1

/-- The effect of one unsetConflictingSRVs iteration. -/
theorem unsetStep_eq (stage : ShaderType) (res : Nat)
    (idx : Option ImageIndex) (sm : StateManager11) (b : Bool)
    (calls : List DeviceCall) (k : Nat) :
    unsetStep stage res idx (sm, b, calls) k =
      if conflictsWithB ((sm.getSRVCache stage).record k) res idx then
        (sm.putSRVCache stage ((sm.getSRVCache stage).update k none), true,
         calls ++ [srvBindCall stage k 1 [0]])
      else (sm, b, calls) := by
  simp only [unsetStep]
  split
  · next h =>
      rw [ssri_none_eq, if_pos (conflictsWithB_view h)]
  · rfl

theorem unsetStep_record_ne (stage : ShaderType) (res : Nat)
    (idx : Option ImageIndex) (acc : StateManager11 × Bool × List DeviceCall)
    (k s : Nat) (h : s ≠ k) :
    (((unsetStep stage res idx acc k).1.getSRVCache stage).record s) =
      ((acc.1.getSRVCache stage).record s) := by
  obtain ⟨sm, b, calls⟩ := acc
  rw [unsetStep_eq]
  split
  · rw [get_put_same, record_update_none_ne _ _ _ h]
  · rfl

theorem unsetStep_other_stage (stage stage' : ShaderType) (res : Nat)
    (idx : Option ImageIndex) (acc : StateManager11 × Bool × List DeviceCall)
    (k : Nat) (h : stage' ≠ stage) :
    ((unsetStep stage res idx acc k).1.getSRVCache stage') =
      (acc.1.getSRVCache stage') := by
  obtain ⟨sm, b, calls⟩ := acc
  rw [unsetStep_eq]
  split
  · rw [get_put_other _ _ _ _ h]
  · rfl

theorem unsetStep_calls_append (stage : ShaderType) (res : Nat)
    (idx : Option ImageIndex) (acc : StateManager11 × Bool × List DeviceCall)
    (k : Nat) :
    ∃ extra, (unsetStep stage res idx acc k).2.2 = acc.2.2 ++ extra := by
  obtain ⟨sm, b, calls⟩ := acc
  rw [unsetStep_eq]
  split
  · exact ⟨_, rfl⟩
  · exact ⟨[], (List.append_nil _).symm⟩

theorem unsetFold_frame (stage : ShaderType) (res : Nat)
    (idx : Option ImageIndex) (L : List Nat) :
    ∀ (acc : StateManager11 × Bool × List DeviceCall) (s : Nat), s ∉ L →
      (((L.foldl (unsetStep stage res idx) acc).1.getSRVCache stage).record s) =
        ((acc.1.getSRVCache stage).record s) := by
  induction L with
  | nil => intro acc s _; rfl
  | cons k rest ih =>
      intro acc s hs
      rw [List.foldl_cons]
      rw [ih _ s (fun h => hs (List.mem_cons_of_mem _ h))]
      exact unsetStep_record_ne stage res idx acc k s
        (fun h => hs (h ▸ List.mem_cons_self _ _))

theorem unsetFold_other_stage (stage stage' : ShaderType) (res : Nat)
    (idx : Option ImageIndex) (L : List Nat) (h : stage' ≠ stage) :
    ∀ (acc : StateManager11 × Bool × List DeviceCall),
      ((L.foldl (unsetStep stage res idx) acc).1.getSRVCache stage') =
        (acc.1.getSRVCache stage') := by
  induction L with
  | nil => intro acc; rfl
  | cons k rest ih =>
      intro acc
      rw [List.foldl_cons, ih, unsetStep_other_stage _ _ _ _ _ _ h]

theorem unsetFold_calls_append (stage : ShaderType) (res : Nat)
    (idx : Option ImageIndex) (L : List Nat) :
    ∀ (acc : StateManager11 × Bool × List DeviceCall),
      ∃ extra, (L.foldl (unsetStep stage res idx) acc).2.2 = acc.2.2 ++ extra := by
  induction L with
  | nil => intro acc; exact ⟨[], (List.append_nil _).symm⟩
  | cons k rest ih =>
      intro acc
      rw [List.foldl_cons]
      obtain ⟨e1, he1⟩ := unsetStep_calls_append stage res idx acc k
      obtain ⟨e2, he2⟩ := ih (unsetStep stage res idx acc k)
      exact ⟨e1 ++ e2, by rw [he2, he1, List.append_assoc]⟩

theorem unsetFold_mem (stage : ShaderType) (res : Nat)
    (idx : Option ImageIndex) (L : List Nat) (hnd : L.Nodup) :
    ∀ (acc : StateManager11 × Bool × List DeviceCall) (s : Nat), s ∈ L →
      (conflictsWithB ((acc.1.getSRVCache stage).record s) res idx = true →
        ((((L.foldl (unsetStep stage res idx) acc).1.getSRVCache stage).record s).view = 0 ∧
          srvBindCall stage s 1 [0] ∈ (L.foldl (unsetStep stage res idx) acc).2.2)) ∧
      (conflictsWithB ((acc.1.getSRVCache stage).record s) res idx = false →
        (((L.foldl (unsetStep stage res idx) acc).1.getSRVCache stage).record s) =
          ((acc.1.getSRVCache stage).record s)) := by
  induction L with
  | nil => intro acc s hs; exact absurd hs (List.not_mem_nil s)
  | cons k rest ih =>
      intro acc s hs
      obtain ⟨sm, b, calls⟩ := acc
      rw [List.foldl_cons]
      by_cases hsk : s = k
      · subst hsk
        have hnotin : s ∉ rest := (List.nodup_cons.mp hnd).1
        constructor
        · intro hc
          rw [unsetStep_eq, if_pos hc]
          rw [unsetFold_frame stage res idx rest _ s hnotin]
          refine ⟨?_, ?_⟩
          · simp only [get_put_same]
            exact (record_update_none_self _ s).1
          · obtain ⟨extra, hx⟩ := unsetFold_calls_append stage res idx rest
              (sm.putSRVCache stage ((sm.getSRVCache stage).update s none),
               true, calls ++ [srvBindCall stage s 1 [0]])
            rw [hx]
            simp
        · intro hc
          rw [unsetStep_eq, if_neg (by rw [hc]; exact Bool.false_ne_true)]
          exact unsetFold_frame stage res idx rest _ s hnotin
      · have hsrest : s ∈ rest := by
          cases List.mem_cons.mp hs with
          | inl h => exact absurd h hsk
          | inr h => exact h
        have hrec := unsetStep_record_ne stage res idx (sm, b, calls) k s hsk
        have := ih (List.nodup_cons.mp hnd).2
          (unsetStep stage res idx (sm, b, calls) k) s hsrest
        rw [hrec] at this
        exact this

theorem conflictsWithB_of_view0 {r : ViewRecord} (res : Nat)
    (idx : Option ImageIndex) (h : r.view = 0) :
    conflictsWithB r res idx = false := by
  simp [conflictsWithB, h]

theorem conflictsWithB_of_res_ne {r : ViewRecord} {res : Nat}
    (idx : Option ImageIndex) (h : r.resource ≠ res) :
    conflictsWithB r res idx = false := by
  simp [conflictsWithB, h]

/-- unsetConflictingSRVs, per-слot characterization: a conflicting slot ends
unbound with its null bind call in the trace; a non-conflicting slot is left
untouched. -/
theorem unsetSRVs_record (sm : StateManager11) (stage : ShaderType)
    (res : Nat) (idx : Option ImageIndex) (s : Nat) :
    (conflictsWithB ((sm.getSRVCache stage).record s) res idx = true →
      ((((sm.unsetConflictingSRVs stage res idx).1).getSRVCache stage).record s).view = 0 ∧
      srvBindCall stage s 1 [0] ∈ (sm.unsetConflictingSRVs stage res idx).2.2) ∧
    (conflictsWithB ((sm.getSRVCache stage).record s) res idx = false →
      (((sm.unsetConflictingSRVs stage res idx).1).getSRVCache stage).record s =
        (sm.getSRVCache stage).record s) := by
  by_cases hs : s < (sm.getSRVCache stage).size
  · have hmem : s ∈ List.range (sm.getSRVCache stage).size := List.mem_range.mpr hs
    exact unsetFold_mem stage res idx _ (List.nodup_range _) (sm, false, []) s hmem
  · have hnot : s ∉ List.range (sm.getSRVCache stage).size := by
      simpa [List.mem_range] using hs
    have hframe := unsetFold_frame stage res idx
      (List.range (sm.getSRVCache stage).size) (sm, false, []) s hnot
    constructor
    · intro hc
      have hzero : ((sm.getSRVCache stage).record s).view = 0 := by
        simp only [ViewCache.record, List.getD_eq_getElem?_getD]
        rw [List.getElem?_eq_none (by simpa [ViewCache.size] using hs)]
        rfl
      rw [conflictsWithB_of_view0 res idx hzero] at hc
      exact absurd hc (by simp)
    · intro _
      exact hframe

theorem unsetSRVs_other_stage (sm : StateManager11) (stage stage' : ShaderType)
    (res : Nat) (idx : Option ImageIndex) (h : stage' ≠ stage) :
    ((sm.unsetConflictingSRVs stage res idx).1).getSRVCache stage' =
      sm.getSRVCache stage' :=
  unsetFold_other_stage stage stage' res idx _ h (sm, false, [])

/-- The vertex-then-fragment unsetConflictingSRVs sweep, per-slot: the slot
record is either untouched or unbound with its null bind call traced; a
conflicting slot ends unbound with the call traced; a slot recording a
different underlying resource is untouched. -/
theorem ucar_two_pass (sm : StateManager11) (res : Nat) (idx : Option ImageIndex)
    (stage : ShaderType) (s : Nat)
    (hst : stage = ShaderType.Vertex ∨ stage = ShaderType.Fragment) :
    let sm1 := (sm.unsetConflictingSRVs ShaderType.Vertex res idx).1
    let c1 := (sm.unsetConflictingSRVs ShaderType.Vertex res idx).2.2
    let sm2 := (sm1.unsetConflictingSRVs ShaderType.Fragment res idx).1
    let c2 := (sm1.unsetConflictingSRVs ShaderType.Fragment res idx).2.2
    (((sm2.getSRVCache stage).record s = (sm.getSRVCache stage).record s ∨
      (((sm2.getSRVCache stage).record s).view = 0 ∧
        srvBindCall stage s 1 [0] ∈ c1 ++ c2)) ∧
    (conflictsWithB ((sm.getSRVCache stage).record s) res idx = true →
      ((sm2.getSRVCache stage).record s).view = 0 ∧
        srvBindCall stage s 1 [0] ∈ c1 ++ c2) ∧
    (((sm.getSRVCache stage).record s).resource ≠ res →
      (sm2.getSRVCache stage).record s = (sm.getSRVCache stage).record s)) := by
  intro sm1 c1 sm2 c2
  rcases hst with hst | hst
  · subst hst
    have hfr : sm2.getSRVCache ShaderType.Vertex = sm1.getSRVCache ShaderType.Vertex :=
      unsetSRVs_other_stage sm1 ShaderType.Fragment ShaderType.Vertex res idx
        (by intro h; exact ShaderType.noConfusion h)
    have h1 := unsetSRVs_record sm ShaderType.Vertex res idx s
    refine ⟨?_, ?_, ?_⟩
    · by_cases hc : conflictsWithB ((sm.getSRVCache ShaderType.Vertex).record s) res idx = true
      · rcases h1.1 hc with ⟨hv, hm⟩
        exact Or.inr ⟨by rw [hfr]; exact hv, List.mem_append_left _ hm⟩
      · exact Or.inl (by rw [hfr]; exact h1.2 (by simpa using hc))
    · intro hc
      rcases h1.1 hc with ⟨hv, hm⟩
      exact ⟨by rw [hfr]; exact hv, List.mem_append_left _ hm⟩
    · intro hr
      rw [hfr]
      exact h1.2 (conflictsWithB_of_res_ne idx hr)
  · subst hst
    have hfr : sm1.getSRVCache ShaderType.Fragment = sm.getSRVCache ShaderType.Fragment :=
      unsetSRVs_other_stage sm ShaderType.Vertex ShaderType.Fragment res idx
        (by intro h; exact ShaderType.noConfusion h)
    have h2 := unsetSRVs_record sm1 ShaderType.Fragment res idx s
    rw [hfr] at h2
    refine ⟨?_, ?_, ?_⟩
    · by_cases hc : conflictsWithB ((sm.getSRVCache ShaderType.Fragment).record s) res idx = true
      · rcases h2.1 hc with ⟨hv, hm⟩
        exact Or.inr ⟨hv, List.mem_append_right _ hm⟩
      · exact Or.inl (h2.2 (by simpa using hc))
    · intro hc
      rcases h2.1 hc with ⟨hv, hm⟩
      exact ⟨hv, List.mem_append_right _ hm⟩
    · intro hr
      exact h2.2 (conflictsWithB_of_res_ne idx hr)

/-- unsetConflictingAttachmentResources, per-slot characterization for the
two draw stages: (1) the slot record is either untouched or unbound with its
null bind call traced; (2) a slot conflicting with the attachment ends
unbound with the call traced; (3) a slot recording a different underlying
resource is untouched. -/
theorem ucar_record (sm : StateManager11) (aType : AttachmentType)
    (aIdx : ImageIndex) (res : Nat) (stage : ShaderType) (s : Nat)
    (hst : stage = ShaderType.Vertex ∨ stage = ShaderType.Fragment) :
    ((((sm.unsetConflictingAttachmentResources aType aIdx res).1).getSRVCache stage).record s =
        (sm.getSRVCache stage).record s ∨
      (((((sm.unsetConflictingAttachmentResources aType aIdx res).1).getSRVCache stage).record s).view = 0 ∧
        srvBindCall stage s 1 [0] ∈ (sm.unsetConflictingAttachmentResources aType aIdx res).2)) ∧
    (attachmentConflict aType aIdx res ((sm.getSRVCache stage).record s) = true →
      ((((sm.unsetConflictingAttachmentResources aType aIdx res).1).getSRVCache stage).record s).view = 0 ∧
      srvBindCall stage s 1 [0] ∈ (sm.unsetConflictingAttachmentResources aType aIdx res).2) ∧
    (((sm.getSRVCache stage).record s).resource ≠ res →
      (((sm.unsetConflictingAttachmentResources aType aIdx res).1).getSRVCache stage).record s =
        (sm.getSRVCache stage).record s) := by
  cases aType with
  | Texture =>
      have h := ucar_two_pass sm res (some aIdx) stage s hst
      simp only at h
      exact And.intro h.1 (And.intro (fun hc => h.2.1 (by simpa [attachmentConflict] using hc)) h.2.2)
  | FramebufferDefault =>
      have h := ucar_two_pass sm res none stage s hst
      simp only at h
      exact And.intro h.1 (And.intro (fun hc => h.2.1 (by simpa [attachmentConflict] using hc)) h.2.2)
  | Renderbuffer =>
      refine ⟨Or.inl rfl, ?_, fun _ => rfl⟩
      intro hc
      simp [attachmentConflict] at hc

/-- One syncFBColorStep iteration, characterized through processedAt: a
skipped or empty slot leaves the state manager and trace untouched; a
processed render target routes the state through
unsetConflictingAttachmentResources and appends its calls. -/
theorem syncFBColorStep_char (cfg : RendererConfig) (gl : GLState)
    (fb : Framebuffer)
    (acc : Nat × List Nat × Nat × StateManager11 × List DeviceCall) (k : Nat) :
    (processedAt cfg gl fb k = none →
      (syncFBColorStep cfg gl fb acc k).2.2.2.1 = acc.2.2.2.1 ∧
      (syncFBColorStep cfg gl fb acc k).2.2.2.2 = acc.2.2.2.2) ∧
    (∀ rt, processedAt cfg gl fb k = some rt →
      (syncFBColorStep cfg gl fb acc k).2.2.2.1 =
        ((acc.2.2.2.1).unsetConflictingAttachmentResources rt.attachType
          rt.imageIndex rt.texResource).1 ∧
      (syncFBColorStep cfg gl fb acc k).2.2.2.2 =
        acc.2.2.2.2 ++
          ((acc.2.2.2.1).unsetConflictingAttachmentResources rt.attachType
            rt.imageIndex rt.texResource).2) := by
  obtain ⟨a, rtvs, m, sm, calls⟩ := acc
  cases hrt : fb.colorRTs.getD k none with
  | none =>
      constructor
      · intro _
        simp only [syncFBColorStep, hrt]
        split_ifs <;> exact ⟨rfl, rfl⟩
      · intro rt hrt2
        simp only [processedAt, hrt] at hrt2
        exact Option.noConfusion hrt2
  | some rt0 =>
      by_cases hg : cfg.mrtPerfWorkaround ∧
          (fb.drawBufferEnabled.getD k false = false ∨
            drawBufferMaskTest gl.program.activeOutputVariables k = false)
      · constructor
        · intro _
          simp only [syncFBColorStep, hrt]
          rw [if_pos ⟨hg.1, Or.inr hg.2⟩]
          exact ⟨rfl, rfl⟩
        · intro rt hrt2
          simp only [processedAt, hrt] at hrt2
          rw [if_pos hg] at hrt2
          exact Option.noConfusion hrt2
      · constructor
        · intro hp
          simp only [processedAt, hrt] at hp
          rw [if_neg hg] at hp
          exact Option.noConfusion hp
        · intro rt hrt2
          simp only [processedAt, hrt] at hrt2
          rw [if_neg hg] at hrt2
          injection hrt2 with hrt3
          subst hrt3
          simp only [syncFBColorStep, hrt]
          rw [if_neg (by simpa using hg)]
          exact ⟨rfl, rfl⟩

/-- The syncFramebuffer color loop, per SRV slot of a draw stage: (1) the
slot record is either untouched or unbound with its null bind call traced;
(2) a slot conflicting with a processed render target of the loop ends
unbound with the call traced; (3) a slot recording a resource different from
every processed render target keeps its record; (4) the trace only grows. -/
theorem syncFBFold_record (cfg : RendererConfig) (gl : GLState)
    (fb : Framebuffer) (stage : ShaderType) (s : Nat)
    (hst : stage = ShaderType.Vertex ∨ stage = ShaderType.Fragment) :
    ∀ (L : List Nat)
      (acc : Nat × List Nat × Nat × StateManager11 × List DeviceCall),
    ((((L.foldl (syncFBColorStep cfg gl fb) acc).2.2.2.1).getSRVCache stage).record s =
        ((acc.2.2.2.1).getSRVCache stage).record s ∨
      (((((L.foldl (syncFBColorStep cfg gl fb) acc).2.2.2.1).getSRVCache stage).record s).view = 0 ∧
        srvBindCall stage s 1 [0] ∈ (L.foldl (syncFBColorStep cfg gl fb) acc).2.2.2.2)) ∧
    (∀ k ∈ L, ∀ rt, processedAt cfg gl fb k = some rt →
      attachmentConflict rt.attachType rt.imageIndex rt.texResource
        (((acc.2.2.2.1).getSRVCache stage).record s) = true →
      ((((L.foldl (syncFBColorStep cfg gl fb) acc).2.2.2.1).getSRVCache stage).record s).view = 0 ∧
      srvBindCall stage s 1 [0] ∈ (L.foldl (syncFBColorStep cfg gl fb) acc).2.2.2.2) ∧
    ((∀ k ∈ L, ∀ rt, processedAt cfg gl fb k = some rt →
        (((acc.2.2.2.1).getSRVCache stage).record s).resource ≠ rt.texResource) →
      (((L.foldl (syncFBColorStep cfg gl fb) acc).2.2.2.1).getSRVCache stage).record s =
        ((acc.2.2.2.1).getSRVCache stage).record s) ∧
    (∃ extra, (L.foldl (syncFBColorStep cfg gl fb) acc).2.2.2.2 =
      acc.2.2.2.2 ++ extra) := by
  intro L
  induction L with
  | nil =>
      intro acc
      exact ⟨Or.inl rfl, fun k hk => absurd hk (List.not_mem_nil k),
        fun _ => rfl, ⟨[], (List.append_nil _).symm⟩⟩
  | cons k rest ih =>
      intro acc
      rw [List.foldl_cons]
      obtain ⟨I1, I2, I3, I4⟩ := ih (syncFBColorStep cfg gl fb acc k)
      have hstep := syncFBColorStep_char cfg gl fb acc k
      cases hp : processedAt cfg gl fb k with
      | none =>
          obtain ⟨hsm, hcalls⟩ := hstep.1 hp
          refine ⟨?_, ?_, ?_, ?_⟩
          · rcases I1 with h | h
            · exact Or.inl (by rw [h, hsm])
            · exact Or.inr h
          · intro k2 hk2 rt hrt hconf
            rcases List.mem_cons.mp hk2 with rfl | hk2
            · rw [hp] at hrt
              exact Option.noConfusion hrt
            · exact I2 k2 hk2 rt hrt (by rw [hsm]; exact hconf)
          · intro hres
            have hfin := I3 (fun k2 hk2 rt hrt => by
              rw [hsm]; exact hres k2 (List.mem_cons_of_mem _ hk2) rt hrt)
            rw [hfin, hsm]
          · obtain ⟨extra, hex⟩ := I4
            exact ⟨extra, by rw [hex, hcalls]⟩
      | some rt0 =>
          obtain ⟨hsm, hcalls⟩ := hstep.2 rt0 hp
          obtain ⟨U1, U2, U3⟩ := ucar_record acc.2.2.2.1 rt0.attachType
            rt0.imageIndex rt0.texResource stage s hst
          rw [← hsm] at U1 U2 U3
          obtain ⟨extra, hex⟩ := I4
          have hmemlift : ∀ c : DeviceCall,
              c ∈ ((acc.2.2.2.1).unsetConflictingAttachmentResources
                rt0.attachType rt0.imageIndex rt0.texResource).2 →
              c ∈ (rest.foldl (syncFBColorStep cfg gl fb)
                (syncFBColorStep cfg gl fb acc k)).2.2.2.2 := by
            intro c hc
            rw [hex, hcalls]
            exact List.mem_append_left _ (List.mem_append_right _ hc)
          have hstab :
              ((((syncFBColorStep cfg gl fb acc k).2.2.2.1).getSRVCache stage).record s).view = 0 ∧
                srvBindCall stage s 1 [0] ∈
                  ((acc.2.2.2.1).unsetConflictingAttachmentResources
                    rt0.attachType rt0.imageIndex rt0.texResource).2 →
              ((((rest.foldl (syncFBColorStep cfg gl fb)
                  (syncFBColorStep cfg gl fb acc k)).2.2.2.1).getSRVCache stage).record s).view = 0 ∧
              srvBindCall stage s 1 [0] ∈ (rest.foldl (syncFBColorStep cfg gl fb)
                (syncFBColorStep cfg gl fb acc k)).2.2.2.2 := by
            rintro ⟨hv, hm⟩
            rcases I1 with h | h
            · exact ⟨by rw [h]; exact hv, hmemlift _ hm⟩
            · exact h
          refine ⟨?_, ?_, ?_, ?_⟩
          · rcases I1 with h | h
            · rcases U1 with hU | ⟨hv, hm⟩
              · exact Or.inl (by rw [h, hU])
              · exact Or.inr ⟨by rw [h]; exact hv, hmemlift _ hm⟩
            · exact Or.inr h
          · intro k2 hk2 rt hrt hconf
            rcases List.mem_cons.mp hk2 with rfl | hk2
            · rw [hp] at hrt
              injection hrt with hrt3
              subst hrt3
              exact hstab (U2 hconf)
            · rcases U1 with hU | hcl
              · exact I2 k2 hk2 rt hrt (by rw [hU]; exact hconf)
              · exact hstab hcl
          · intro hres
            have hne : (((acc.2.2.2.1).getSRVCache stage).record s).resource ≠
                rt0.texResource :=
              hres k (List.mem_cons_self _ _) rt0 hp
            have hU := U3 hne
            have hfin := I3 (fun k2 hk2 rt hrt => by
              rw [hU]; exact hres k2 (List.mem_cons_of_mem _ hk2) rt hrt)
            rw [hfin, hU]
          · exact ⟨((acc.2.2.2.1).unsetConflictingAttachmentResources
                rt0.attachType rt0.imageIndex rt0.texResource).2 ++ extra,
              by rw [hex, hcalls, List.append_assoc]⟩

/-- C2 counterexample: the renderbuffer-backed color attachment over
resource 42 is processed and bound by syncFramebuffer while pixel SRV slot 0
records a live view of the same resource 42, yet the sync leaves slot 0
bound (view 5) and issues no pixel-stage unbind: renderbuffer-backed
attachments are never scanned for conflicting SRVs, contradicting the
claimed unbinding of every matching slot. -/
theorem claim_c2_counterexample :
    processedColorRTs sampleCfg sampleGL c2Framebuffer =
      [⟨31, 42, AttachmentType.Renderbuffer, ⟨TextureType.t2D, 0, 0⟩, 1⟩] ∧
    ((c2SM.getSRVCache ShaderType.Fragment).record 0).resource = 42 ∧
    ((c2SM.getSRVCache ShaderType.Fragment).record 0).view = 5 ∧
    (((syncFramebuffer sampleCfg c2SM sampleGL c2Framebuffer).1.getSRVCache
        ShaderType.Fragment).record 0) = ⟨5, 42, SRVDesc.Texture2D 0 1⟩ ∧
    (syncFramebuffer sampleCfg c2SM sampleGL c2Framebuffer).2 =
      [DeviceCall.OMSetRenderTargets 1 (31 :: List.replicate 7 0) 0] := by
  decide

/-- C2 (amended): syncing a non-degenerate framebuffer ends with the
render-target bind as its final device call; before it, every vertex or
fragment SRV slot whose record conflicts with a processed texture- or
default-framebuffer-backed attachment (resource match, plus mip/array
intersection when a texture image index is known, as encoded by
attachmentConflict, which is false for renderbuffer-backed attachments) is
unbound in the cache with its null device bind already issued; and a slot
recording a resource different from that of every processed color
attachment and of the depth-stencil attachment keeps its record
untouched. -/
theorem claim_c2_conflict_resolution (cfg : RendererConfig)
    (sm : StateManager11) (gl : GLState) (fb : Framebuffer)
    (stage : ShaderType) (s : Nat)
    (hst : stage = ShaderType.Vertex ∨ stage = ShaderType.Fragment)
    (hnd : ¬(fb.fbId = 0 ∧ (fb.firstColorbufferSize.width = 0 ∨
      fb.firstColorbufferSize.height = 0))) :
    (∃ n rtvs d, (syncFramebuffer cfg sm gl fb).2 =
      (syncFramebuffer cfg sm gl fb).2.dropLast ++
        [DeviceCall.OMSetRenderTargets n rtvs d]) ∧
    (∀ rt ∈ processedColorRTs cfg gl fb,
      attachmentConflict rt.attachType rt.imageIndex rt.texResource
        ((sm.getSRVCache stage).record s) = true →
      ((((syncFramebuffer cfg sm gl fb).1.getSRVCache stage).record s).view = 0 ∧
        srvBindCall stage s 1 [0] ∈ (syncFramebuffer cfg sm gl fb).2.dropLast)) ∧
    (∀ ds, fb.depthStencilRT = some ds →
      attachmentConflict ds.attachType ds.imageIndex ds.texResource
        ((sm.getSRVCache stage).record s) = true →
      ((((syncFramebuffer cfg sm gl fb).1.getSRVCache stage).record s).view = 0 ∧
        srvBindCall stage s 1 [0] ∈ (syncFramebuffer cfg sm gl fb).2.dropLast)) ∧
    (((∀ rt ∈ processedColorRTs cfg gl fb,
        ((sm.getSRVCache stage).record s).resource ≠ rt.texResource) ∧
      (∀ ds, fb.depthStencilRT = some ds →
        ((sm.getSRVCache stage).record s).resource ≠ ds.texResource)) →
      ((syncFramebuffer cfg sm gl fb).1.getSRVCache stage).record s =
        (sm.getSRVCache stage).record s) := by
  obtain ⟨F1, F2, F3, F4⟩ := syncFBFold_record cfg gl fb stage s hst
    (List.range fb.colorRTs.length) (0, List.replicate 8 0, 0, sm, [])
  cases hds : fb.depthStencilRT with
  | none =>
      have hr1 : (syncFramebuffer cfg sm gl fb).1 =
          ((List.range fb.colorRTs.length).foldl (syncFBColorStep cfg gl fb)
            (0, List.replicate 8 0, 0, sm, [])).2.2.2.1 := by
        unfold syncFramebuffer
        rw [if_neg hnd, hds]
      have hr2 : (syncFramebuffer cfg sm gl fb).2 =
          ((List.range fb.colorRTs.length).foldl (syncFBColorStep cfg gl fb)
            (0, List.replicate 8 0, 0, sm, [])).2.2.2.2 ++
          [DeviceCall.OMSetRenderTargets
            ((List.range fb.colorRTs.length).foldl (syncFBColorStep cfg gl fb)
              (0, List.replicate 8 0, 0, sm, [])).2.2.1
            ((List.range fb.colorRTs.length).foldl (syncFBColorStep cfg gl fb)
              (0, List.replicate 8 0, 0, sm, [])).2.1 0] := by
        unfold syncFramebuffer
        rw [if_neg hnd, hds]
      have hdrop : (syncFramebuffer cfg sm gl fb).2.dropLast =
          ((List.range fb.colorRTs.length).foldl (syncFBColorStep cfg gl fb)
            (0, List.replicate 8 0, 0, sm, [])).2.2.2.2 := by
        rw [hr2]; simp
      refine ⟨⟨_, _, 0, by rw [hdrop]; exact hr2⟩, ?_, ?_, ?_⟩
      · intro rt hmem hconf
        unfold processedColorRTs at hmem
        obtain ⟨k, hk, hpk⟩ := List.mem_filterMap.mp hmem
        obtain ⟨hv, hm⟩ := F2 k hk rt hpk hconf
        exact ⟨by rw [hr1]; exact hv, by rw [hdrop]; exact hm⟩
      · intro ds hd
        exact Option.noConfusion hd
      · rintro ⟨hcolor, _⟩
        have hres : ∀ k ∈ List.range fb.colorRTs.length, ∀ rt,
            processedAt cfg gl fb k = some rt →
            ((sm.getSRVCache stage).record s).resource ≠ rt.texResource := by
          intro k hk rt hpk
          refine hcolor rt ?_
          unfold processedColorRTs
          exact List.mem_filterMap.mpr ⟨k, hk, hpk⟩
        have hfin := F3 hres
        rw [hr1]
        exact hfin
  | some ds0 =>
      have hr1 : (syncFramebuffer cfg sm gl fb).1 =
          ((((List.range fb.colorRTs.length).foldl (syncFBColorStep cfg gl fb)
            (0, List.replicate 8 0, 0, sm, [])).2.2.2.1).unsetConflictingAttachmentResources
            ds0.attachType ds0.imageIndex ds0.texResource).1 := by
        unfold syncFramebuffer
        rw [if_neg hnd, hds]
      have hr2 : (syncFramebuffer cfg sm gl fb).2 =
          (((List.range fb.colorRTs.length).foldl (syncFBColorStep cfg gl fb)
            (0, List.replicate 8 0, 0, sm, [])).2.2.2.2 ++
          ((((List.range fb.colorRTs.length).foldl (syncFBColorStep cfg gl fb)
            (0, List.replicate 8 0, 0, sm, [])).2.2.2.1).unsetConflictingAttachmentResources
            ds0.attachType ds0.imageIndex ds0.texResource).2) ++
          [DeviceCall.OMSetRenderTargets
            ((List.range fb.colorRTs.length).foldl (syncFBColorStep cfg gl fb)
              (0, List.replicate 8 0, 0, sm, [])).2.2.1
            ((List.range fb.colorRTs.length).foldl (syncFBColorStep cfg gl fb)
              (0, List.replicate 8 0, 0, sm, [])).2.1 ds0.dsv] := by
        unfold syncFramebuffer
        rw [if_neg hnd, hds]
      have hdrop : (syncFramebuffer cfg sm gl fb).2.dropLast =
          ((List.range fb.colorRTs.length).foldl (syncFBColorStep cfg gl fb)
            (0, List.replicate 8 0, 0, sm, [])).2.2.2.2 ++
          ((((List.range fb.colorRTs.length).foldl (syncFBColorStep cfg gl fb)
            (0, List.replicate 8 0, 0, sm, [])).2.2.2.1).unsetConflictingAttachmentResources
            ds0.attachType ds0.imageIndex ds0.texResource).2 := by
        rw [hr2]; simp
      obtain ⟨V1, V2, V3⟩ := ucar_record
        (((List.range fb.colorRTs.length).foldl (syncFBColorStep cfg gl fb)
          (0, List.replicate 8 0, 0, sm, [])).2.2.2.1)
        ds0.attachType ds0.imageIndex ds0.texResource stage s hst
      have hstabA :
          (((((List.range fb.colorRTs.length).foldl (syncFBColorStep cfg gl fb)
              (0, List.replicate 8 0, 0, sm, [])).2.2.2.1).getSRVCache stage).record s).view = 0 ∧
            srvBindCall stage s 1 [0] ∈
              ((List.range fb.colorRTs.length).foldl (syncFBColorStep cfg gl fb)
                (0, List.replicate 8 0, 0, sm, [])).2.2.2.2 →
          (((((((List.range fb.colorRTs.length).foldl (syncFBColorStep cfg gl fb)
              (0, List.replicate 8 0, 0, sm, [])).2.2.2.1).unsetConflictingAttachmentResources
              ds0.attachType ds0.imageIndex ds0.texResource).1).getSRVCache stage).record s).view = 0 ∧
            srvBindCall stage s 1 [0] ∈
              ((List.range fb.colorRTs.length).foldl (syncFBColorStep cfg gl fb)
                (0, List.replicate 8 0, 0, sm, [])).2.2.2.2 ++
              ((((List.range fb.colorRTs.length).foldl (syncFBColorStep cfg gl fb)
                (0, List.replicate 8 0, 0, sm, [])).2.2.2.1).unsetConflictingAttachmentResources
                ds0.attachType ds0.imageIndex ds0.texResource).2 := by
        rintro ⟨hv, hm⟩
        rcases V1 with h | ⟨hv2, hm2⟩
        · exact ⟨by rw [h]; exact hv, List.mem_append_left _ hm⟩
        · exact ⟨hv2, List.mem_append_right _ hm2⟩
      refine ⟨⟨_, _, ds0.dsv, by rw [hdrop]; exact hr2⟩, ?_, ?_, ?_⟩
      · intro rt hmem hconf
        unfold processedColorRTs at hmem
        obtain ⟨k, hk, hpk⟩ := List.mem_filterMap.mp hmem
        have hcl := hstabA (F2 k hk rt hpk hconf)
        exact ⟨by rw [hr1]; exact hcl.1, by rw [hdrop]; exact hcl.2⟩
      · intro ds hd hconf
        injection hd with he
        subst he
        rcases F1 with hFeq | hFcl
        · have h2 := V2 (by rw [hFeq]; exact hconf)
          exact ⟨by rw [hr1]; exact h2.1,
            by rw [hdrop]; exact List.mem_append_right _ h2.2⟩
        · have hcl := hstabA hFcl
          exact ⟨by rw [hr1]; exact hcl.1, by rw [hdrop]; exact hcl.2⟩
      · rintro ⟨hcolor, hdsne⟩
        have hres : ∀ k ∈ List.range fb.colorRTs.length, ∀ rt,
            processedAt cfg gl fb k = some rt →
            ((sm.getSRVCache stage).record s).resource ≠ rt.texResource := by
          intro k hk rt hpk
          refine hcolor rt ?_
          unfold processedColorRTs
          exact List.mem_filterMap.mpr ⟨k, hk, hpk⟩
        have hFeq := F3 hres
        have hne : (((((List.range fb.colorRTs.length).foldl (syncFBColorStep cfg gl fb)
            (0, List.replicate 8 0, 0, sm, [])).2.2.2.1).getSRVCache stage).record s).resource ≠
            ds0.texResource := by
          rw [hFeq]
          exact hdsne ds0 rfl
        have hBeq := V3 hne
        rw [hr1, hBeq]
        exact hFeq

/-- C2 witness: the amended theorem applied at the fragment stage, slot 0,
with the constructor-default state manager and the sample framebuffer. -/
theorem claim_c2_conflict_resolution_witness :
    ((ShaderType.Fragment = ShaderType.Vertex ∨
      ShaderType.Fragment = ShaderType.Fragment) ∧
    ¬(sampleFramebuffer.fbId = 0 ∧ (sampleFramebuffer.firstColorbufferSize.width = 0 ∨
      sampleFramebuffer.firstColorbufferSize.height = 0))) ∧
    ((∃ n rtvs d, (syncFramebuffer sampleCfg StateManager11.construct sampleGL sampleFramebuffer).2 =
      (syncFramebuffer sampleCfg StateManager11.construct sampleGL sampleFramebuffer).2.dropLast ++
        [DeviceCall.OMSetRenderTargets n rtvs d]) ∧
    (∀ rt ∈ processedColorRTs sampleCfg sampleGL sampleFramebuffer,
      attachmentConflict rt.attachType rt.imageIndex rt.texResource
        ((StateManager11.construct.getSRVCache ShaderType.Fragment).record 0) = true →
      ((((syncFramebuffer sampleCfg StateManager11.construct sampleGL sampleFramebuffer).1.getSRVCache
          ShaderType.Fragment).record 0).view = 0 ∧
        srvBindCall ShaderType.Fragment 0 1 [0] ∈
          (syncFramebuffer sampleCfg StateManager11.construct sampleGL sampleFramebuffer).2.dropLast)) ∧
    (∀ ds, sampleFramebuffer.depthStencilRT = some ds →
      attachmentConflict ds.attachType ds.imageIndex ds.texResource
        ((StateManager11.construct.getSRVCache ShaderType.Fragment).record 0) = true →
      ((((syncFramebuffer sampleCfg StateManager11.construct sampleGL sampleFramebuffer).1.getSRVCache
          ShaderType.Fragment).record 0).view = 0 ∧
        srvBindCall ShaderType.Fragment 0 1 [0] ∈
          (syncFramebuffer sampleCfg StateManager11.construct sampleGL sampleFramebuffer).2.dropLast)) ∧
    (((∀ rt ∈ processedColorRTs sampleCfg sampleGL sampleFramebuffer,
        ((StateManager11.construct.getSRVCache ShaderType.Fragment).record 0).resource ≠
          rt.texResource) ∧
      (∀ ds, sampleFramebuffer.depthStencilRT = some ds →
        ((StateManager11.construct.getSRVCache ShaderType.Fragment).record 0).resource ≠
          ds.texResource)) →
      ((syncFramebuffer sampleCfg StateManager11.construct sampleGL sampleFramebuffer).1.getSRVCache
          ShaderType.Fragment).record 0 =
        (StateManager11.construct.getSRVCache ShaderType.Fragment).record 0)) :=
  ⟨⟨Or.inr rfl, by decide⟩,
    claim_c2_conflict_resolution sampleCfg StateManager11.construct sampleGL
      sampleFramebuffer ShaderType.Fragment 0 (Or.inr rfl) (by decide)⟩

end SRVConflictLemmas

/-- C10 counterexample: bind slots 0 and 1, then unbind slot 1.  The
downward scan leaves `highestUsed() = 0` while slot 0 still holds a view,
refuting both that every slot at or above highestUsed() is unoccupied and
that highestUsed() is zero exactly when no slot is occupied. -/
theorem claim_c10_counterexample :
    (((((ViewCache.init 4).update 0
          (some ⟨5, 5, SRVDesc.OtherDim⟩)).update 1
          (some ⟨6, 6, SRVDesc.OtherDim⟩)).update 1 none).mHighestUsedView = 0) ∧
    ((((((ViewCache.init 4).update 0
          (some ⟨5, 5, SRVDesc.OtherDim⟩)).update 1
          (some ⟨6, 6, SRVDesc.OtherDim⟩)).update 1 none).record 0).view ≠ 0) := by
  decide

/-- C10 (amended): after any well-formed sequence of update/clear operations
on a freshly initialized cache, `highestUsed()` never exceeds one plus the
largest slot index that was bound with a non-null view (tracked across the
history, reset by clear), and a fresh cache starts at zero; the counter can
however undershoot the highest occupied slot, so slots at or above
`highestUsed()` may still hold views. -/
theorem claim_c10_highest_used_upper_bound (n : Nat)
    (ops : List ViewCacheOp) (hwf : opsWF n ops) :
    (ViewCache.init n).mHighestUsedView = 0 ∧
    ((ViewCache.init n).applyOps ops).mHighestUsedView ≤ boundAfter 0 ops := by
  refine ⟨rfl, ?_⟩
  refine applyOps_high_le ops (ViewCache.init n) 0 ?_ le_rfl ?_
  · simpa [ViewCache.size, ViewCache.init] using hwf
  · intro _; rfl

/-- C4: clearSRVs issues at most one device clear call; the call covers
exactly the slots `[rangeStart, min(rangeEnd, highestUsed))`, and no device
call at all is made when that clamped range is empty.  In particular a cache
whose highest used counter is at most 4 (as after binding only slots 0..3)
is never cleared beyond slot 3 regardless of rangeEnd. -/
theorem claim_c4_minimal_clear_range (sm : StateManager11)
    (shaderType : ShaderType) (rangeStart rangeEnd : Nat)
    (h : rangeStart ≤ rangeEnd) :
    ((sm.clearSRVs shaderType rangeStart rangeEnd).2.length ≤ 1) ∧
    (min rangeEnd (sm.getSRVCache shaderType).highestUsed ≤ rangeStart →
      (sm.clearSRVs shaderType rangeStart rangeEnd).2 = []) ∧
    (rangeStart < min rangeEnd (sm.getSRVCache shaderType).highestUsed →
      (sm.clearSRVs shaderType rangeStart rangeEnd).2 =
        [StateManager11.srvBindCall shaderType rangeStart
          (min rangeEnd (sm.getSRVCache shaderType).highestUsed - rangeStart)
          (List.replicate
            (min rangeEnd (sm.getSRVCache shaderType).highestUsed - rangeStart)
            0)]) := by
  simp only [StateManager11.clearSRVs, ViewCache.highestUsed]
  by_cases heq : rangeStart = rangeEnd
  · subst heq
    refine ⟨by simp, by simp, ?_⟩
    intro hlt
    exact absurd (lt_of_lt_of_le hlt (min_le_left _ _)) (lt_irrefl _)
  · rw [if_neg heq]
    by_cases hle : min rangeEnd (sm.getSRVCache shaderType).mHighestUsedView ≤
        rangeStart
    · rw [if_pos hle]
      exact ⟨by simp, fun _ => rfl, fun hlt => absurd hlt (not_lt.mpr hle)⟩
    · rw [if_neg hle]
      exact ⟨by simp, fun hc => absurd hc hle, fun _ => rfl⟩

/-- C4 witness: clearing slots 0..16 of a pixel SRV cache whose highest used
slot counter is 4 touches exactly `[0, 4)`. -/
theorem claim_c4_minimal_clear_range_witness :
    (0 : Nat) ≤ 16 ∧
    (({ StateManager11.construct with
        mCurPixelSRVs :=
          ((((ViewCache.init 16).update 0 (some ⟨5, 5, SRVDesc.OtherDim⟩)).update 1
            (some ⟨6, 6, SRVDesc.OtherDim⟩)).update 2
            (some ⟨7, 7, SRVDesc.OtherDim⟩)).update 3
            (some ⟨8, 8, SRVDesc.OtherDim⟩) } : StateManager11).clearSRVs
      ShaderType.Fragment 0 16).2 =
      [DeviceCall.PSSetShaderResources 0 4 [0, 0, 0, 0]] := by
  refine ⟨Nat.zero_le 16, ?_⟩
  have h := (claim_c4_minimal_clear_range
    { StateManager11.construct with
      mCurPixelSRVs :=
        ((((ViewCache.init 16).update 0 (some ⟨5, 5, SRVDesc.OtherDim⟩)).update 1
          (some ⟨6, 6, SRVDesc.OtherDim⟩)).update 2
          (some ⟨7, 7, SRVDesc.OtherDim⟩)).update 3
          (some ⟨8, 8, SRVDesc.OtherDim⟩) }
    ShaderType.Fragment 0 16 (Nat.zero_le 16)).2.2 (by decide)
  rw [h]
  decide

/-- C6: the dirty cascades of syncState.  A rasterizer-discard notification
whose new value differs from the cached one sets both the rasterizer-state
and the shaders dirty groups; a vertex-array-binding notification sets the
vertex-buffers-and-input-layout dirty group, marks every current value
attribute slot dirty (and sets that group), and dirties the cached index
buffer, all in one notification. -/
theorem claim_c6_dirty_cascade (cfg : RendererConfig) (sm : StateManager11)
    (gl : GLState)
    (h : gl.rasterState.rasterizerDiscard ≠ sm.mCurRasterState.rasterizerDiscard) :
    ((StateManager11.syncStateBit cfg sm gl
        GlDirtyBit.RASTERIZER_DISCARD_ENABLED).mInternalDirtyBits.rasterizerState =
        true ∧
      (StateManager11.syncStateBit cfg sm gl
        GlDirtyBit.RASTERIZER_DISCARD_ENABLED).mInternalDirtyBits.shaders = true) ∧
    ((StateManager11.syncStateBit cfg sm gl
        GlDirtyBit.VERTEX_ARRAY_BINDING).mInternalDirtyBits.vertexBuffersAndInputLayout =
        true ∧
      (StateManager11.syncStateBit cfg sm gl
        GlDirtyBit.VERTEX_ARRAY_BINDING).mInternalDirtyBits.currentValueAttribs =
        true ∧
      (StateManager11.syncStateBit cfg sm gl
        GlDirtyBit.VERTEX_ARRAY_BINDING).mDirtyCurrentValueAttribs = Finset.univ ∧
      (StateManager11.syncStateBit cfg sm gl
        GlDirtyBit.VERTEX_ARRAY_BINDING).mIndexBufferIsDirty = true) := by
  constructor
  · simp only [StateManager11.syncStateBit]
    rw [if_pos h]
    simp [StateManager11.setBit, StateManager11.invalidateShaders, DirtyBits.set]
  · simp [StateManager11.syncStateBit, StateManager11.invalidateVertexBuffer,
      StateManager11.invalidateInputLayout, StateManager11.invalidateShaders,
      StateManager11.invalidateIndexBuffer, StateManager11.setBit, DirtyBits.set]

/-- C6 witness: the cascade evaluated with rasterizer discard toggling from
false (cached) to true (logical state). -/
theorem claim_c6_dirty_cascade_witness :
    (({ sampleGL with
        rasterState := { defaultRasterizerState with rasterizerDiscard := true } }
          : GLState).rasterState.rasterizerDiscard ≠
      StateManager11.construct.mCurRasterState.rasterizerDiscard) ∧
    (StateManager11.syncStateBit sampleCfg StateManager11.construct
      { sampleGL with
        rasterState := { defaultRasterizerState with rasterizerDiscard := true } }
      GlDirtyBit.RASTERIZER_DISCARD_ENABLED).mInternalDirtyBits.rasterizerState =
      true :=
  ⟨by decide,
   ((claim_c6_dirty_cascade sampleCfg StateManager11.construct
      { sampleGL with
        rasterState := { defaultRasterizerState with rasterizerDiscard := true } }
      (by decide)).1).1⟩

section DepthStencilLemmas

open StateManager11

theorem checkPresentPath_disableDepth (cfg : RendererConfig)
    (sm : StateManager11) (gl : GLState) :
    (checkPresentPath cfg sm gl).mCurDisableDepth = sm.mCurDisableDepth := by
  simp only [checkPresentPath, invalidateViewport, invalidateDriverUniforms,
    setBit]
  split_ifs <;> rfl

theorem checkPresentPath_disableStencil (cfg : RendererConfig)
    (sm : StateManager11) (gl : GLState) :
    (checkPresentPath cfg sm gl).mCurDisableStencil = sm.mCurDisableStencil := by
  simp only [checkPresentPath, invalidateViewport, invalidateDriverUniforms,
    setBit]
  split_ifs <;> rfl

theorem pfi_disableFlags (cfg : RendererConfig) (sm : StateManager11)
    (gl : GLState) (h : sm.mRenderTargetIsDirty = true) :
    (processFramebufferInvalidation cfg sm gl).mCurDisableDepth =
      some (!gl.drawFramebuffer.hasDepth && gl.drawFramebuffer.hasStencil) ∧
    (processFramebufferInvalidation cfg sm gl).mCurDisableStencil =
      some (gl.drawFramebuffer.hasDepth && !gl.drawFramebuffer.hasStencil) := by
  have hflags : ∀ t : StateManager11,
      (pfiUpdateDisableFlags t gl).mCurDisableDepth =
        some (!gl.drawFramebuffer.hasDepth && gl.drawFramebuffer.hasStencil) ∧
      (pfiUpdateDisableFlags t gl).mCurDisableStencil =
        some (gl.drawFramebuffer.hasDepth && !gl.drawFramebuffer.hasStencil) := by
    intro t
    simp only [pfiUpdateDisableFlags, setBit]
    split_ifs with hc
    · exact ⟨rfl, rfl⟩
    · push_neg at hc
      exact ⟨hc.2.1.symm, hc.2.2.2.symm⟩
  have hms : ∀ t : StateManager11,
      (pfiUpdateMultisample t gl).mCurDisableDepth = t.mCurDisableDepth ∧
      (pfiUpdateMultisample t gl).mCurDisableStencil = t.mCurDisableStencil := by
    intro t
    simp only [pfiUpdateMultisample, setBit]
    split_ifs <;> exact ⟨rfl, rfl⟩
  have hvb : ∀ t : StateManager11,
      (pfiUpdateViewportBounds cfg t gl).mCurDisableDepth = t.mCurDisableDepth ∧
      (pfiUpdateViewportBounds cfg t gl).mCurDisableStencil =
        t.mCurDisableStencil := by
    intro t
    simp only [pfiUpdateViewportBounds, invalidateViewport,
      invalidateDriverUniforms, setBit]
    split_ifs <;> exact ⟨rfl, rfl⟩
  simp only [processFramebufferInvalidation, h, Bool.not_true,
    Bool.false_eq_true, if_false]
  constructor
  · rw [(hvb _).1, checkPresentPath_disableDepth, (hms _).1, (hflags _).1]
  · rw [(hvb _).2, checkPresentPath_disableStencil, (hms _).2, (hflags _).2]

end DepthStencilLemmas

/-- C8: under the precondition that the front/back stencil writemasks, the
front/back stencil value masks, and the clamped front/back stencil
references agree when masked to the current stencil size,
syncDepthStencilState binds a descriptor in which depth test and depth
writes are off whenever the disable-depth override flag is set, the stencil
test is off whenever the disable-stencil override flag is set, and both
stencil writemasks are zero whenever the resulting stencil test is off; and
processFramebufferInvalidation derives disable-depth as (stencil without
depth) and disable-stencil as (depth without stencil). -/
theorem claim_c8_depth_stencil_override_forcing (cfg : RendererConfig)
    (sm : StateManager11) (gl : GLState) (dd ds : Bool)
    (hdd : sm.mCurDisableDepth = some dd)
    (hds : sm.mCurDisableStencil = some ds)
    (_hwm : gl.depthStencilState.stencilWritemask &&&
        maxStencilOf gl.depthStencilState.stencilTest sm.mCurStencilSize =
      gl.depthStencilState.stencilBackWritemask &&&
        maxStencilOf gl.depthStencilState.stencilTest sm.mCurStencilSize)
    (_hvm : gl.depthStencilState.stencilMask &&&
        maxStencilOf gl.depthStencilState.stencilTest sm.mCurStencilSize =
      gl.depthStencilState.stencilBackMask &&&
        maxStencilOf gl.depthStencilState.stencilTest sm.mCurStencilSize)
    (_href : glClamp gl.stencilRef 0
        ((maxStencilOf gl.depthStencilState.stencilTest sm.mCurStencilSize : Nat) : Int) =
      glClamp gl.stencilBackRef 0
        ((maxStencilOf gl.depthStencilState.stencilTest sm.mCurStencilSize : Nat) : Int)) :
    (∃ desc ref, (StateManager11.syncDepthStencilState sm gl).2 =
      [DeviceCall.OMSetDepthStencilState desc ref] ∧
      (dd = true → desc.depthTest = false ∧ desc.depthMask = false) ∧
      (ds = true → desc.stencilTest = false) ∧
      (desc.stencilTest = false →
        desc.stencilWritemask = 0 ∧ desc.stencilBackWritemask = 0)) ∧
    (∀ sm2 : StateManager11, sm2.mRenderTargetIsDirty = true →
      (StateManager11.processFramebufferInvalidation cfg sm2 gl).mCurDisableDepth =
        some (!gl.drawFramebuffer.hasDepth && gl.drawFramebuffer.hasStencil) ∧
      (StateManager11.processFramebufferInvalidation cfg sm2 gl).mCurDisableStencil =
        some (gl.drawFramebuffer.hasDepth && !gl.drawFramebuffer.hasStencil)) := by
  refine ⟨?_, fun sm2 h2 => pfi_disableFlags cfg sm2 gl h2⟩
  simp only [StateManager11.syncDepthStencilState, hdd, hds, Option.getD_some]
  refine ⟨_, _, rfl, ?_, ?_, ?_⟩
  · intro hddt
    rw [hddt]
    simp only [if_true]
    split_ifs <;> exact ⟨rfl, rfl⟩
  · intro hdst
    rw [hdst]
    simp only [if_true]
    split_ifs <;> rfl
  · intro hst
    revert hst
    split_ifs <;> intro hst <;> first | exact ⟨rfl, rfl⟩ | exact absurd hst (by simp_all)

/-- C8 witness: a stencil-only framebuffer: the derived flags disable depth,
and the bound descriptor has depth test and writes off and zeroed stencil
writemasks once the stencil test is off. -/
theorem claim_c8_depth_stencil_override_forcing_witness :
    (({ StateManager11.construct with
        mCurDisableDepth := some true
        mCurDisableStencil := some false } : StateManager11).mCurDisableDepth =
      some true) ∧
    (∃ desc ref,
      (StateManager11.syncDepthStencilState
        { StateManager11.construct with
          mCurDisableDepth := some true
          mCurDisableStencil := some false } sampleGL).2 =
        [DeviceCall.OMSetDepthStencilState desc ref] ∧
      (true = true → desc.depthTest = false ∧ desc.depthMask = false) ∧
      (false = true → desc.stencilTest = false) ∧
      (desc.stencilTest = false →
        desc.stencilWritemask = 0 ∧ desc.stencilBackWritemask = 0)) :=
  ⟨rfl,
   (claim_c8_depth_stencil_override_forcing sampleCfg
      { StateManager11.construct with
        mCurDisableDepth := some true
        mCurDisableStencil := some false } sampleGL true false rfl rfl
      (by decide) (by decide) (by decide)).1⟩

/-- C10 witness: the amended bound evaluated on a concrete history binding
slots 0 and 2 and unbinding slot 2. -/
theorem claim_c10_highest_used_upper_bound_witness :
    opsWF 4 [ViewCacheOp.update 0 (some ⟨5, 5, SRVDesc.OtherDim⟩),
      ViewCacheOp.update 2 (some ⟨6, 6, SRVDesc.OtherDim⟩),
      ViewCacheOp.update 2 none] ∧
    (ViewCache.init 4).mHighestUsedView = 0 ∧
    ((ViewCache.init 4).applyOps
        [ViewCacheOp.update 0 (some ⟨5, 5, SRVDesc.OtherDim⟩),
         ViewCacheOp.update 2 (some ⟨6, 6, SRVDesc.OtherDim⟩),
         ViewCacheOp.update 2 none]).mHighestUsedView ≤
      boundAfter 0 [ViewCacheOp.update 0 (some ⟨5, 5, SRVDesc.OtherDim⟩),
        ViewCacheOp.update 2 (some ⟨6, 6, SRVDesc.OtherDim⟩),
        ViewCacheOp.update 2 none] :=
  ⟨by intro op hop; fin_cases hop <;> simp,
   claim_c10_highest_used_upper_bound 4 _
     (by intro op hop; fin_cases hop <;> simp)⟩

section DrainQuietLemmas

open StateManager11

/-- A left fold preserves any projection its step preserves. -/
theorem foldl_pres {α : Type u} {β : Type v} {γ : Type w} (f : α → β → α)
    (g : α → γ) (h : ∀ a b, g (f a b) = g a) (L : List β) :
    ∀ a, g (L.foldl f a) = g a := by
  induction L with
  | nil => intro a; rfl
  | cons x xs ih => intro a; rw [List.foldl_cons, ih, h]

theorem quietSig_putSRVCache (sm : StateManager11) (st : ShaderType)
    (c : ViewCache) : quietSig (sm.putSRVCache st c) = quietSig sm := by
  cases st <;> rfl

theorem quietSig_ssri (sm : StateManager11) (st : ShaderType) (slot : Nat)
    (srv : Option SharedSRV) :
    quietSig (sm.setShaderResourceInternal st slot srv).1 = quietSig sm := by
  simp only [setShaderResourceInternal]
  split_ifs
  · exact quietSig_putSRVCache _ _ _
  · rfl

theorem quietSig_clearSRVs (sm : StateManager11) (st : ShaderType)
    (lo hi : Nat) : quietSig (sm.clearSRVs st lo hi).1 = quietSig sm := by
  simp only [clearSRVs]
  split_ifs <;> first | rfl | exact quietSig_putSRVCache _ _ _

theorem quietSig_unsetStep (st : ShaderType) (res : Nat)
    (idx : Option ImageIndex) (acc : StateManager11 × Bool × List DeviceCall)
    (k : Nat) : quietSig (unsetStep st res idx acc k).1 = quietSig acc.1 := by
  obtain ⟨sm, f, calls⟩ := acc
  simp only [unsetStep]
  split_ifs
  · exact quietSig_ssri _ _ _ _
  · rfl

theorem quietSig_unsetSRVs (sm : StateManager11) (st : ShaderType)
    (res : Nat) (idx : Option ImageIndex) :
    quietSig (sm.unsetConflictingSRVs st res idx).1 = quietSig sm := by
  unfold unsetConflictingSRVs
  exact foldl_pres _ (fun acc => quietSig acc.1) (quietSig_unsetStep st res idx)
    _ (sm, false, [])

theorem quietSig_ucar (sm : StateManager11) (aType : AttachmentType)
    (aIdx : ImageIndex) (res : Nat) :
    quietSig (sm.unsetConflictingAttachmentResources aType aIdx res).1 =
      quietSig sm := by
  simp only [unsetConflictingAttachmentResources]
  split_ifs
  · exact (quietSig_unsetSRVs _ _ _ _).trans (quietSig_unsetSRVs _ _ _ _)
  · exact (quietSig_unsetSRVs _ _ _ _).trans (quietSig_unsetSRVs _ _ _ _)
  · rfl

theorem quietSig_syncFBColorStep (cfg : RendererConfig) (gl : GLState)
    (fb : Framebuffer)
    (acc : Nat × List Nat × Nat × StateManager11 × List DeviceCall) (k : Nat) :
    quietSig (syncFBColorStep cfg gl fb acc k).2.2.2.1 =
      quietSig acc.2.2.2.1 := by
  obtain ⟨a, rtvs, m, sm, calls⟩ := acc
  cases hrt : fb.colorRTs.getD k none with
  | none =>
      simp only [syncFBColorStep, hrt]
      split_ifs <;> rfl
  | some rt0 =>
      simp only [syncFBColorStep, hrt]
      split_ifs <;> first | rfl | exact quietSig_ucar _ _ _ _

theorem quietSig_syncFramebuffer (cfg : RendererConfig) (sm : StateManager11)
    (gl : GLState) (fb : Framebuffer) :
    quietSig (syncFramebuffer cfg sm gl fb).1 = quietSig sm := by
  unfold syncFramebuffer
  split_ifs
  · rfl
  · cases hds : fb.depthStencilRT with
    | none =>
        exact foldl_pres _ (fun acc => quietSig acc.2.2.2.1)
          (quietSig_syncFBColorStep cfg gl fb) _ (0, List.replicate 8 0, 0, sm, [])
    | some ds =>
        exact (quietSig_ucar _ _ _ _).trans
          (foldl_pres _ (fun acc => quietSig acc.2.2.2.1)
            (quietSig_syncFBColorStep cfg gl fb) _
            (0, List.replicate 8 0, 0, sm, []))

theorem quietSig_syncViewport (cfg : RendererConfig) (sm : StateManager11)
    (gl : GLState) : quietSig (syncViewport cfg sm gl).1 = quietSig sm := rfl

theorem quietSig_syncScissor (sm : StateManager11) (scissor : Rectangle)
    (enabled : Bool) :
    quietSig (syncScissorRectangle sm scissor enabled).1 = quietSig sm := rfl

theorem quietSig_syncRasterizer (sm : StateManager11) (gl : GLState)
    (p : DrawCallParams) :
    quietSig (syncRasterizerState sm gl p).1 = quietSig sm := rfl

theorem quietSig_syncDepthStencil (sm : StateManager11) (gl : GLState) :
    quietSig (syncDepthStencilState sm gl).1 = quietSig sm := rfl

/-- syncBlendState leaves the tracked caches and bits alone and overwrites
the cached sample mask with its argument. -/
theorem syncBlendState_quiet (sm : StateManager11) (bs : BlendState)
    (bc : ColorF) (mask : Nat) :
    drainFrame (syncBlendState sm bs bc mask).1 = drainFrame sm ∧
    (syncBlendState sm bs bc mask).1.mCurSampleMask = mask ∧
    (syncBlendState sm bs bc mask).1.mInternalDirtyBits =
      sm.mInternalDirtyBits :=
  ⟨rfl, rfl, rfl⟩

theorem quietSig_setSamplerState (sm : StateManager11) (t : ShaderType)
    (i ss : Nat) (tex : TextureMetadataSource) :
    quietSig (setSamplerState sm t i ss tex).1 = quietSig sm := by
  simp only [setSamplerState]
  cases t <;> split_ifs <;> rfl

theorem quietSig_applyTexturesStep (gl : GLState) (t : ShaderType)
    (acc : StateManager11 × List DeviceCall) (k : Nat) :
    quietSig (applyTexturesStep gl t acc k).1 = quietSig acc.1 := by
  obtain ⟨sm, calls⟩ := acc
  unfold applyTexturesStep setTexture
  exact (quietSig_ssri _ _ _ _).trans (quietSig_setSamplerState _ _ _ _ _)

theorem quietSig_applyTextures (cfg : RendererConfig) (sm : StateManager11)
    (gl : GLState) (t : ShaderType) :
    quietSig (applyTextures cfg sm gl t).1 = quietSig sm := by
  unfold applyTextures
  exact (quietSig_clearSRVs _ _ _ _).trans
    (foldl_pres _ (fun acc => quietSig acc.1) (quietSig_applyTexturesStep gl t)
      _ (sm, []))

theorem quietSig_syncTextures (cfg : RendererConfig) (sm : StateManager11)
    (gl : GLState) : quietSig (syncTextures cfg sm gl).1 = quietSig sm := by
  unfold syncTextures
  exact (quietSig_applyTextures _ _ _ _).trans (quietSig_applyTextures _ _ _ _)

/-- applyUniforms leaves the tracked state alone and unconditionally marks
both draw-stage default uniform blocks clean. -/
theorem applyUniforms_quiet (sm : StateManager11) (ext : ExternalFlags)
    (gl : GLState) :
    quietSig (applyUniforms sm ext gl).1 = quietSig sm ∧
    (applyUniforms sm ext gl).2.1 =
      { ext with vsUniformsDirty := false, psUniformsDirty := false } := by
  simp only [applyUniforms]
  split_ifs <;> exact ⟨rfl, by first | rfl | trivial⟩

theorem quietSig_applyDriverUniforms (cfg : RendererConfig)
    (sm : StateManager11) (gl : GLState) :
    quietSig (applyDriverUniforms cfg sm gl).1 = quietSig sm := by
  simp only [applyDriverUniforms]
  split_ifs <;> rfl

theorem quietSig_syncUBVertexStep (gl : GLState) (reserved : Nat)
    (bufs : List Int) (acc : StateManager11 × List DeviceCall) (k : Nat) :
    quietSig (syncUBVertexStep gl reserved bufs acc k).1 = quietSig acc.1 := by
  obtain ⟨sm, calls⟩ := acc
  simp only [syncUBVertexStep]
  split_ifs with h1
  · rfl
  · split
    · rfl
    · split_ifs <;> rfl

theorem quietSig_syncUBFragmentStep (gl : GLState) (reserved : Nat)
    (bufs : List Int) (acc : StateManager11 × List DeviceCall) (k : Nat) :
    quietSig (syncUBFragmentStep gl reserved bufs acc k).1 = quietSig acc.1 := by
  obtain ⟨sm, calls⟩ := acc
  simp only [syncUBFragmentStep]
  split_ifs with h1
  · rfl
  · split
    · rfl
    · split_ifs <;> rfl

theorem quietSig_syncUniformBuffers (cfg : RendererConfig)
    (sm : StateManager11) (gl : GLState) :
    quietSig (syncUniformBuffers cfg sm gl).1 = quietSig sm := by
  unfold syncUniformBuffers
  exact (foldl_pres _
      (fun acc : StateManager11 × List DeviceCall => quietSig acc.1)
      (quietSig_syncUBFragmentStep gl _ _) _ _).trans
    (foldl_pres _
      (fun acc : StateManager11 × List DeviceCall => quietSig acc.1)
      (quietSig_syncUBVertexStep gl _ _) _ (sm, []))

/-- syncTransformFeedbackBuffers leaves the tracked state alone and never
sets an external flag. -/
theorem syncTF_quiet (sm : StateManager11) (ext : ExternalFlags)
    (gl : GLState) :
    quietSig (syncTransformFeedbackBuffers sm ext gl).1 = quietSig sm ∧
    (syncTransformFeedbackBuffers sm ext gl).2.1.samplerMappingDirty =
      ext.samplerMappingDirty ∧
    ((syncTransformFeedbackBuffers sm ext gl).2.1.vsUniformsDirty =
      ext.vsUniformsDirty) ∧
    ((syncTransformFeedbackBuffers sm ext gl).2.1.psUniformsDirty =
      ext.psUniformsDirty) := by
  unfold syncTransformFeedbackBuffers
  split_ifs <;> exact ⟨rfl, rfl, rfl, rfl⟩

theorem quietSig_syncCVAStep (gl : GLState) (sm : StateManager11)
    (i : Fin 16) : quietSig (syncCVAStep gl sm i) = quietSig sm := by
  unfold syncCVAStep
  split_ifs <;> rfl

theorem quietSig_syncCurrentValueAttribs (sm : StateManager11)
    (gl : GLState) :
    quietSig (syncCurrentValueAttribs sm gl).1 = quietSig sm := by
  simp only [syncCurrentValueAttribs]
  split_ifs
  · rfl
  · exact foldl_pres _ quietSig (quietSig_syncCVAStep gl) _ _

theorem setVertexShader_quiet (sm : StateManager11) (serial : Nat) :
    drainFrame (setVertexShader sm serial).1 = drainFrame sm ∧
    (setVertexShader sm serial).1.mCurSampleMask = sm.mCurSampleMask ∧
    ((setVertexShader sm serial).1.mInternalDirtyBits = sm.mInternalDirtyBits ∨
      (setVertexShader sm serial).1.mInternalDirtyBits =
        sm.mInternalDirtyBits.set DirtyBit.SHADERS) := by
  unfold setVertexShader
  split_ifs
  · exact ⟨rfl, rfl, Or.inr rfl⟩
  · exact ⟨rfl, rfl, Or.inl rfl⟩

theorem setGeometryShader_quiet (sm : StateManager11) (serial : Nat) :
    drainFrame (setGeometryShader sm serial).1 = drainFrame sm ∧
    (setGeometryShader sm serial).1.mCurSampleMask = sm.mCurSampleMask ∧
    ((setGeometryShader sm serial).1.mInternalDirtyBits = sm.mInternalDirtyBits ∨
      (setGeometryShader sm serial).1.mInternalDirtyBits =
        sm.mInternalDirtyBits.set DirtyBit.SHADERS) := by
  unfold setGeometryShader
  split_ifs
  · exact ⟨rfl, rfl, Or.inr rfl⟩
  · exact ⟨rfl, rfl, Or.inl rfl⟩

theorem setPixelShader_quiet (sm : StateManager11) (serial : Nat) :
    drainFrame (setPixelShader sm serial).1 = drainFrame sm ∧
    (setPixelShader sm serial).1.mCurSampleMask = sm.mCurSampleMask ∧
    ((setPixelShader sm serial).1.mInternalDirtyBits = sm.mInternalDirtyBits ∨
      (setPixelShader sm serial).1.mInternalDirtyBits =
        sm.mInternalDirtyBits.set DirtyBit.SHADERS) := by
  unfold setPixelShader
  split_ifs
  · exact ⟨rfl, rfl, Or.inr rfl⟩
  · exact ⟨rfl, rfl, Or.inl rfl⟩

theorem setDrawShaders_quiet (sm : StateManager11) (v g p : Nat) :
    drainFrame (setDrawShaders sm v g p).1 = drainFrame sm ∧
    (setDrawShaders sm v g p).1.mCurSampleMask = sm.mCurSampleMask ∧
    ((setDrawShaders sm v g p).1.mInternalDirtyBits = sm.mInternalDirtyBits ∨
      (setDrawShaders sm v g p).1.mInternalDirtyBits =
        sm.mInternalDirtyBits.set DirtyBit.SHADERS) := by
  obtain ⟨f1, m1, b1⟩ := setVertexShader_quiet sm v
  obtain ⟨f2, m2, b2⟩ := setGeometryShader_quiet (setVertexShader sm v).1 g
  obtain ⟨f3, m3, b3⟩ :=
    setPixelShader_quiet (setGeometryShader (setVertexShader sm v).1 g).1 p
  refine ⟨(f3.trans f2).trans f1, (m3.trans m2).trans m1, ?_⟩
  show (setPixelShader (setGeometryShader (setVertexShader sm v).1 g).1 p).1.mInternalDirtyBits =
      sm.mInternalDirtyBits ∨
    (setPixelShader (setGeometryShader (setVertexShader sm v).1 g).1 p).1.mInternalDirtyBits =
      sm.mInternalDirtyBits.set DirtyBit.SHADERS
  rcases b3 with h3 | h3 <;> rcases b2 with h2 | h2 <;> rcases b1 with h1 | h1 <;>
      rw [h3, h2, h1] <;> first | exact Or.inl rfl | exact Or.inr rfl

theorem syncProgram_quiet (sm : StateManager11) (gl : GLState) (mode : Nat) :
    drainFrame (syncProgram sm gl mode).1 = drainFrame sm ∧
    (syncProgram sm gl mode).1.mCurSampleMask = sm.mCurSampleMask ∧
    (syncProgram sm gl mode).1.mInternalDirtyBits =
      sm.mInternalDirtyBits.resetBit DirtyBit.SHADERS := by
  obtain ⟨f, m, b⟩ := setDrawShaders_quiet sm gl.program.vertexExecutableSerial
    (if gl.transformFeedbackActiveUnpaused then gl.program.streamOutExecutableSerial
      else gl.program.geometryExecutableSerial)
    (if gl.rasterState.rasterizerDiscard then 0 else gl.program.pixelExecutableSerial)
  refine ⟨f, m, ?_⟩
  rcases b with h | h
  · exact congrArg (fun y => DirtyBits.resetBit y DirtyBit.SHADERS) h
  · exact (congrArg (fun y => DirtyBits.resetBit y DirtyBit.SHADERS) h).trans rfl

theorem quietSig_setInputLayoutInternal (sm : StateManager11)
    (il : Option Nat) :
    quietSig (setInputLayoutInternal sm il).1 = quietSig sm := by
  cases il <;> simp only [setInputLayoutInternal] <;> split_ifs <;> rfl

theorem quietSig_queueVBC (sm : StateManager11) (i b s o : Nat) :
    quietSig (queueVertexBufferChange sm i b s o).1 = quietSig sm := by
  unfold queueVertexBufferChange
  split_ifs <;> rfl

theorem quietSig_applyVBStep (p : DrawCallParams) (reserved : Nat)
    (sm : StateManager11) (k : Nat) :
    quietSig (applyVBStep p reserved sm k) = quietSig sm := by
  unfold applyVBStep
  exact quietSig_queueVBC _ _ _ _ _

theorem quietSig_applyVBChanges (sm : StateManager11) :
    quietSig (applyVertexBufferChanges sm).1 = quietSig sm := by
  simp only [applyVertexBufferChanges]
  split_ifs <;> rfl

theorem quietSig_syncIndexBuffer (sm : StateManager11) (b f o : Nat) :
    quietSig (syncIndexBuffer sm b f o).1 = quietSig sm := by
  unfold syncIndexBuffer
  split_ifs <;> rfl

theorem quietSig_applyVBPointSprites (cfg : RendererConfig) (act : Bool)
    (sm : StateManager11) :
    quietSig (applyVBPointSprites cfg act sm).1 = quietSig sm := by
  simp only [applyVBPointSprites]
  split_ifs <;>
    first
      | exact quietSig_queueVBC _ _ _ _ _
      | exact (quietSig_syncIndexBuffer _ _ _ _).trans
          (quietSig_queueVBC _ _ _ _ _)

theorem quietSig_applyVertexBuffers (cfg : RendererConfig)
    (sm : StateManager11) (gl : GLState) (p : DrawCallParams) :
    quietSig (applyVertexBuffers cfg sm gl p).1 = quietSig sm := by
  simp only [applyVertexBuffers]
  split_ifs
  · exact (quietSig_applyVBChanges _).trans
      ((quietSig_applyVBPointSprites _ _ _).trans
        (foldl_pres _ quietSig (quietSig_applyVBStep p _) _ sm))
  · exact (quietSig_applyVBChanges _).trans
      (foldl_pres _ quietSig (quietSig_applyVBStep p _) _ sm)

theorem quietSig_syncVertexBuffersAndInputLayout (cfg : RendererConfig)
    (sm : StateManager11) (gl : GLState) (p : DrawCallParams) :
    quietSig (syncVertexBuffersAndInputLayout cfg sm gl p).1 = quietSig sm := by
  unfold syncVertexBuffersAndInputLayout
  exact (quietSig_applyVertexBuffers _ _ _ _).trans
    (quietSig_setInputLayoutInternal _ _)

theorem quietSig_setPrimitiveTopologyInternal (sm : StateManager11)
    (t : Nat) :
    quietSig (setPrimitiveTopologyInternal sm t).1 = quietSig sm := by
  unfold setPrimitiveTopologyInternal
  split_ifs <;> rfl

theorem quietSig_syncPrimitiveTopology (cfg : RendererConfig)
    (sm : StateManager11) (gl : GLState) (mode : Nat) :
    quietSig (syncPrimitiveTopology cfg sm gl mode).1 = quietSig sm := by
  simp only [syncPrimitiveTopology]
  split_ifs <;>
    first
      | rfl
      | exact quietSig_setPrimitiveTopologyInternal _ _

theorem DirtyBits.get_set_self (x : DirtyBits) (b : DirtyBit) :
    (x.set b).get b = true := by
  cases b <;> rfl

theorem DirtyBits.get_set_mono {x : DirtyBits} {b : DirtyBit} (b2 : DirtyBit)
    (h : x.get b = true) : (x.set b2).get b = true := by
  cases b <;> cases b2 <;> first | exact h | rfl

/-- One drain iteration: the pre-drain caches are untouched; the sample mask
cache is preserved or refreshed (always refreshed by the blend handler); the
dirty bits are preserved except that the shaders handler clears its own bit;
the external flags are never raised (and the uniforms handler clears the
uniform flags). -/
theorem drainBit_quiet (cfg : RendererConfig) (sm : StateManager11)
    (ext : ExternalFlags) (gl : GLState) (p : DrawCallParams) (b : DirtyBit) :
    drainFrame (drainBit cfg sm ext gl p b).1 = drainFrame sm ∧
    ((drainBit cfg sm ext gl p b).1.mCurSampleMask = sm.mCurSampleMask ∨
      (drainBit cfg sm ext gl p b).1.mCurSampleMask = gl.sampleMask) ∧
    (b = DirtyBit.BLEND_STATE →
      (drainBit cfg sm ext gl p b).1.mCurSampleMask = gl.sampleMask) ∧
    ((drainBit cfg sm ext gl p b).1.mInternalDirtyBits = sm.mInternalDirtyBits ∨
      (drainBit cfg sm ext gl p b).1.mInternalDirtyBits =
        sm.mInternalDirtyBits.resetBit DirtyBit.SHADERS) ∧
    (drainBit cfg sm ext gl p b).2.1.samplerMappingDirty =
      ext.samplerMappingDirty ∧
    ((drainBit cfg sm ext gl p b).2.1.vsUniformsDirty = ext.vsUniformsDirty ∨
      (drainBit cfg sm ext gl p b).2.1.vsUniformsDirty = false) ∧
    ((drainBit cfg sm ext gl p b).2.1.psUniformsDirty = ext.psUniformsDirty ∨
      (drainBit cfg sm ext gl p b).2.1.psUniformsDirty = false) ∧
    (b = DirtyBit.PROGRAM_UNIFORMS →
      (drainBit cfg sm ext gl p b).2.1.vsUniformsDirty = false ∧
      (drainBit cfg sm ext gl p b).2.1.psUniformsDirty = false) := by
  cases b
  case RENDER_TARGET =>
      have h := quietSig_syncFramebuffer cfg sm gl gl.drawFramebuffer
      exact ⟨congrArg Prod.fst h, Or.inl (congrArg (fun t => t.2.1) h),
        fun hb => DirtyBit.noConfusion hb,
        Or.inl (congrArg (fun t => t.2.2) h), rfl, Or.inl rfl, Or.inl rfl,
        fun hb => DirtyBit.noConfusion hb⟩
  case VIEWPORT_STATE =>
      have h := quietSig_syncViewport cfg sm gl
      exact ⟨congrArg Prod.fst h, Or.inl (congrArg (fun t => t.2.1) h),
        fun hb => DirtyBit.noConfusion hb,
        Or.inl (congrArg (fun t => t.2.2) h), rfl, Or.inl rfl, Or.inl rfl,
        fun hb => DirtyBit.noConfusion hb⟩
  case SCISSOR_STATE =>
      have h := quietSig_syncScissor sm gl.scissor gl.scissorTestEnabled
      exact ⟨congrArg Prod.fst h, Or.inl (congrArg (fun t => t.2.1) h),
        fun hb => DirtyBit.noConfusion hb,
        Or.inl (congrArg (fun t => t.2.2) h), rfl, Or.inl rfl, Or.inl rfl,
        fun hb => DirtyBit.noConfusion hb⟩
  case RASTERIZER_STATE =>
      have h := quietSig_syncRasterizer sm gl p
      exact ⟨congrArg Prod.fst h, Or.inl (congrArg (fun t => t.2.1) h),
        fun hb => DirtyBit.noConfusion hb,
        Or.inl (congrArg (fun t => t.2.2) h), rfl, Or.inl rfl, Or.inl rfl,
        fun hb => DirtyBit.noConfusion hb⟩
  case BLEND_STATE =>
      obtain ⟨hf, hm, hb⟩ :=
        syncBlendState_quiet sm gl.blendState gl.blendColor gl.sampleMask
      exact ⟨hf, Or.inr hm, fun _ => hm, Or.inl hb, rfl, Or.inl rfl,
        Or.inl rfl, fun hbad => DirtyBit.noConfusion hbad⟩
  case DEPTH_STENCIL_STATE =>
      have h := quietSig_syncDepthStencil sm gl
      exact ⟨congrArg Prod.fst h, Or.inl (congrArg (fun t => t.2.1) h),
        fun hb => DirtyBit.noConfusion hb,
        Or.inl (congrArg (fun t => t.2.2) h), rfl, Or.inl rfl, Or.inl rfl,
        fun hb => DirtyBit.noConfusion hb⟩
  case TEXTURE_AND_SAMPLER_STATE =>
      have h := quietSig_syncTextures cfg sm gl
      exact ⟨congrArg Prod.fst h, Or.inl (congrArg (fun t => t.2.1) h),
        fun hb => DirtyBit.noConfusion hb,
        Or.inl (congrArg (fun t => t.2.2) h), rfl, Or.inl rfl, Or.inl rfl,
        fun hb => DirtyBit.noConfusion hb⟩
  case PROGRAM_UNIFORMS =>
      obtain ⟨hq, hext⟩ := applyUniforms_quiet sm ext gl
      have hsmp : (drainBit cfg sm ext gl p DirtyBit.PROGRAM_UNIFORMS).2.1 =
          { ext with vsUniformsDirty := false, psUniformsDirty := false } :=
        hext
      exact ⟨congrArg Prod.fst hq, Or.inl (congrArg (fun t => t.2.1) hq),
        fun hb => DirtyBit.noConfusion hb,
        Or.inl (congrArg (fun t => t.2.2) hq),
        by rw [hsmp], Or.inr (by rw [hsmp]), Or.inr (by rw [hsmp]),
        fun _ => ⟨by rw [hsmp], by rw [hsmp]⟩⟩
  case DRIVER_UNIFORMS =>
      have h := quietSig_applyDriverUniforms cfg sm gl
      exact ⟨congrArg Prod.fst h, Or.inl (congrArg (fun t => t.2.1) h),
        fun hb => DirtyBit.noConfusion hb,
        Or.inl (congrArg (fun t => t.2.2) h), rfl, Or.inl rfl, Or.inl rfl,
        fun hb => DirtyBit.noConfusion hb⟩
  case PROGRAM_UNIFORM_BUFFERS =>
      have h := quietSig_syncUniformBuffers cfg sm gl
      exact ⟨congrArg Prod.fst h, Or.inl (congrArg (fun t => t.2.1) h),
        fun hb => DirtyBit.noConfusion hb,
        Or.inl (congrArg (fun t => t.2.2) h), rfl, Or.inl rfl, Or.inl rfl,
        fun hb => DirtyBit.noConfusion hb⟩
  case SHADERS =>
      obtain ⟨hf, hm, hb⟩ := syncProgram_quiet sm gl p.mode
      exact ⟨hf, Or.inl hm, fun hbad => DirtyBit.noConfusion hbad,
        Or.inr hb, rfl, Or.inl rfl, Or.inl rfl,
        fun hbad => DirtyBit.noConfusion hbad⟩
  case CURRENT_VALUE_ATTRIBS =>
      have h := quietSig_syncCurrentValueAttribs sm gl
      exact ⟨congrArg Prod.fst h, Or.inl (congrArg (fun t => t.2.1) h),
        fun hb => DirtyBit.noConfusion hb,
        Or.inl (congrArg (fun t => t.2.2) h), rfl, Or.inl rfl, Or.inl rfl,
        fun hb => DirtyBit.noConfusion hb⟩
  case TRANSFORM_FEEDBACK =>
      obtain ⟨hq, hsmp, hvs, hps⟩ := syncTF_quiet sm ext gl
      exact ⟨congrArg Prod.fst hq, Or.inl (congrArg (fun t => t.2.1) hq),
        fun hb => DirtyBit.noConfusion hb,
        Or.inl (congrArg (fun t => t.2.2) hq), hsmp, Or.inl hvs, Or.inl hps,
        fun hb => DirtyBit.noConfusion hb⟩
  case VERTEX_BUFFERS_AND_INPUT_LAYOUT =>
      have h := quietSig_syncVertexBuffersAndInputLayout cfg sm gl p
      exact ⟨congrArg Prod.fst h, Or.inl (congrArg (fun t => t.2.1) h),
        fun hb => DirtyBit.noConfusion hb,
        Or.inl (congrArg (fun t => t.2.2) h), rfl, Or.inl rfl, Or.inl rfl,
        fun hb => DirtyBit.noConfusion hb⟩
  case PRIMITIVE_TOPOLOGY =>
      have h := quietSig_syncPrimitiveTopology cfg sm gl p.mode
      exact ⟨congrArg Prod.fst h, Or.inl (congrArg (fun t => t.2.1) h),
        fun hb => DirtyBit.noConfusion hb,
        Or.inl (congrArg (fun t => t.2.2) h), rfl, Or.inl rfl, Or.inl rfl,
        fun hb => DirtyBit.noConfusion hb⟩

/-- The drain loop invariant: pre-drain caches preserved, an empty bit set
stays empty, the sample mask cache ends equal to the logical mask once it
matched or the blend group is drained, the sampler mapping flag is
preserved, clean uniform flags stay clean and draining the uniforms group
cleans them. -/
theorem drainFold_inv (cfg : RendererConfig) (gl : GLState)
    (p : DrawCallParams) :
    ∀ (L : List DirtyBit)
      (acc : StateManager11 × ExternalFlags × List DeviceCall),
    drainFrame (L.foldl (drainStep cfg gl p) acc).1 = drainFrame acc.1 ∧
    (acc.1.mInternalDirtyBits = DirtyBits.noneSet →
      (L.foldl (drainStep cfg gl p) acc).1.mInternalDirtyBits =
        DirtyBits.noneSet) ∧
    ((acc.1.mCurSampleMask = gl.sampleMask ∨ DirtyBit.BLEND_STATE ∈ L) →
      (L.foldl (drainStep cfg gl p) acc).1.mCurSampleMask = gl.sampleMask) ∧
    (L.foldl (drainStep cfg gl p) acc).2.1.samplerMappingDirty =
      acc.2.1.samplerMappingDirty ∧
    (((acc.2.1.vsUniformsDirty = false ∧ acc.2.1.psUniformsDirty = false) ∨
        DirtyBit.PROGRAM_UNIFORMS ∈ L) →
      ((L.foldl (drainStep cfg gl p) acc).2.1.vsUniformsDirty = false ∧
       (L.foldl (drainStep cfg gl p) acc).2.1.psUniformsDirty = false)) := by
  intro L
  induction L with
  | nil =>
      intro acc
      refine ⟨rfl, fun h => h, ?_, rfl, ?_⟩
      · rintro (h | h)
        · exact h
        · exact absurd h (List.not_mem_nil _)
      · rintro (h | h)
        · exact h
        · exact absurd h (List.not_mem_nil _)
  | cons b rest ih =>
      intro acc
      rw [List.foldl_cons]
      obtain ⟨I1, I2, I3, I4, I5⟩ := ih (drainStep cfg gl p acc b)
      obtain ⟨D1, D2, D3, D4, D5, D6, D7, D8⟩ :=
        drainBit_quiet cfg acc.1 acc.2.1 gl p b
      refine ⟨I1.trans D1, ?_, ?_, I4.trans D5, ?_⟩
      · intro h
        rcases D4 with hd | hd
        · exact I2 (hd.trans h)
        · rw [h] at hd
          exact I2 (hd.trans rfl)
      · rintro (h | hmem)
        · have hstep : (drainStep cfg gl p acc b).1.mCurSampleMask =
              gl.sampleMask := by
            rcases D2 with h2 | h2
            · exact h2.trans h
            · exact h2
          exact I3 (Or.inl hstep)
        · rcases List.mem_cons.mp hmem with heq | hmem2
          · subst heq
            exact I3 (Or.inl (D3 rfl))
          · exact I3 (Or.inr hmem2)
      · rintro (⟨hv, hp2⟩ | hmem)
        · have hv2 : (drainStep cfg gl p acc b).2.1.vsUniformsDirty = false := by
            rcases D6 with h6 | h6
            · exact h6.trans hv
            · exact h6
          have hp3 : (drainStep cfg gl p acc b).2.1.psUniformsDirty = false := by
            rcases D7 with h7 | h7
            · exact h7.trans hp2
            · exact h7
          exact I5 (Or.inl ⟨hv2, hp3⟩)
        · rcases List.mem_cons.mp hmem with heq | hmem2
          · subst heq
            exact I5 (Or.inl (D8 rfl))
          · exact I5 (Or.inr hmem2)

/-- updateState, restated as the pre-drain prologue followed by the drain of
the snapshot bits. -/
theorem updateState_eq (cfg : RendererConfig) (sm : StateManager11)
    (ext : ExternalFlags) (gl : GLState) (p : DrawCallParams) :
    updateState cfg sm ext gl p =
      ((drainAll cfg
          { (preDrain cfg sm ext gl p).1 with
              mInternalDirtyBits := DirtyBits.noneSet }
          (preDrain cfg sm ext gl p).2.1 gl p
          (drainOrder.filter (fun bit =>
            ((preDrain cfg sm ext gl p).1.mInternalDirtyBits).get bit))).1,
       (drainAll cfg
          { (preDrain cfg sm ext gl p).1 with
              mInternalDirtyBits := DirtyBits.noneSet }
          (preDrain cfg sm ext gl p).2.1 gl p
          (drainOrder.filter (fun bit =>
            ((preDrain cfg sm ext gl p).1.mInternalDirtyBits).get bit))).2.1,
       (preDrain cfg sm ext gl p).2.2 ++
         (drainAll cfg
            { (preDrain cfg sm ext gl p).1 with
                mInternalDirtyBits := DirtyBits.noneSet }
            (preDrain cfg sm ext gl p).2.1 gl p
            (drainOrder.filter (fun bit =>
              ((preDrain cfg sm ext gl p).1.mInternalDirtyBits).get bit))).2.2) :=
  rfl

/-- C5: for every sync pass, after the internal dirty bit snapshot is taken,
cleared and drained in the fixed order, the internal dirty bit set is empty
again — no synchronizer invoked during the drain leaves an internal dirty
bit set (the shaders handler transiently sets its own bit and explicitly
clears it), so the end-of-pass assertion that no dirty bits remain is
valid. -/
theorem claim_c5_drain_leaves_no_dirty_bits (cfg : RendererConfig)
    (sm : StateManager11) (ext : ExternalFlags) (gl : GLState)
    (p : DrawCallParams) :
    (updateState cfg sm ext gl p).1.mInternalDirtyBits = DirtyBits.noneSet := by
  rw [updateState_eq]
  exact (drainFold_inv cfg gl p _ _).2.1 rfl

theorem pfiUpdateDisableFlags_rt (sm : StateManager11) (gl : GLState) :
    (pfiUpdateDisableFlags sm gl).mRenderTargetIsDirty =
      sm.mRenderTargetIsDirty := by
  simp only [pfiUpdateDisableFlags]
  split_ifs <;> rfl

theorem pfiUpdateMultisample_rt (sm : StateManager11) (gl : GLState) :
    (pfiUpdateMultisample sm gl).mRenderTargetIsDirty =
      sm.mRenderTargetIsDirty := by
  simp only [pfiUpdateMultisample]
  split_ifs <;> rfl

theorem checkPresentPath_rt (cfg : RendererConfig) (sm : StateManager11)
    (gl : GLState) :
    (checkPresentPath cfg sm gl).mRenderTargetIsDirty =
      sm.mRenderTargetIsDirty := by
  simp only [checkPresentPath]
  split_ifs <;> rfl

theorem pfiUpdateViewportBounds_rt (cfg : RendererConfig)
    (sm : StateManager11) (gl : GLState) :
    (pfiUpdateViewportBounds cfg sm gl).mRenderTargetIsDirty =
      sm.mRenderTargetIsDirty := by
  simp only [pfiUpdateViewportBounds]
  split_ifs <;> rfl

/-- processFramebufferInvalidation always leaves the deferred framebuffer
flag cleared. -/
theorem pfi_rt_false (cfg : RendererConfig) (sm : StateManager11)
    (gl : GLState) :
    (processFramebufferInvalidation cfg sm gl).mRenderTargetIsDirty =
      false := by
  unfold processFramebufferInvalidation
  split_ifs with h
  · simpa using h
  · exact (pfiUpdateViewportBounds_rt _ _ _).trans
      ((checkPresentPath_rt _ _ _).trans
        ((pfiUpdateMultisample_rt _ _).trans (pfiUpdateDisableFlags_rt _ _)))

theorem pfi_id (cfg : RendererConfig) (sm : StateManager11) (gl : GLState)
    (h : sm.mRenderTargetIsDirty = false) :
    processFramebufferInvalidation cfg sm gl = sm := by
  unfold processFramebufferInvalidation
  rw [h]
  rfl

theorem preSamplerMapping_facts (sm : StateManager11) (ext : ExternalFlags) :
    (preSamplerMapping sm ext).1.mRenderTargetIsDirty =
      sm.mRenderTargetIsDirty ∧
    (preSamplerMapping sm ext).2.samplerMappingDirty = false ∧
    (preSamplerMapping sm ext).2.vsUniformsDirty = ext.vsUniformsDirty ∧
    (preSamplerMapping sm ext).2.psUniformsDirty = ext.psUniformsDirty := by
  unfold preSamplerMapping
  split_ifs with h
  · exact ⟨rfl, rfl, rfl, rfl⟩
  · exact ⟨rfl, by simpa using h, rfl, rfl⟩

theorem preSamplerMapping_id (sm : StateManager11) (ext : ExternalFlags)
    (h : ext.samplerMappingDirty = false) :
    preSamplerMapping sm ext = (sm, ext) := by
  unfold preSamplerMapping
  rw [h]
  rfl

theorem preUniformFlags_facts (sm : StateManager11) (ext : ExternalFlags) :
    ((ext.vsUniformsDirty = false ∧ ext.psUniformsDirty = false) ∨
      (preUniformFlags sm ext).mInternalDirtyBits.get
        DirtyBit.PROGRAM_UNIFORMS = true) ∧
    (preUniformFlags sm ext).mRenderTargetIsDirty = sm.mRenderTargetIsDirty := by
  unfold preUniformFlags
  split_ifs with h
  · exact ⟨Or.inr (DirtyBits.get_set_self sm.mInternalDirtyBits
      DirtyBit.PROGRAM_UNIFORMS), rfl⟩
  · refine ⟨Or.inl ?_, rfl⟩
    have h2 : (ext.vsUniformsDirty || ext.psUniformsDirty) = false := by
      simpa [ExternalFlags.anyShaderUniformsDirty] using h
    exact ⟨by simpa using (Bool.or_eq_false_iff.mp h2).1,
      by simpa using (Bool.or_eq_false_iff.mp h2).2⟩

theorem preUniformFlags_id (sm : StateManager11) (ext : ExternalFlags)
    (h1 : ext.vsUniformsDirty = false) (h2 : ext.psUniformsDirty = false) :
    preUniformFlags sm ext = sm := by
  unfold preUniformFlags
  rw [if_neg]
  simp [ExternalFlags.anyShaderUniformsDirty, h1, h2]

theorem preSwizzles_facts (sm : StateManager11) :
    (preSwizzles sm).mDirtySwizzles = false ∧
    (preSwizzles sm).mRenderTargetIsDirty = sm.mRenderTargetIsDirty ∧
    (preSwizzles sm).mInternalDirtyBits = sm.mInternalDirtyBits := by
  unfold preSwizzles
  split_ifs with h
  · exact ⟨rfl, rfl, rfl⟩
  · exact ⟨by simpa using h, rfl, rfl⟩

theorem preSwizzles_id (sm : StateManager11) (h : sm.mDirtySwizzles = false) :
    preSwizzles sm = sm := by
  unfold preSwizzles
  rw [h]
  rfl

theorem preSampleMask_facts (sm : StateManager11) (mask : Nat) :
    ((preSampleMask sm mask).mCurSampleMask = mask ∨
      (preSampleMask sm mask).mInternalDirtyBits.get
        DirtyBit.BLEND_STATE = true) ∧
    (preSampleMask sm mask).mRenderTargetIsDirty = sm.mRenderTargetIsDirty ∧
    (preSampleMask sm mask).mDirtySwizzles = sm.mDirtySwizzles ∧
    (preSampleMask sm mask).mCurSampleMask = sm.mCurSampleMask ∧
    (∀ bb : DirtyBit, sm.mInternalDirtyBits.get bb = true →
      (preSampleMask sm mask).mInternalDirtyBits.get bb = true) := by
  unfold preSampleMask
  split_ifs with h
  · exact ⟨Or.inr (DirtyBits.get_set_self sm.mInternalDirtyBits
        DirtyBit.BLEND_STATE), rfl, rfl, rfl,
      fun bb hb => DirtyBits.get_set_mono DirtyBit.BLEND_STATE hb⟩
  · push_neg at h
    exact ⟨Or.inl h.symm, rfl, rfl, rfl, fun bb hb => hb⟩

theorem preSampleMask_id (sm : StateManager11) (mask : Nat)
    (h : sm.mCurSampleMask = mask) : preSampleMask sm mask = sm := by
  unfold preSampleMask
  rw [if_neg]
  simp [h]

theorem preFirstVertex_facts (sm : StateManager11) (fv : Int) :
    (preFirstVertex sm fv).mLastFirstVertex = some fv ∧
    (preFirstVertex sm fv).mRenderTargetIsDirty = sm.mRenderTargetIsDirty ∧
    (preFirstVertex sm fv).mDirtySwizzles = sm.mDirtySwizzles ∧
    (preFirstVertex sm fv).mCurSampleMask = sm.mCurSampleMask ∧
    (∀ bb : DirtyBit, sm.mInternalDirtyBits.get bb = true →
      (preFirstVertex sm fv).mInternalDirtyBits.get bb = true) := by
  unfold preFirstVertex
  split_ifs with h
  · exact ⟨rfl, rfl, rfl, rfl,
      fun bb hb => DirtyBits.get_set_mono
        DirtyBit.VERTEX_BUFFERS_AND_INPUT_LAYOUT hb⟩
  · push_neg at h
    exact ⟨h, rfl, rfl, rfl, fun bb hb => hb⟩

theorem preFirstVertex_id (sm : StateManager11) (fv : Int)
    (h : sm.mLastFirstVertex = some fv) : preFirstVertex sm fv = sm := by
  unfold preFirstVertex
  rw [if_neg]
  simp [h]

theorem applyIndexBuffer_post (sm : StateManager11) (gl : GLState)
    (p : DrawCallParams) :
    (applyIndexBuffer sm gl p).1.mIndexBufferIsDirty = false ∧
    (applyIndexBuffer sm gl p).1.mRenderTargetIsDirty =
      sm.mRenderTargetIsDirty ∧
    (applyIndexBuffer sm gl p).1.mDirtySwizzles = sm.mDirtySwizzles ∧
    (applyIndexBuffer sm gl p).1.mCurSampleMask = sm.mCurSampleMask ∧
    (applyIndexBuffer sm gl p).1.mLastFirstVertex = sm.mLastFirstVertex ∧
    (applyIndexBuffer sm gl p).1.mInternalDirtyBits =
      sm.mInternalDirtyBits := by
  simp only [applyIndexBuffer, syncIndexBuffer]
  split_ifs with h
  · refine ⟨?_, rfl, rfl, rfl, rfl, rfl⟩
    simpa using h
  all_goals exact ⟨rfl, rfl, rfl, rfl, rfl, rfl⟩

theorem applyIndexBuffer_id (sm : StateManager11) (gl : GLState)
    (p : DrawCallParams) (h : sm.mIndexBufferIsDirty = false) :
    applyIndexBuffer sm gl p = (sm, []) := by
  unfold applyIndexBuffer
  rw [h]
  rfl

theorem preIndexBuffer_facts (sm : StateManager11) (gl : GLState)
    (p : DrawCallParams) :
    (p.isDrawElements = true →
      (preIndexBuffer sm gl p).1.mIndexBufferIsDirty = false) ∧
    (preIndexBuffer sm gl p).1.mRenderTargetIsDirty =
      sm.mRenderTargetIsDirty ∧
    (preIndexBuffer sm gl p).1.mDirtySwizzles = sm.mDirtySwizzles ∧
    (preIndexBuffer sm gl p).1.mCurSampleMask = sm.mCurSampleMask ∧
    (preIndexBuffer sm gl p).1.mLastFirstVertex = sm.mLastFirstVertex ∧
    ((p.isDrawElements = true → sm.mIndexBufferIsDirty = false) →
      (preIndexBuffer sm gl p).1.mIndexBufferIsDirty =
        sm.mIndexBufferIsDirty) ∧
    (preIndexBuffer sm gl p).1.mInternalDirtyBits =
      sm.mInternalDirtyBits := by
  obtain ⟨a1, a2, a3, a4, a5, a6⟩ := applyIndexBuffer_post sm gl p
  unfold preIndexBuffer
  split_ifs with h
  · exact ⟨fun _ => a1, a2, a3, a4, a5,
      fun hib => a1.trans (hib h).symm, a6⟩
  · exact ⟨fun hd => absurd hd h, rfl, rfl, rfl, rfl, fun _ => rfl, rfl⟩

theorem preIndexBuffer_noop (sm : StateManager11) (gl : GLState)
    (p : DrawCallParams)
    (h : p.isDrawElements = true → sm.mIndexBufferIsDirty = false) :
    preIndexBuffer sm gl p = (sm, []) := by
  unfold preIndexBuffer
  split_ifs with hd
  · exact applyIndexBuffer_id sm gl p (h hd)
  · rfl

theorem preDrawMode_facts (sm : StateManager11) (p : DrawCallParams) :
    (preDrawMode sm p).mLastAppliedDrawMode = p.mode ∧
    (preDrawMode sm p).mRenderTargetIsDirty = sm.mRenderTargetIsDirty ∧
    (preDrawMode sm p).mDirtySwizzles = sm.mDirtySwizzles ∧
    (preDrawMode sm p).mCurSampleMask = sm.mCurSampleMask ∧
    (preDrawMode sm p).mLastFirstVertex = sm.mLastFirstVertex ∧
    (preDrawMode sm p).mIndexBufferIsDirty = sm.mIndexBufferIsDirty ∧
    (∀ bb : DirtyBit, sm.mInternalDirtyBits.get bb = true →
      (preDrawMode sm p).mInternalDirtyBits.get bb = true) := by
  simp only [preDrawMode]
  split_ifs with h1 h2
  · exact ⟨rfl, rfl, rfl, rfl, rfl, rfl, fun bb hb =>
      DirtyBits.get_set_mono DirtyBit.SHADERS
        (DirtyBits.get_set_mono DirtyBit.RASTERIZER_STATE
          (DirtyBits.get_set_mono DirtyBit.PRIMITIVE_TOPOLOGY hb))⟩
  · exact ⟨rfl, rfl, rfl, rfl, rfl, rfl, fun bb hb =>
      DirtyBits.get_set_mono DirtyBit.PRIMITIVE_TOPOLOGY hb⟩
  · push_neg at h1
    exact ⟨h1, rfl, rfl, rfl, rfl, rfl, fun bb hb => hb⟩

theorem preDrawMode_id (sm : StateManager11) (p : DrawCallParams)
    (h : sm.mLastAppliedDrawMode = p.mode) : preDrawMode sm p = sm := by
  simp only [preDrawMode]
  rw [if_neg]
  simp [h]

/-- The facts the pre-drain prologue guarantees at the snapshot point. -/
theorem preDrain_facts (cfg : RendererConfig) (sm : StateManager11)
    (ext : ExternalFlags) (gl : GLState) (p : DrawCallParams) :
    (preDrain cfg sm ext gl p).1.mRenderTargetIsDirty = false ∧
    (preDrain cfg sm ext gl p).1.mDirtySwizzles = false ∧
    (preDrain cfg sm ext gl p).1.mLastFirstVertex = some p.firstVertex ∧
    (preDrain cfg sm ext gl p).1.mLastAppliedDrawMode = p.mode ∧
    (p.isDrawElements = true →
      (preDrain cfg sm ext gl p).1.mIndexBufferIsDirty = false) ∧
    ((preDrain cfg sm ext gl p).1.mCurSampleMask = gl.sampleMask ∨
      (preDrain cfg sm ext gl p).1.mInternalDirtyBits.get
        DirtyBit.BLEND_STATE = true) ∧
    (((preDrain cfg sm ext gl p).2.1.vsUniformsDirty = false ∧
      (preDrain cfg sm ext gl p).2.1.psUniformsDirty = false) ∨
      (preDrain cfg sm ext gl p).1.mInternalDirtyBits.get
        DirtyBit.PROGRAM_UNIFORMS = true) ∧
    (preDrain cfg sm ext gl p).2.1.samplerMappingDirty = false := by
  set s1 := processFramebufferInvalidation cfg sm gl with hs1
  set e2 := preSamplerMapping s1 ext with he2
  set s3 := preUniformFlags e2.1 e2.2 with hs3
  set s4 := preSwizzles s3 with hs4
  set s5 := preSampleMask s4 gl.sampleMask with hs5
  set s6 := preFirstVertex s5 p.firstVertex with hs6
  set i7 := preIndexBuffer s6 gl p with hi7
  set s8 := preDrawMode i7.1 p with hs8
  have hpre : preDrain cfg sm ext gl p = (s8, e2.2, i7.2) := rfl
  rw [hpre]
  obtain ⟨sp1, sp2, sp3, sp4⟩ := preSamplerMapping_facts s1 ext
  obtain ⟨uf1, uf2⟩ := preUniformFlags_facts e2.1 e2.2
  obtain ⟨sw1, sw2, sw3⟩ := preSwizzles_facts s3
  obtain ⟨ms1, ms2, ms3, ms4, ms5⟩ := preSampleMask_facts s4 gl.sampleMask
  obtain ⟨fv1, fv2, fv3, fv4, fv5⟩ := preFirstVertex_facts s5 p.firstVertex
  obtain ⟨ib1, ib2, ib3, ib4, ib5, ib6, ib7⟩ := preIndexBuffer_facts s6 gl p
  obtain ⟨dm1, dm2, dm3, dm4, dm5, dm6, dm7⟩ := preDrawMode_facts i7.1 p
  refine ⟨?_, ?_, ?_, dm1, ?_, ?_, ?_, sp2⟩
  · exact dm2.trans (ib2.trans (fv2.trans (ms2.trans (sw2.trans
      (uf2.trans (sp1.trans (pfi_rt_false cfg sm gl)))))))
  · exact dm3.trans (ib3.trans (fv3.trans (ms3.trans sw1)))
  · exact dm5.trans (ib5.trans fv1)
  · intro hd
    exact dm6.trans (ib1 hd)
  · rcases ms1 with hm | hb
    · exact Or.inl (dm4.trans (ib4.trans (fv4.trans hm)))
    · refine Or.inr (dm7 DirtyBit.BLEND_STATE ?_)
      exact (congrArg (fun x => DirtyBits.get x DirtyBit.BLEND_STATE)
        ib7).trans (fv5 DirtyBit.BLEND_STATE hb)
  · rcases uf1 with hflags | hbit
    · exact Or.inl hflags
    · refine Or.inr (dm7 DirtyBit.PROGRAM_UNIFORMS ?_)
      refine (congrArg (fun x => DirtyBits.get x DirtyBit.PROGRAM_UNIFORMS)
        ib7).trans ?_
      refine fv5 DirtyBit.PROGRAM_UNIFORMS ?_
      refine ms5 DirtyBit.PROGRAM_UNIFORMS ?_
      exact (congrArg (fun x => DirtyBits.get x DirtyBit.PROGRAM_UNIFORMS)
        sw3).trans hbit

/-- The pre-drain prologue is the identity on a quiescent state. -/
theorem preDrain_id (cfg : RendererConfig) (sm : StateManager11)
    (ext : ExternalFlags) (gl : GLState) (p : DrawCallParams)
    (h1 : sm.mRenderTargetIsDirty = false)
    (h2 : ext.samplerMappingDirty = false)
    (h3 : ext.vsUniformsDirty = false) (h4 : ext.psUniformsDirty = false)
    (h5 : sm.mDirtySwizzles = false)
    (h6 : sm.mCurSampleMask = gl.sampleMask)
    (h7 : sm.mLastFirstVertex = some p.firstVertex)
    (h8 : p.isDrawElements = true → sm.mIndexBufferIsDirty = false)
    (h9 : sm.mLastAppliedDrawMode = p.mode) :
    preDrain cfg sm ext gl p = (sm, ext, []) := by
  have e1 := pfi_id cfg sm gl h1
  have e2 := preSamplerMapping_id sm ext h2
  have e3 := preUniformFlags_id sm ext h3 h4
  have e4 := preSwizzles_id sm h5
  have e5 := preSampleMask_id sm gl.sampleMask h6
  have e6 := preFirstVertex_id sm p.firstVertex h7
  have e7 := preIndexBuffer_noop sm gl p h8
  have e8 := preDrawMode_id sm p h9
  simp only [preDrain, e1, e2, e3, e4, e5, e6, e7, e8]

/-- The state updateState leaves behind: no dirty bits, the deferred flags
cleared, the draw-call caches refreshed, the sample mask cache equal to the
logical mask, and the external uniform/sampler flags cleared. -/
theorem updateState_post (cfg : RendererConfig) (sm : StateManager11)
    (ext : ExternalFlags) (gl : GLState) (p : DrawCallParams) :
    (updateState cfg sm ext gl p).1.mInternalDirtyBits = DirtyBits.noneSet ∧
    (updateState cfg sm ext gl p).1.mRenderTargetIsDirty = false ∧
    (updateState cfg sm ext gl p).1.mDirtySwizzles = false ∧
    (updateState cfg sm ext gl p).1.mLastFirstVertex = some p.firstVertex ∧
    (updateState cfg sm ext gl p).1.mLastAppliedDrawMode = p.mode ∧
    (p.isDrawElements = true →
      (updateState cfg sm ext gl p).1.mIndexBufferIsDirty = false) ∧
    (updateState cfg sm ext gl p).1.mCurSampleMask = gl.sampleMask ∧
    (updateState cfg sm ext gl p).2.1.samplerMappingDirty = false ∧
    (updateState cfg sm ext gl p).2.1.vsUniformsDirty = false ∧
    (updateState cfg sm ext gl p).2.1.psUniformsDirty = false := by
  obtain ⟨A1, A2, A3, A4, A5, A6, A7, A8⟩ := preDrain_facts cfg sm ext gl p
  obtain ⟨F1, F2, F3, F4, F5⟩ := drainFold_inv cfg gl p
    (drainOrder.filter (fun bit =>
      ((preDrain cfg sm ext gl p).1.mInternalDirtyBits).get bit))
    ({ (preDrain cfg sm ext gl p).1 with
        mInternalDirtyBits := DirtyBits.noneSet },
      (preDrain cfg sm ext gl p).2.1, [])
  rw [updateState_eq]
  refine ⟨F2 rfl, ?_, ?_, ?_, ?_, ?_, ?_, ?_, ?_, ?_⟩
  · exact (congrArg (fun t => t.1) F1).trans A1
  · exact (congrArg (fun t => t.2.1) F1).trans A2
  · exact (congrArg (fun t => t.2.2.1) F1).trans A3
  · exact (congrArg (fun t => t.2.2.2.1) F1).trans A4
  · intro hd
    exact (congrArg (fun t => t.2.2.2.2) F1).trans (A5 hd)
  · rcases A6 with hm | hb
    · exact F3 (Or.inl hm)
    · exact F3 (Or.inr (List.mem_filter.mpr ⟨by decide, hb⟩))
  · exact F4.trans A8
  · rcases A7 with ⟨hvs, hps⟩ | hb
    · exact (F5 (Or.inl ⟨hvs, hps⟩)).1
    · exact (F5 (Or.inr (List.mem_filter.mpr ⟨by decide, hb⟩))).1
  · rcases A7 with ⟨hvs, hps⟩ | hb
    · exact (F5 (Or.inl ⟨hvs, hps⟩)).2
    · exact (F5 (Or.inr (List.mem_filter.mpr ⟨by decide, hb⟩))).2

/-- C1: the sync pass is idempotent — running updateState a second time on
the state and external flags the first run left behind, with the same
logical state and draw parameters, issues zero device binding calls: the
pre-drain prologue finds every cache current (so it is the identity and
contributes no index buffer call), the dirty bit snapshot is empty, and the
drain of an empty work list invokes no synchronizer. -/
theorem claim_c1_sync_idempotent (cfg : RendererConfig)
    (sm : StateManager11) (ext : ExternalFlags) (gl : GLState)
    (p : DrawCallParams) :
    (updateState cfg (updateState cfg sm ext gl p).1
      (updateState cfg sm ext gl p).2.1 gl p).2.2 = [] := by
  obtain ⟨G1, G2, G3, G4, G5, G6, G7, G8, G9, G10⟩ :=
    updateState_post cfg sm ext gl p
  have hpre := preDrain_id cfg (updateState cfg sm ext gl p).1
    (updateState cfg sm ext gl p).2.1 gl p G2 G8 G9 G10 G3 G7 G4 G6 G5
  rw [updateState_eq cfg (updateState cfg sm ext gl p).1
    (updateState cfg sm ext gl p).2.1 gl p, hpre]
  dsimp only
  rw [G1]
  rfl

end DrainQuietLemmas

end Rx
